import Mathlib

/-!
# MacroQuest spell utilities: value calculator and buff stacking resolver

A shallow embedding of the spell-effect accessors, `CalcValue`, `CalcDuration`,
`CalcMaxSpellLevel`, `LargerEffectTest`, `TriggeringEffectSpell`, `SpellEffectTest`,
`BuffStackTest`, `ParseSpellEffect`, `ShowSpellSlotInfo`, `IsRecursiveEffect2`,
`PopulateTriggeredmap`, `GetSpellParent`, `GetSpellCategory`, `GetSpellSubcategory`,
`IsSpellClassUsable` and `GetSpellByName` of `src/MQ2Main/MQ2Utilities.cpp`, with
theorems about them.

Conventions of the embedding:

* `LONG` and `int` are 32-bit two's-complement integers.  Values are carried as
  `Int`; every arithmetic operation of the source that can leave the 32-bit
  range is wrapped with `wrap32`, which is the identity on the range.
* `/` on integers is C division (truncating towards zero), `Int.tdiv`.
* A spell reference `PSPELL` is either null or designates a readable `SPELL`.
* Dereferencing a null reference is a fault, reported as `StackResult.fault`.
* The debug tracing (`gStackingDebug`) only writes to log sinks and is left out.
* Texts are strings; a `strcat_s` on a caller-supplied buffer that does not fit is a
  runtime-constraint violation, reported as `none`.
* The maps `s_triggeredSpells` and `s_spellNameMap` are carried as a lookup function and
  as the list of the entries in key order.
-/

namespace MQ2

/-! ## 32-bit integer arithmetic -/

/-- Reduction of an integer to the 32-bit two's-complement range. -/
def wrap32 (x : Int) : Int := (x + 2147483648) % 4294967296 - 2147483648

/-- Addition on `LONG`. -/
def add32 (a b : Int) : Int := wrap32 (a + b)

/-- Subtraction on `LONG`. -/
def sub32 (a b : Int) : Int := wrap32 (a - b)

/-- Multiplication on `LONG`. -/
def mul32 (a b : Int) : Int := wrap32 (a * b)

/-- Unary minus on `LONG`. -/
def neg32 (a : Int) : Int := wrap32 (-a)

/-- The C library `abs` on `LONG`: the magnitude, reduced to 32 bits. -/
def abs32 (a : Int) : Int := wrap32 (if a < 0 then -a else a)

/-- A value strictly between the least `LONG` and `2^31`: a `LONG` whose
magnitude is itself a `LONG`. -/
def InRange (x : Int) : Prop := -2147483648 < x ∧ x < 2147483648

instance (x : Int) : Decidable (InRange x) := by unfold InRange; infer_instance

/-! ## Value calculator -/

/-- The `switch (calc)` of `CalcValue`: the value it leaves in `change`
(the codes 0, 100 and 3000 have returned before it is consulted). -/
def CalcValue_change (calc_ base max tick level : Int) : Int :=
  if calc_ = 100 then 0
  else if calc_ = 101 then Int.tdiv level 2
  else if calc_ = 102 then level
  else if calc_ = 103 then mul32 level 2
  else if calc_ = 104 then mul32 level 3
  else if calc_ = 105 then mul32 level 4
  else if calc_ = 106 then mul32 level 5
  else if calc_ = 107 then mul32 (-1) tick
  else if calc_ = 108 then mul32 (-2) tick
  else if calc_ = 109 then Int.tdiv level 4
  else if calc_ = 110 then Int.tdiv level 6
  else if calc_ = 111 then (if level > 16 then mul32 (sub32 level 16) 6 else 0)
  else if calc_ = 112 then (if level > 24 then mul32 (sub32 level 24) 8 else 0)
  else if calc_ = 113 then (if level > 34 then mul32 (sub32 level 34) 10 else 0)
  else if calc_ = 114 then (if level > 44 then mul32 (sub32 level 44) 15 else 0)
  else if calc_ = 115 then (if level > 15 then mul32 (sub32 level 15) 7 else 0)
  else if calc_ = 116 then (if level > 24 then mul32 (sub32 level 24) 10 else 0)
  else if calc_ = 117 then (if level > 34 then mul32 (sub32 level 34) 13 else 0)
  else if calc_ = 118 then (if level > 44 then mul32 (sub32 level 44) 20 else 0)
  else if calc_ = 119 then Int.tdiv level 8
  else if calc_ = 120 then mul32 (-5) tick
  else if calc_ = 121 then Int.tdiv level 3
  else if calc_ = 122 then mul32 (-12) tick
  else if calc_ = 123 then (if tick > 1 then sub32 (abs32 max) (abs32 base) else 0)
  else if calc_ = 124 then (if level > 50 then sub32 level 50 else 0)
  else if calc_ = 125 then (if level > 50 then mul32 (sub32 level 50) 2 else 0)
  else if calc_ = 126 then (if level > 50 then mul32 (sub32 level 50) 3 else 0)
  else if calc_ = 127 then (if level > 50 then mul32 (sub32 level 50) 4 else 0)
  else if calc_ = 128 then (if level > 50 then mul32 (sub32 level 50) 5 else 0)
  else if calc_ = 129 then (if level > 50 then mul32 (sub32 level 50) 10 else 0)
  else if calc_ = 130 then (if level > 50 then mul32 (sub32 level 50) 15 else 0)
  else if calc_ = 131 then (if level > 50 then mul32 (sub32 level 50) 20 else 0)
  else if calc_ = 132 then (if level > 50 then mul32 (sub32 level 50) 25 else 0)
  else if calc_ = 139 then (if level > 30 then Int.tdiv (sub32 level 30) 2 else 0)
  else if calc_ = 140 then (if level > 30 then sub32 level 30 else 0)
  else if calc_ = 141 then (if level > 30 then Int.tdiv (mul32 3 (sub32 level 30)) 2 else 0)
  else if calc_ = 142 then (if level > 30 then mul32 2 (sub32 level 30) else 0)
  else if calc_ = 143 then Int.tdiv (mul32 3 level) 4
  else
    -- default:
    let change := 0
    let change := if calc_ > 0 ∧ calc_ < 1000 then mul32 level calc_ else change
    let change := if calc_ ≥ 1000 ∧ calc_ < 2000 then mul32 (mul32 tick (sub32 calc_ 1000)) (-1) else change
    let change := if calc_ ≥ 2000 then mul32 level (sub32 calc_ 2000) else change
    change

/-- `CalcValue` (MQ2Utilities.cpp, 2115-2288). -/
def CalcValue (calc_ base max tick minlevel level : Int) : Int :=
  if calc_ = 0 then base
  else if calc_ = 100 then
    if max > 0 ∧ (base > max ∨ level > minlevel) then max else base
  else if calc_ = 3000 then base
  else
    let change := CalcValue_change calc_ base max tick level
    let adjustment := 0
    let value := add32 (add32 (abs32 base) adjustment) change
    let value := if max ≠ 0 ∧ value > abs32 max then abs32 max else value
    let value := if base < 0 then neg32 value else value
    value

/-! ## Spell data and the effect accessor layer -/

/-- One effect slot (`SPELLCALCINFO`): the five integer fields read by the accessors. -/
structure SPELLCALCINFO where
  Attrib : Int
  Base : Int
  Base2 : Int
  Max : Int
  Calc : Int
deriving DecidableEq, Repr

/-- The fields of a spell definition (`SPELL`) read by the functions below. -/
structure SPELL where
  ID : Int
  NumEffects : Int
  CalcIndex : Int
  SpellGroup : Int
  SpellType : Int
  DurationWindow : Int
  TargetType : Int
deriving DecidableEq, Repr

/-- A spell reference: `none` is the null pointer. -/
abbrev PSPELL := Option SPELL

/-- The spell manager: `GetSpellAffect` yields the slot stored at an index of the
global effect table, or null. -/
structure ClientSpellManager where
  GetSpellAffect : Int → Option SPELLCALCINFO

/-- The `EVERQUEST` object, of which only `GameState` is read. -/
structure EVERQUEST where
  GameState : Int

/-- The local player spawn; `GetCharacter` tells whether `GetCharacter()` is non-null. -/
structure SPAWNINFO where
  GetCharacter : Bool

/-- The process state the functions read: global pointers, the by-ID spell lookup,
the zoning flag, and the constant `GAMESTATE_INGAME` (declared outside this file). -/
structure Globals where
  pSpellMgr : Option ClientSpellManager
  GetSpellByID : Int → PSPELL
  pLocalPlayer : Option SPAWNINFO
  ppEverQuest : Bool
  pEverQuest : Option EVERQUEST
  gZoning : Bool
  GAMESTATE_INGAME : Int

/-- Modelled from the spec: `GetSpellNumEffects` is declared outside this file; the
derived effect count of a spell is read from the definition. -/
def GetSpellNumEffects (pSpell : SPELL) : Int := pSpell.NumEffects

/-- `GetSpellAttrib` (2607-2631); the diagnostic line of the out-of-range branch
goes to the log only. -/
def GetSpellAttrib (g : Globals) (pSpell : PSPELL) (index : Int) : Int :=
  let index := if index < 0 then 0 else index
  match pSpell, g.pSpellMgr with
  | some s, some mgr =>
    let numeff := GetSpellNumEffects s
    if numeff = 0 then 0
    else if numeff > index then
      match mgr.GetSpellAffect (add32 s.CalcIndex index) with
      | some pCalcInfo => pCalcInfo.Attrib
      | none => 0
    else 0
  | _, _ => 0

/-- `GetSpellBase` (2633-2657). -/
def GetSpellBase (g : Globals) (pSpell : PSPELL) (index : Int) : Int :=
  let index := if index < 0 then 0 else index
  match pSpell with
  | some s =>
    let numeff := GetSpellNumEffects s
    if numeff = 0 then 0
    else if numeff > index then
      match g.pSpellMgr with
      | some pSpellM =>
        match pSpellM.GetSpellAffect (add32 s.CalcIndex index) with
        | some pCalcInfo => pCalcInfo.Base
        | none => 0
      | none => 0
    else 0
  | none => 0

/-- `GetSpellBase2` (2659-2683). -/
def GetSpellBase2 (g : Globals) (pSpell : PSPELL) (index : Int) : Int :=
  let index := if index < 0 then 0 else index
  match pSpell with
  | some s =>
    let numeff := GetSpellNumEffects s
    if numeff = 0 then 0
    else if numeff > index then
      match g.pSpellMgr with
      | some pSpellM =>
        match pSpellM.GetSpellAffect (add32 s.CalcIndex index) with
        | some pCalcInfo => pCalcInfo.Base2
        | none => 0
      | none => 0
    else 0
  | none => 0

/-- `GetSpellMax` (2685-2709). -/
def GetSpellMax (g : Globals) (pSpell : PSPELL) (index : Int) : Int :=
  let index := if index < 0 then 0 else index
  match pSpell with
  | some s =>
    let numeff := GetSpellNumEffects s
    if numeff = 0 then 0
    else if numeff > index then
      match g.pSpellMgr with
      | some pSpellM =>
        match pSpellM.GetSpellAffect (add32 s.CalcIndex index) with
        | some pCalcInfo => pCalcInfo.Max
        | none => 0
      | none => 0
    else 0
  | none => 0

/-- `GetSpellCalc` (2711-2735). -/
def GetSpellCalc (g : Globals) (pSpell : PSPELL) (index : Int) : Int :=
  let index := if index < 0 then 0 else index
  match pSpell with
  | some s =>
    let numeff := GetSpellNumEffects s
    if numeff = 0 then 0
    else if numeff > index then
      match g.pSpellMgr with
      | some pSpellM =>
        match pSpellM.GetSpellAffect (add32 s.CalcIndex index) with
        | some pCalcInfo => pCalcInfo.Calc
        | none => 0
      | none => 0
    else 0
  | none => 0

/-! ## Stacking resolver -/

/-- `GetGameState` (7038-7046); the result is a `DWORD`, so `-1` reads as `2^32 - 1`. -/
def GetGameState (g : Globals) : Int :=
  match g.ppEverQuest, g.pEverQuest with
  | true, some eq => eq.GameState
  | _, _ => 4294967295

/-- `LargerEffectTest` (7062-7079). -/
def LargerEffectTest (g : Globals) (aSpell bSpell : SPELL) (i : Int)
    (bTriggeredEffectCheck : Bool) : Bool :=
  let aAttrib := if GetSpellNumEffects aSpell > i then GetSpellAttrib g (some aSpell) i else 254
  let bAttrib := if GetSpellNumEffects bSpell > i then GetSpellAttrib g (some bSpell) i else 254
  if aAttrib = bAttrib then
    decide (abs32 (GetSpellBase g (some aSpell) i) ≥ abs32 (GetSpellBase g (some bSpell) i)
      ∨ (bTriggeredEffectCheck = true ∧ aSpell.SpellGroup = bSpell.SpellGroup))
  else false

/-- `TriggeringEffectSpell` (7086-7092). -/
def TriggeringEffectSpell (g : Globals) (aSpell : SPELL) (i : Int) : Bool :=
  let aAttrib := if GetSpellNumEffects aSpell > i then GetSpellAttrib g (some aSpell) i else 254
  decide (aAttrib = 85 ∨ aAttrib = 374 ∨ aAttrib = 419)

/-- `SpellEffectTest` (7099-7134). -/
def SpellEffectTest (g : Globals) (aSpell bSpell : SPELL) (i : Int)
    (bIgnoreTriggeringEffects : Bool) (bTriggeredEffectCheck : Bool) : Bool :=
  let aAttrib := if GetSpellNumEffects aSpell > i then GetSpellAttrib g (some aSpell) i else 254
  let bAttrib := if GetSpellNumEffects bSpell > i then GetSpellAttrib g (some bSpell) i else 254
  decide ((aAttrib = 57 ∨ bAttrib = 57)
    ∨ (aAttrib = 134 ∨ bAttrib = 134)
    ∨ (aAttrib = 135 ∨ bAttrib = 135)
    ∨ (aAttrib = 136 ∨ bAttrib = 136)
    ∨ (aAttrib = 137 ∨ bAttrib = 137)
    ∨ (aAttrib = 138 ∨ bAttrib = 138)
    ∨ (aAttrib = 139 ∨ bAttrib = 139)
    ∨ (aAttrib = 140 ∨ bAttrib = 140)
    ∨ (aAttrib = 141 ∨ bAttrib = 141)
    ∨ (aAttrib = 142 ∨ bAttrib = 142)
    ∨ (aAttrib = 143 ∨ bAttrib = 143)
    ∨ (aAttrib = 144 ∨ bAttrib = 144)
    ∨ (aAttrib = 254 ∨ bAttrib = 254)
    ∨ (aAttrib = 311 ∨ bAttrib = 311)
    ∨ (aAttrib = 339 ∨ bAttrib = 339)
    ∨ (aAttrib = 340 ∨ bAttrib = 340)
    ∨ (aAttrib = 348 ∨ bAttrib = 348)
    ∨ (aAttrib = 385 ∨ bAttrib = 385)
    ∨ (aAttrib = 391 ∨ bAttrib = 391)
    ∨ (aAttrib = 403 ∨ bAttrib = 403)
    ∨ (aAttrib = 404 ∨ bAttrib = 404)
    ∨ (aAttrib = 411 ∨ bAttrib = 411)
    ∨ (aAttrib = 412 ∨ bAttrib = 412)
    ∨ (aAttrib = 414 ∨ bAttrib = 414)
    ∨ (aAttrib = 422 ∨ bAttrib = 422)
    ∨ (aAttrib = 423 ∨ bAttrib = 423)
    ∨ (aAttrib = 428 ∨ bAttrib = 428)
    ∨ (LargerEffectTest g aSpell bSpell i bTriggeredEffectCheck = true)
    ∨ (bIgnoreTriggeringEffects = true
        ∧ (TriggeringEffectSpell g aSpell i = true ∨ TriggeringEffectSpell g bSpell i = true))
    ∨ ((aSpell.SpellType = 1 ∨ aSpell.SpellType = 2)
        ∧ (bSpell.SpellType = 1 ∨ bSpell.SpellType = 2)
        ∧ ¬ (aSpell.DurationWindow = bSpell.DurationWindow)))

/-- What a call of `BuffStackTest` comes to: a returned boolean, a fault (a null
reference was dereferenced), or a recursion cut off by the depth bound of the model. -/
inductive StackResult where
  | value (b : Bool)
  | fault
  | outOfFuel
deriving DecidableEq, Repr

/-- The test `bTrigger && (aSpell->ID == pRetSpell->ID)` of line 7230 for one side:
`none` when it dereferences a null `pRetSpell`. -/
def BuffStackTest_selfTrigger (bTrigger : Bool) (aSpell : SPELL) (pRetSpell : PSPELL) :
    Option Bool :=
  if bTrigger = true then
    match pRetSpell with
    | none => none
    | some r => some (decide (aSpell.ID = r.ID))
  else some false

/-- The spell ID a side is resolved through at slot `i` (the argument of `GetSpellByID`
at lines 7220 and 7221): `Base2` for a triggering code 374, `Base` for the other
triggering codes, the spell's own ID when the side is not triggering. -/
def BuffStackTest_resolveID (g : Globals) (aSpell : SPELL) (i : Int) : Int :=
  let aAttrib := if GetSpellNumEffects aSpell > i then GetSpellAttrib g (some aSpell) i else 254
  let aBase := if GetSpellNumEffects aSpell > i then GetSpellBase g (some aSpell) i else 0
  let aBase2 := if GetSpellNumEffects aSpell > i then GetSpellBase2 g (some aSpell) i else 0
  if TriggeringEffectSpell g aSpell i = true then (if aAttrib = 374 then aBase2 else aBase)
  else aSpell.ID

/-- The trigger-chain part of one loop iteration of `BuffStackTest` (7217-7240):
`some r` when the iteration ends the call with `r`, `none` when it goes on.
`recurse` is the recursive call of `BuffStackTest`. -/
def BuffStackTest_trigger (g : Globals)
    (recurse : PSPELL → PSPELL → Bool → Bool → StackResult)
    (aSpell bSpell : SPELL) (bIgnoreTriggeringEffects : Bool) (i : Int) : Option StackResult :=
  let bTriggerA := TriggeringEffectSpell g aSpell i
  let bTriggerB := TriggeringEffectSpell g bSpell i
  if bTriggerA = true ∨ bTriggerB = true then
    let pRetSpellA := g.GetSpellByID (BuffStackTest_resolveID g aSpell i)
    let pRetSpellB := g.GetSpellByID (BuffStackTest_resolveID g bSpell i)
    match BuffStackTest_selfTrigger bTriggerA aSpell pRetSpellA with
    | none => some StackResult.fault
    | some true => none
    | some false =>
      match BuffStackTest_selfTrigger bTriggerB bSpell pRetSpellB with
      | none => some StackResult.fault
      | some true => none
      | some false =>
        match recurse pRetSpellA pRetSpellB bIgnoreTriggeringEffects true with
        | StackResult.value true => none
        | StackResult.value false => some (StackResult.value false)
        | StackResult.fault => some StackResult.fault
        | StackResult.outOfFuel => some StackResult.outOfFuel
  else none

/-- The direct slot comparison of one loop iteration (7241-7266): `true` when it
executes `return false`. -/
def BuffStackTest_direct (g : Globals) (aSpell bSpell : SPELL)
    (bIgnoreTriggeringEffects bTriggeredEffectCheck : Bool) (i : Int) : Bool :=
  let aAttrib := if GetSpellNumEffects aSpell > i then GetSpellAttrib g (some aSpell) i else 254
  let aBase := if GetSpellNumEffects aSpell > i then GetSpellBase g (some aSpell) i else 0
  let bAttrib := if GetSpellNumEffects bSpell > i then GetSpellAttrib g (some bSpell) i else 254
  let bBase := if GetSpellNumEffects bSpell > i then GetSpellBase g (some bSpell) i else 0
  if bAttrib = aAttrib
      ∧ SpellEffectTest g aSpell bSpell i bIgnoreTriggeringEffects bTriggeredEffectCheck = false then
    decide (¬ ((bAttrib = 10 ∧ (bBase = -6 ∨ bBase = 0))
      ∨ (aAttrib = 10 ∧ (aBase = -6 ∨ aBase = 0))
      ∨ (bAttrib = 79 ∧ bBase > 0 ∧ bSpell.TargetType = 6)
      ∨ (aAttrib = 79 ∧ aBase > 0 ∧ aSpell.TargetType = 6)
      ∨ (bAttrib = 0 ∧ bBase < 0)
      ∨ (aAttrib = 0 ∧ aBase < 0)
      ∨ (bAttrib = 148 ∨ bAttrib = 149)
      ∨ (aAttrib = 148 ∨ aAttrib = 149)))
  else false

/-- The block/overwrite directive check of one loop iteration (7270-7302): `true`
when it executes `return false`. -/
def BuffStackTest_block (g : Globals) (aSpell bSpell : SPELL) (i : Int) : Bool :=
  let bAttrib := if GetSpellNumEffects bSpell > i then GetSpellAttrib g (some bSpell) i else 254
  let bBase := if GetSpellNumEffects bSpell > i then GetSpellBase g (some bSpell) i else 0
  let bBase2 := if GetSpellNumEffects bSpell > i then GetSpellBase2 g (some bSpell) i else 0
  if bAttrib = 148 ∨ bAttrib = 149 then
    let tmpSlot := if bAttrib = 148 then sub32 bBase2 1
      else sub32 (sub32 (GetSpellCalc g (some bSpell) i) 200) 1
    let tmpAttrib := bBase
    if GetSpellNumEffects aSpell > tmpSlot then
      if GetSpellMax g (some bSpell) i > 0 then
        let tmpVal := abs32 (GetSpellMax g (some bSpell) i)
        decide (GetSpellAttrib g (some aSpell) tmpSlot = tmpAttrib
          ∧ GetSpellBase g (some aSpell) tmpSlot < tmpVal)
      else decide (GetSpellAttrib g (some aSpell) tmpSlot = tmpAttrib)
    else false
  else false

/-- One iteration of the slot loop of `BuffStackTest` (7193-7342): `some r` when the
iteration returns `r`, `none` when the loop goes on to the next slot. -/
def BuffStackTest_slot (g : Globals)
    (recurse : PSPELL → PSPELL → Bool → Bool → StackResult)
    (aSpell bSpell : SPELL) (bIgnoreTriggeringEffects bTriggeredEffectCheck : Bool)
    (i : Int) : Option StackResult :=
  match BuffStackTest_trigger g recurse aSpell bSpell bIgnoreTriggeringEffects i with
  | some r => some r
  | none =>
    if BuffStackTest_direct g aSpell bSpell bIgnoreTriggeringEffects bTriggeredEffectCheck i
        = true then
      some (StackResult.value false)
    else if BuffStackTest_block g aSpell bSpell i = true then some (StackResult.value false)
    else none

/-- The loop `for (int i = 0; i < effects; i++)` of `BuffStackTest`, from slot `i` with
`n` iterations left; `return true` follows the last iteration.  The loop visits the slots
`0 .. effects - 1`, so it is entered with `n = effects` (no iteration for `effects ≤ 0`)
and `i = 0`; `i` stays below `effects`, hence `i + 1` does not leave the 32-bit range. -/
def BuffStackTest_loop (g : Globals)
    (recurse : PSPELL → PSPELL → Bool → Bool → StackResult)
    (aSpell bSpell : SPELL) (bIgnoreTriggeringEffects bTriggeredEffectCheck : Bool) :
    Nat → Int → StackResult
  | 0, _ => StackResult.value true
  | n + 1, i =>
    match BuffStackTest_slot g recurse aSpell bSpell bIgnoreTriggeringEffects
        bTriggeredEffectCheck i with
    | some r => r
    | none =>
      BuffStackTest_loop g recurse aSpell bSpell bIgnoreTriggeringEffects
        bTriggeredEffectCheck n (i + 1)

/-- The body of `BuffStackTest` (7143-7349) with its recursive call abstracted as
`recurse`.  `IsBadReadPtr` is false for a reference that designates a spell
definition, so its two guards are passed by every non-null `PSPELL`. -/
def BuffStackTest_body (g : Globals)
    (recurse : PSPELL → PSPELL → Bool → Bool → StackResult)
    (aSpell bSpell : PSPELL) (bIgnoreTriggeringEffects bTriggeredEffectCheck : Bool) :
    StackResult :=
  match g.pLocalPlayer with
  | none => StackResult.value true
  | some pSpawn =>
    if pSpawn.GetCharacter = false then StackResult.value true
    else if GetGameState g ≠ g.GAMESTATE_INGAME then StackResult.value true
    else if g.gZoning = true then StackResult.value true
    else
      match aSpell, bSpell with
      | some a, some b =>
        if a.ID = b.ID then StackResult.value true
        else
          let effects := max (GetSpellNumEffects a) (GetSpellNumEffects b)
          BuffStackTest_loop g recurse a b bIgnoreTriggeringEffects bTriggeredEffectCheck
            effects.toNat 0
      | _, _ => StackResult.value false

/-- `BuffStackTest` (7143-7349).  The first argument bounds the depth of the
recursion through trigger chains: a recursive call needed beyond it yields
`StackResult.outOfFuel`. -/
def BuffStackTest (g : Globals) : Nat → PSPELL → PSPELL → Bool → Bool → StackResult
  | 0, aSpell, bSpell, bIgnoreTriggeringEffects, bTriggeredEffectCheck =>
    BuffStackTest_body g (fun _ _ _ _ => StackResult.outOfFuel) aSpell bSpell
      bIgnoreTriggeringEffects bTriggeredEffectCheck
  | n + 1, aSpell, bSpell, bIgnoreTriggeringEffects, bTriggeredEffectCheck =>
    BuffStackTest_body g (BuffStackTest g n) aSpell bSpell
      bIgnoreTriggeringEffects bTriggeredEffectCheck

/-- The context in which `BuffStackTest` evaluates a pair: a local player with a
character, the in-game state, and no zone transition. -/
def ActivePlay (g : Globals) : Prop :=
  (∃ pSpawn, g.pLocalPlayer = some pSpawn ∧ pSpawn.GetCharacter = true)
    ∧ GetGameState g = g.GAMESTATE_INGAME ∧ g.gZoning = false

/-! ## Test data -/

/-- A spell manager over a literal effect table: slot `k` of the list is returned for
index `k`, null outside the table. -/
def tableMgr (table : List SPELLCALCINFO) : ClientSpellManager :=
  ⟨fun k => if k < 0 then none else table.get? k.toNat⟩

/-- An in-game process state over a literal effect table and spell list. -/
def testGlobals (table : List SPELLCALCINFO) (spells : List SPELL) : Globals :=
  ⟨some (tableMgr table), fun id => spells.find? (fun s => decide (s.ID = id)),
    some ⟨true⟩, true, some ⟨5⟩, false, 5⟩

/-- The attribute code the stacking resolver reads at slot `i` of a spell, the
expression `GetSpellNumEffects(s) > i ? GetSpellAttrib(s, i) : 254`: a slot at or past
the effect count reads as the placeholder 254. -/
def SlotCode (g : Globals) (aSpell : SPELL) (i : Int) : Int :=
  if GetSpellNumEffects aSpell > i then GetSpellAttrib g (some aSpell) i else 254

/-- One recursive-call function refines another: every answer of the first other than
`outOfFuel` is also the answer of the second. -/
def RecurseLe (r1 r2 : PSPELL → PSPELL → Bool → Bool → StackResult) : Prop :=
  ∀ x y p q r, r1 x y p q = r → r ≠ StackResult.outOfFuel → r2 x y p q = r

/-- A process state without a local player. -/
def idleGlobals : Globals :=
  ⟨none, fun _ => none, none, true, some ⟨5⟩, false, 5⟩

/-- Spell 1: one effect, stored at table index 0. -/
def sceneA : SPELL := ⟨1, 1, 0, 0, 0, 0, 0⟩

/-- Spell 2: one effect, stored at table index 1. -/
def sceneB : SPELL := ⟨2, 1, 1, 0, 0, 0, 0⟩

/-- Scenario B: both spells carry the slot {Attrib=69, Base=50}. -/
def sceneB_globals : Globals :=
  testGlobals [⟨69, 50, 0, 0, 0⟩, ⟨69, 50, 0, 0, 0⟩] [sceneA, sceneB]

/-- Scenario B with a weaker first spell: {Attrib=69, Base=10} against {Attrib=69, Base=50}. -/
def sceneB_weaker_globals : Globals :=
  testGlobals [⟨69, 10, 0, 0, 0⟩, ⟨69, 50, 0, 0, 0⟩] [sceneA, sceneB]

/-- Scenario C: spell 1 carries {Attrib=1, Base=5}, spell 2 the block directive
{Attrib=148, Base=1, Base2=1, Max=0}. -/
def sceneC_globals : Globals :=
  testGlobals [⟨1, 5, 0, 0, 0⟩, ⟨148, 1, 1, 0, 0⟩] [sceneA, sceneB]

/-- Spell 1 carries {Attrib=339, Base=1} (trigger DoT on cast), spell 2 {Attrib=1, Base=5}. -/
def scene339_globals : Globals :=
  testGlobals [⟨339, 1, 0, 0, 0⟩, ⟨1, 5, 0, 0, 0⟩] [sceneA, sceneB]

/-- Scenario C during a zone transition. -/
def sceneC_zoning_globals : Globals := { sceneC_globals with gZoning := true }

/-- Spell 10: one effect at table index 0, the proc {Attrib=85, Base=11}. -/
def sceneProc : SPELL := ⟨10, 1, 0, 0, 0, 0, 0⟩

/-- Spell 11, the spell that spell 10 triggers: one effect at table index 1, spell group 1. -/
def sceneProcTarget : SPELL := ⟨11, 1, 1, 1, 0, 0, 0⟩

/-- Spell 20: one effect at table index 2, spell group 2. -/
def sceneOther : SPELL := ⟨20, 1, 2, 2, 0, 0, 0⟩

/-- A trigger chain: spell 10 procs spell 11 {Attrib=69, Base=10}; spell 20 carries
{Attrib=69, Base=50}. -/
def sceneProc_globals : Globals :=
  testGlobals [⟨85, 11, 0, 0, 0⟩, ⟨69, 10, 0, 0, 0⟩, ⟨69, 50, 0, 0, 0⟩]
    [sceneProc, sceneProcTarget, sceneOther]

/-! ## Value calculator: durations and level brackets -/

/-- `CalcDuration` (2074-2113). -/
def CalcDuration (calc_ max level : Int) : Int :=
  let value :=
    if calc_ = 0 then 0
    else if calc_ = 1 ∨ calc_ = 12 then
      (let value := Int.tdiv level 2
       if value < 1 then 1 else value)
    else if calc_ = 2 then
      (let value := add32 (Int.tdiv level 2) 5
       if value < 6 then 6 else value)
    else if calc_ = 3 then mul32 level 30
    else if calc_ = 4 then 50
    else if calc_ = 5 then 2
    else if calc_ = 6 then Int.tdiv level 2
    else if calc_ = 7 then level
    else if calc_ = 8 then add32 level 10
    else if calc_ = 9 then add32 (mul32 level 2) 10
    else if calc_ = 10 then add32 (mul32 level 30) 10
    else if calc_ = 11 then mul32 (add32 level 3) 30
    else if calc_ = 13 then add32 (mul32 level 3) 10
    else if calc_ = 14 then mul32 (add32 level 2) 5
    else if calc_ = 15 then mul32 (add32 level 10) 10
    else if calc_ = 50 then 72000
    else if calc_ = 3600 then 3600
    else max
  if max > 0 ∧ value > max then max else value

/-- The loop `for (maxlevel = 1; maxlevel <= level; maxlevel++)` of `CalcMaxSpellLevel`,
from `maxlevel` with `n` iterations left; `return level` follows the last iteration.
It is entered with `n = level` (no iteration for `level < 1`) and `maxlevel = 1`;
`maxlevel` stays at or below `level`, so `maxlevel + 1` stays in the 32-bit range unless
`level` is the greatest `LONG`. -/
def CalcMaxSpellLevel_loop (calc_ base max tick minlevel level : Int) : Nat → Int → Int
  | 0, _ => level
  | n + 1, maxlevel =>
    if abs32 (CalcValue calc_ base max tick minlevel maxlevel) ≥ abs32 max then maxlevel
    else CalcMaxSpellLevel_loop calc_ base max tick minlevel level n (maxlevel + 1)

/-- `CalcMaxSpellLevel` (2290-2304); `MAX_PC_LEVEL` is a constant declared outside this
file and is taken as a parameter. -/
def CalcMaxSpellLevel (MAX_PC_LEVEL : Int) (calc_ base max tick minlevel level : Int) : Int :=
  if abs32 max > 0 then CalcMaxSpellLevel_loop calc_ base max tick minlevel level level.toNat 1
  else MAX_PC_LEVEL

/-! ## Further test data -/

/-- Spell 5: a spell definition without effects. -/
def sceneEmpty : SPELL := ⟨5, 0, 0, 0, 0, 0, 0⟩

/-- Spell 5 has no effects; spell 2 carries the block directive {Attrib=148, Base=0,
Base2=0, Max=0}, whose target slot number 0 names no slot. -/
def sceneEmpty_globals : Globals :=
  testGlobals [⟨1, 5, 0, 0, 0⟩, ⟨148, 0, 0, 0, 0⟩] [sceneEmpty, sceneB]

/-- Spell 1 carries {Attrib=1, Base=-100}, spell 2 the block directive {Attrib=148,
Base=1, Base2=1, Max=50}. -/
def sceneThreshold_globals : Globals :=
  testGlobals [⟨1, -100, 0, 0, 0⟩, ⟨148, 1, 1, 50, 0⟩] [sceneA, sceneB]

/-- Spell 1 carries {Attrib=1, Base=60}, spell 2 the block directive {Attrib=148,
Base=1, Base2=1, Max=50}. -/
def sceneThreshold_above_globals : Globals :=
  testGlobals [⟨1, 60, 0, 0, 0⟩, ⟨148, 1, 1, 50, 0⟩] [sceneA, sceneB]

/-- Spell 30: one effect at table index 0, the proc {Attrib=85, Base=999}; no spell has
the ID 999. -/
def sceneDangling : SPELL := ⟨30, 1, 0, 0, 0, 0, 0⟩

/-- Spell 31: one effect at table index 1, the proc {Attrib=85, Base=1000}; no spell has
the ID 1000. -/
def sceneDangling2 : SPELL := ⟨31, 1, 1, 0, 0, 0, 0⟩

/-- Two procs whose target spells do not exist. -/
def sceneDangling_globals : Globals :=
  testGlobals [⟨85, 999, 0, 0, 0⟩, ⟨85, 1000, 0, 0, 0⟩] [sceneDangling, sceneDangling2]

/-- Spell 1 carries {Attrib=0, Base=5} (a heal), spell 2 {Attrib=0, Base=-10}
(a damage-over-time). -/
def sceneHeal_globals : Globals :=
  testGlobals [⟨0, 5, 0, 0, 0⟩, ⟨0, -10, 0, 0, 0⟩] [sceneA, sceneB]

/-- Spell 41: one effect at table index 0, the proc {Attrib=85, Base=40}. -/
def sceneCycleA : SPELL := ⟨41, 1, 0, 0, 0, 0, 0⟩

/-- Spell 40: one effect at table index 1, the proc {Attrib=85, Base=41}. -/
def sceneCycleB : SPELL := ⟨40, 1, 1, 0, 0, 0, 0⟩

/-- Two procs that trigger each other. -/
def sceneCycle_globals : Globals :=
  testGlobals [⟨85, 40, 0, 0, 0⟩, ⟨85, 41, 0, 0, 0⟩] [sceneCycleA, sceneCycleB]

/-! ## Effect describer

Texts are carried as `String`.  A caller-supplied buffer is its text together with its
declared capacity, and `strcat_s` on it fails when the result with its terminator does not
fit.  The scratch buffers of `MAX_STRING` characters inside the functions are carried as
plain strings; their exhaustion, which needs a text of `MAX_STRING` characters, is not
modelled. -/

/-- `strcat_s(dest, cap, src)`: the library reports a runtime-constraint violation
(`none`) unless `dest`, `src` and the terminator fit in `cap` characters. -/
def strcat_s (dest : String) (cap : Nat) (src : String) : Option String :=
  if dest.length + src.length + 1 ≤ cap then some (dest ++ src) else none

/-- The conversion `%d` of `sprintf_s`. -/
def fmt_d (n : Int) : String := toString n

/-- The conversion `%03d` of `sprintf_s`: at least three characters, padded with zeros
after the sign. -/
def fmt_03d (n : Int) : String :=
  if n < 0 then
    (if -n < 10 then "-0" ++ toString (-n) else toString n)
  else if n < 10 then "00" ++ toString n
  else if n < 100 then "0" ++ toString n
  else toString n

/-- Number of binary digits of `n` (at most `fuel` of them are counted). -/
def bitLengthAux : Nat → Nat → Nat
  | 0, _ => 0
  | fuel + 1, n => if n = 0 then 0 else 1 + bitLengthAux fuel (n / 2)

/-- Number of binary digits of `n`. -/
def bitLength (n : Nat) : Nat := bitLengthAux n n

/-- A non-negative finite single-precision value `mant * 2 ^ exp`. -/
structure F32 where
  mant : Nat
  exp : Int
deriving DecidableEq, Repr

/-- The single-precision value nearest to the non-negative rational `p / q`
(IEEE 754 binary32, round to nearest, ties to even; the normal range). -/
def F32.round (p q : Nat) : F32 :=
  if p = 0 then ⟨0, 0⟩
  else
    let lp : Int := bitLength p - 1
    let lq : Int := bitLength q - 1
    -- `e0` is the exponent of the leading bit: `2 ^ e0 ≤ p / q < 2 ^ (e0 + 1)`
    let e0 : Int := if p * 2 ^ lq.toNat ≥ q * 2 ^ lp.toNat then lp - lq else lp - lq - 1
    let sh : Int := 23 - e0
    let num : Nat := if sh ≥ 0 then p * 2 ^ sh.toNat else p
    let den : Nat := if sh ≥ 0 then q else q * 2 ^ (-sh).toNat
    let m := num / den
    let r := num % den
    let m := if 2 * r > den ∨ (2 * r = den ∧ m % 2 = 1) then m + 1 else m
    ⟨m, e0 - 23⟩

/-- Conversion of a non-negative integer to single precision. -/
def F32.ofNat (n : Nat) : F32 := F32.round n 1

/-- Single-precision division. -/
def F32.div (a b : F32) : F32 :=
  let k : Int := a.exp - b.exp
  if k ≥ 0 then F32.round (a.mant * 2 ^ k.toNat) b.mant
  else F32.round a.mant (b.mant * 2 ^ (-k).toNat)

/-- The conversion `(LONG)` of a non-negative single-precision value: truncation. -/
def F32.toLONG (a : F32) : Int :=
  if a.exp ≥ 0 then a.mant * 2 ^ a.exp.toNat else a.mant / 2 ^ (-a.exp).toNat

/-- The expression `(LONG)(x / (10.0f / 3.0f))` of `CalcExtendedRange` for a
non-negative `x`, the displayed value of an armor-class modifier. -/
def ACModValue (x : Int) : Int :=
  F32.toLONG (F32.div (F32.ofNat x.toNat) (F32.div (F32.ofNat 10) (F32.ofNat 3)))

/-- A spell definition with the further fields the describer and the spell index read:
`DurationCap`, `CannotBeScribed`, `Category`, `Subcategory` and the array `ClassLevel`
(one level per class, read at the class numbers only). -/
structure SPELLDEF extends SPELL where
  DurationCap : Int
  CannotBeScribed : Int := 0
  Category : Int := 0
  Subcategory : Int := 0
  ClassLevel : List Int := []
deriving DecidableEq, Repr

/-- What the describer takes from outside this file: the named attribute and calc
constants, the size constants, the class range, the effect-name table `szSPATypes`, the
class level lookup `GetSpellLevelNeeded`, the default of the `level` argument of
`ParseSpellEffect`, and the text that the dispatch cases 0 and 12 to 510 of
`ParseSpellEffect` append to `szBuff` (these cases are not embedded). -/
structure Describer where
  SPA_NOSPELL : Int
  SPA_CHA : Int
  SPA_HASTE : Int
  SPA_PLAYERSIZE : Int
  SPA_BARDOVERHASTE : Int
  SPA_SUMMONCORPSE : Int
  SPA_SPELLDAMAGE : Int
  SPA_HEALING : Int
  SPA_SPELLMANACOST : Int
  SPA_REAGENTCHANCE : Int
  SPA_INCSPELLDMG : Int
  SPA_STACKING_BLOCK : Int
  SPA_SPELLDAMAGETAKEN : Int
  SPA_MOVEMENTRATE : Int
  SPA_DOUBLEATTACK : Int
  SPA_STUNRESIST : Int
  SPA_PROCMOD : Int
  SPA_DIVINEREZ : Int
  SPA_METABOLISM : Int
  SPA_TRIPLEBACKSTAB : Int
  SPA_DOTCRIT : Int
  SPA_HEALCRIT : Int
  SPA_MENDCRIT : Int
  SPA_FLURRY : Int
  SPA_PETFLURRY : Int
  SPA_SPELLCRITCHANCE : Int
  SPA_SHIELDBLOCKCHANCE : Int
  SPA_DAMAGECRITMOD : Int
  SPA_AC : Int
  SPA_AC2 : Int
  CALC_RANDOM : Int
  MAX_PC_LEVEL : Int
  MAX_SPELLEFFECTS : Nat
  MAX_STRING : Nat
  Warrior : Int
  Berserker : Int
  szSPATypes : Nat → String
  GetSpellLevelNeeded : SPELL → Int → Int
  defaultLevel : Int
  otherCases : SPELLDEF → Int → Int → String

/-- `GetSpellEffectName` (1920-1933) on an empty buffer: the text it leaves there. -/
def GetSpellEffectName (d : Describer) (EffectID : Int) : String :=
  let absEffectID := abs32 EffectID % 4294967296
  if absEffectID.toNat < d.MAX_SPELLEFFECTS then d.szSPATypes absEffectID.toNat
  else "Unknown SPA[" ++ fmt_03d (wrap32 absEffectID) ++ "]"

/-- The loop of `CalcMinSpellLevel` over the classes `j, j + 1, ..`, with `n` classes
left. -/
def CalcMinSpellLevel_loop (d : Describer) (pSpell : SPELL) : Nat → Int → Int → Int
  | 0, _, minspelllvl => minspelllvl
  | n + 1, j, minspelllvl =>
    CalcMinSpellLevel_loop d pSpell n (j + 1)
      (if d.GetSpellLevelNeeded pSpell j < minspelllvl then d.GetSpellLevelNeeded pSpell j
       else minspelllvl)

/-- `CalcMinSpellLevel` (2306-2314). -/
def CalcMinSpellLevel (d : Describer) (pSpell : SPELL) : Int :=
  let minspelllvl := CalcMinSpellLevel_loop d pSpell (d.Berserker - d.Warrior + 1).toNat
    d.Warrior (d.GetSpellLevelNeeded pSpell d.Warrior)
  if minspelllvl > d.MAX_PC_LEVEL then 1 else minspelllvl

/-- `CalcExtendedRange` (2350-2364): the text it formats. -/
def CalcExtendedRange (d : Describer) (calc_ start finish minlevel maxlevel : Int)
    (szPercent : String) (ACMod : Bool) : String :=
  if calc_ = d.CALC_RANDOM then
    " (Random: " ++ fmt_d start ++ " to "
      ++ fmt_d (mul32 finish (if start ≥ 0 then 1 else -1)) ++ ")"
  else if abs32 start < abs32 finish then
    " by " ++ fmt_d (if ACMod then ACModValue (abs32 start) else abs32 start) ++ szPercent
      ++ " (L" ++ fmt_d minlevel ++ ") to "
      ++ fmt_d (if ACMod then ACModValue (abs32 finish) else abs32 finish) ++ szPercent
      ++ " (L" ++ fmt_d maxlevel ++ ")"
  else
    " by " ++ fmt_d (if ACMod then ACModValue (abs32 finish) else abs32 finish) ++ szPercent

/-- `FormatRange` (2471-2475) with the default `extra`. -/
def FormatRange (szEffectName : String) (value : Int) (range : String) : String :=
  (if value < 0 then "Decrease" else "Increase") ++ " " ++ szEffectName ++ range ++ ""

/-- The first `switch (spa)` of `ParseSpellEffect` (2761-2782): the pair of `base` and
`max` after the adjustments, from the slot fields `base`, `base2` and `max`. -/
def ParseSpellEffect_adjust (d : Describer) (spa base base2 max : Int) : Int × Int :=
  if spa = d.SPA_HASTE ∨ spa = d.SPA_PLAYERSIZE ∨ spa = d.SPA_BARDOVERHASTE then
    (sub32 base 100, sub32 max 100)
  else if spa = d.SPA_SUMMONCORPSE then (0, base)
  else if spa = d.SPA_SPELLDAMAGE ∨ spa = d.SPA_HEALING ∨ spa = d.SPA_SPELLMANACOST then
    (base, base2)
  else if spa = d.SPA_REAGENTCHANCE ∨ spa = d.SPA_INCSPELLDMG then (base2, max)
  else (base, max)

/-- The part of `ParseSpellEffect` (2737-4144) between its early exits and its final
`strcat_s`, for the slot fields `spa`, `base`, `base2`, `max`, `calc`: the text that the
dispatch on `spa` appends to `szBuff`.  The texts `range`, `repeating`, `maxlevel` and
`maxtargets` and the copy of `pSpell->Extra` are used by the cases 0 and 12 to 510 only
and are left to `Describer.otherCases`. -/
def ParseSpellEffect_dispatch (d : Describer) (pSpell : SPELLDEF) (i level : Int)
    (spa base base2 max calc_ : Int) : String :=
  let ticks := pSpell.DurationCap
  -- switch (spa): the adjustments of base and max
  let bm : Int × Int := ParseSpellEffect_adjust d spa base base2 max
  let base := bm.1
  let max := bm.2
  let spelleffectname := GetSpellEffectName d spa
  let minspelllvl := CalcMinSpellLevel d pSpell.toSPELL
  let maxspelllvl := CalcMaxSpellLevel d.MAX_PC_LEVEL calc_ base max ticks minspelllvl level
  let value := CalcValue calc_ (if spa = d.SPA_STACKING_BLOCK then max else base) max 1
    minspelllvl minspelllvl
  let finish := CalcValue calc_ (if spa = d.SPA_SPELLDAMAGETAKEN then base2 else base) max
    ticks minspelllvl level
  let usePercent : Bool := decide (spa = d.SPA_MOVEMENTRATE ∨ spa = d.SPA_HASTE
    ∨ spa = d.SPA_BARDOVERHASTE ∨ spa = d.SPA_SPELLDAMAGE ∨ spa = d.SPA_HEALING
    ∨ spa = d.SPA_DOUBLEATTACK ∨ spa = d.SPA_STUNRESIST ∨ spa = d.SPA_PROCMOD
    ∨ spa = d.SPA_DIVINEREZ ∨ spa = d.SPA_METABOLISM ∨ spa = d.SPA_TRIPLEBACKSTAB
    ∨ spa = d.SPA_DOTCRIT ∨ spa = d.SPA_HEALCRIT ∨ spa = d.SPA_MENDCRIT
    ∨ spa = d.SPA_FLURRY ∨ spa = d.SPA_PETFLURRY ∨ spa = d.SPA_SPELLCRITCHANCE
    ∨ spa = d.SPA_SHIELDBLOCKCHANCE ∨ spa = d.SPA_DAMAGECRITMOD
    ∨ spa = d.SPA_SPELLDAMAGETAKEN)
  let extendedrange := CalcExtendedRange d calc_ value finish minspelllvl maxspelllvl
    (if usePercent = true then "%" else "") (decide (spa = d.SPA_AC ∨ spa = d.SPA_AC2))
  -- switch (spa): the dispatch
  if 1 ≤ spa ∧ spa ≤ 11 then FormatRange spelleffectname value extendedrange
  else if spa < 0 ∨ spa > 510 then
    spelleffectname ++ " (base=" ++ fmt_d base ++ ", base2=" ++ fmt_d base2
      ++ ", max=" ++ fmt_d max ++ ", calc=" ++ fmt_d calc_ ++ ", value=" ++ fmt_d value ++ ")"
  else d.otherCases pSpell i level

/-- The text `ParseSpellEffect` (2737-4144) has built in `szBuff` when it reaches its
final `strcat_s`: the slot number followed by the text of the dispatch; `none` when one of
the two early exits returns before. -/
def ParseSpellEffect_szBuff (d : Describer) (g : Globals) (pSpell : SPELLDEF) (i : Int)
    (level : Int) : Option String :=
  let spa := GetSpellAttrib g (some pSpell.toSPELL) i
  let base := GetSpellBase g (some pSpell.toSPELL) i
  let base2 := GetSpellBase2 g (some pSpell.toSPELL) i
  let max := GetSpellMax g (some pSpell.toSPELL) i
  let calc_ := GetSpellCalc g (some pSpell.toSPELL) i
  if spa = d.SPA_NOSPELL then none
  else if spa = d.SPA_CHA ∧ (base ≤ 1 ∨ base > 255) then none
  else
    some ("Slot " ++ (fmt_d (add32 i 1) ++ ": "
      ++ ParseSpellEffect_dispatch d pSpell i level spa base base2 max calc_))

/-- `ParseSpellEffect` (2737-4144): the content of the caller's buffer afterwards, `none`
when the final `strcat_s(szBuffer, BufferSize, szBuff)` does not fit. -/
def ParseSpellEffect (d : Describer) (g : Globals) (pSpell : SPELLDEF) (i : Int)
    (szBuffer : String) (BufferSize : Nat) (level : Int) : Option String :=
  match ParseSpellEffect_szBuff d g pSpell i level with
  | none => some szBuffer
  | some szBuff => strcat_s szBuffer BufferSize szBuff

/-- The loop of `ShowSpellSlotInfo` from slot `i` with `n` iterations left, on the
caller's buffer and the running `count`.  The sizes stay far below `2^31`, so `count`
and `len` are carried as natural numbers. -/
def ShowSpellSlotInfo_loop (d : Describer) (g : Globals) (pSpell : SPELLDEF)
    (BufferSize : Nat) : Nat → Int → String → Nat → Option String
  | 0, _, szBuffer, _ => some szBuffer
  | n + 1, i, szBuffer, count =>
    match ParseSpellEffect d g pSpell i "" d.MAX_STRING d.defaultLevel with
    | none => none
    | some szTemp =>
      match strcat_s "" d.MAX_STRING szTemp with
      | none => none
      | some szBuff =>
        let len := szBuff.length
        if len > 0 ∧ count + len < BufferSize then
          match strcat_s szBuffer BufferSize szBuff with
          | none => none
          | some szBuffer1 =>
            match strcat_s szBuffer1 BufferSize "<br>" with
            | none => none
            | some szBuffer2 =>
              ShowSpellSlotInfo_loop d g pSpell BufferSize n (i + 1) szBuffer2 (count + (len + 4))
        else
          ShowSpellSlotInfo_loop d g pSpell BufferSize n (i + 1) szBuffer (count + (len + 4))

/-- `ShowSpellSlotInfo` (4146-4163): the content of the caller's buffer afterwards,
`none` when a `strcat_s` does not fit. -/
def ShowSpellSlotInfo (d : Describer) (g : Globals) (pSpell : SPELLDEF) (szBuffer : String)
    (BufferSize : Nat) : Option String :=
  ShowSpellSlotInfo_loop d g pSpell BufferSize (GetSpellNumEffects pSpell.toSPELL).toNat 0
    szBuffer 0

/-- A describer for the test data: the constants with the values of the client headers,
sixteen classes, a short effect-name table, every class level 1, and empty texts for the
dispatch cases that are not embedded. -/
def testDescriber : Describer where
  SPA_NOSPELL := 254
  SPA_CHA := 10
  SPA_HASTE := 11
  SPA_PLAYERSIZE := 89
  SPA_BARDOVERHASTE := 98
  SPA_SUMMONCORPSE := 91
  SPA_SPELLDAMAGE := 124
  SPA_HEALING := 125
  SPA_SPELLMANACOST := 132
  SPA_REAGENTCHANCE := 131
  SPA_INCSPELLDMG := 286
  SPA_STACKING_BLOCK := 148
  SPA_SPELLDAMAGETAKEN := 296
  SPA_MOVEMENTRATE := 3
  SPA_DOUBLEATTACK := 177
  SPA_STUNRESIST := 195
  SPA_PROCMOD := 200
  SPA_DIVINEREZ := 232
  SPA_METABOLISM := 233
  SPA_TRIPLEBACKSTAB := 258
  SPA_DOTCRIT := 273
  SPA_HEALCRIT := 274
  SPA_MENDCRIT := 275
  SPA_FLURRY := 279
  SPA_PETFLURRY := 280
  SPA_SPELLCRITCHANCE := 294
  SPA_SHIELDBLOCKCHANCE := 299
  SPA_DAMAGECRITMOD := 302
  SPA_AC := 1
  SPA_AC2 := 416
  CALC_RANDOM := 123
  MAX_PC_LEVEL := 110
  MAX_SPELLEFFECTS := 512
  MAX_STRING := 2048
  Warrior := 1
  Berserker := 16
  szSPATypes := fun n =>
    if n = 0 then "HP" else if n = 1 then "AC" else if n = 4 then "STR"
    else if n = 10 then "CHA" else "Effect"
  GetSpellLevelNeeded := fun _ _ => 1
  defaultLevel := 100
  otherCases := fun _ _ _ => ""

/-- Scenario A: the spell with the single slot {Attrib=1, Base=10, Max=10, Calc=100}. -/
def sceneAC : SPELLDEF := { toSPELL := sceneA, DurationCap := 0 }

/-- The effect table of scenario A. -/
def sceneAC_globals : Globals := testGlobals [⟨1, 10, 0, 10, 100⟩] [sceneA]

/-- A spell with the single slot {Attrib=4, Base=10, Max=10, Calc=100}. -/
def sceneSTR_globals : Globals := testGlobals [⟨4, 10, 0, 10, 100⟩] [sceneA]

/-- A spell with the single slot {Attrib=10, Base=20, Max=20, Calc=100}. -/
def sceneCHA_globals : Globals := testGlobals [⟨10, 20, 0, 20, 100⟩] [sceneA]

/-- Whether the text `t` occurs inside the text `s`. -/
def containsText (s t : String) : Prop := t.toList <:+: s.toList

instance (s t : String) : Decidable (containsText s t) := by
  unfold containsText; infer_instance

/-! ## Spell index: triggered spells, categories and lookup by name -/

/-- `IsRecursiveEffect2` (1035-1047). -/
def IsRecursiveEffect2 (spa : Int) : Bool :=
  decide (spa = 374 ∨ spa = 475 ∨ spa = 340 ∨ spa = 470 ∨ spa = 469)

/-- The loop of `PopulateTriggeredmap` from slot `i` with `n` iterations left.  The map
`s_triggeredSpells` is carried as its lookup function; `s_triggeredSpells[k] = v`
overwrites the entry of `k`. -/
def PopulateTriggeredmap_loop (g : Globals) (pSpell : SPELLDEF) :
    Nat → Int → (Int → Option Int) → (Int → Option Int)
  | 0, _, s_triggeredSpells => s_triggeredSpells
  | n + 1, i, s_triggeredSpells =>
    let attrib := GetSpellAttrib g (some pSpell.toSPELL) i
    let next : Int → Option Int :=
      if IsRecursiveEffect2 attrib = true then
        let triggeredSpellId := GetSpellBase2 g (some pSpell.toSPELL) i
        if triggeredSpellId ≠ 0 then
          fun k => if k = triggeredSpellId then some pSpell.ID else s_triggeredSpells k
        else s_triggeredSpells
      else s_triggeredSpells
    PopulateTriggeredmap_loop g pSpell n (i + 1) next

/-- `PopulateTriggeredmap` (1049-1068): the map `s_triggeredSpells` afterwards. -/
def PopulateTriggeredmap (g : Globals) (pSpell : SPELLDEF)
    (s_triggeredSpells : Int → Option Int) : Int → Option Int :=
  if pSpell.CannotBeScribed = 1 then s_triggeredSpells
  else
    let slots := GetSpellNumEffects pSpell.toSPELL
    PopulateTriggeredmap_loop g pSpell slots.toNat 0 s_triggeredSpells

/-- What the category functions read: the by-ID spell lookup (declared outside this
file) and the map `s_triggeredSpells`, by its lookup function. -/
structure SpellIndex where
  GetSpellByID : Int → Option SPELLDEF
  s_triggeredSpells : Int → Option Int

/-- `GetSpellParent` (1070-1079). -/
def GetSpellParent (x : SpellIndex) (id : Int) : Option SPELLDEF :=
  match x.s_triggeredSpells id with
  | some parent => x.GetSpellByID parent
  | none => none

/-- `GetSpellCategory` (10230-10247). -/
def GetSpellCategory (x : SpellIndex) (pSpell : Option SPELLDEF) : Int :=
  match pSpell with
  | some s =>
    if s.CannotBeScribed ≠ 0 then
      match GetSpellParent x s.ID with
      | some pTrigger => pTrigger.Category
      | none => 0
    else s.Category
  | none => 0

/-- `GetSpellSubcategory` (10249-10266). -/
def GetSpellSubcategory (x : SpellIndex) (pSpell : Option SPELLDEF) : Int :=
  match pSpell with
  | some s =>
    if s.CannotBeScribed ≠ 0 then
      match GetSpellParent x s.ID with
      | some pTrigger => pTrigger.Subcategory
      | none => 0
    else s.Subcategory
  | none => 0

/-- The fields of the character profile that `GetSpellByName` reads. -/
structure CHARINFO2 where
  Class : Int
  Level : Int
deriving DecidableEq, Repr

/-- `SpellCompare` (1024-1027): the spells of one name, in the order of their IDs. -/
structure SpellCompare where
  Duplicates : List (Int × Option SPELLDEF)
deriving DecidableEq, Repr

/-- The state that `PopulateSpellMap` (1081-1109) builds: the flag `gbSpelldbLoaded` and
the map `s_spellNameMap`, as the list of its entries. -/
structure SpellNameDb where
  gbSpelldbLoaded : Bool
  s_spellNameMap : List (String × List (String × SpellCompare))
deriving DecidableEq, Repr

/-- What `GetSpellByName` takes from outside: whether `ppSpellMgr` is set, the by-ID
lookup, the character profile, the state that a call of `InitializeMQ2SpellDb` leaves,
`MakeLower`, `atoi`, and the class range. -/
structure NameLookup where
  ppSpellMgr : Bool
  GetSpellByID : Int → Option SPELLDEF
  GetCharInfo2 : Option CHARINFO2
  InitializeMQ2SpellDb : SpellNameDb → SpellNameDb
  MakeLower : String → String
  atoi : String → Int
  Warrior : Int
  Berserker : Int

/-- The element `pSpell->ClassLevel[index]`. -/
def ClassLevelAt (pSpell : SPELLDEF) (index : Int) : Int :=
  pSpell.ClassLevel.getD index.toNat 0

/-- The loop of `IsSpellClassUsable` from class `index` with `n` classes left. -/
def IsSpellClassUsable_loop (pSpell : SPELLDEF) : Nat → Int → Bool
  | 0, _ => false
  | n + 1, index =>
    if ClassLevelAt pSpell index = 255 ∨ ClassLevelAt pSpell index = 127 then
      IsSpellClassUsable_loop pSpell n (index + 1)
    else true

/-- `IsSpellClassUsable` (1147-1160). -/
def IsSpellClassUsable (e : NameLookup) (pSpell : SPELLDEF) : Bool :=
  IsSpellClassUsable_loop pSpell (e.Berserker - e.Warrior + 1).toNat e.Warrior

/-- The value of the local `pSpell` of `GetSpellByName` after its two loops over the
duplicates (1219-1260); `first` is its initial value `comp.Duplicates.begin()->second`. -/
def GetSpellByName_select (e : NameLookup) (profile : CHARINFO2) (first : Option SPELLDEF)
    (Duplicates : List (Int × Option SPELLDEF)) : Option SPELLDEF :=
  let playerclass := profile.Class
  let currlevel := profile.Level
  let st : Int × Option SPELLDEF :=
    if playerclass ≠ 0 ∧ playerclass ≥ e.Warrior ∧ playerclass ≤ e.Berserker then
      Duplicates.foldl
        (fun st duplicate =>
          match duplicate.2 with
          | some dupeSpell =>
            let classlevel := ClassLevelAt dupeSpell playerclass
            if classlevel ≤ currlevel ∧ st.1 < classlevel then (classlevel, some dupeSpell)
            else st
          | none => st)
        (0, first)
    else (0, first)
  let highestclasslevel := st.1
  if highestclasslevel = 0 then
    Duplicates.foldl
      (fun pSpell duplicate =>
        match duplicate.2 with
        | some dupeSpell => if IsSpellClassUsable e dupeSpell = true then some dupeSpell else pSpell
        | none => pSpell)
      st.2
  else st.2

/-- `GetSpellByName` (1162-1264): the returned reference.  The name is a string of
one-byte characters; the selection that the two loops make among several duplicates is
`GetSpellByName_select`, and the statement after them is `return nullptr;`. -/
def GetSpellByName (e : NameLookup) (db : SpellNameDb) (szName : Option String) :
    Option SPELLDEF :=
  if e.ppSpellMgr = false then none
  else
    match szName with
    | none => none
    | some szName =>
      let db := if db.gbSpelldbLoaded = false then e.InitializeMQ2SpellDb db else db
      if db.gbSpelldbLoaded = false then none
      else if (match szName.toList with
          | c :: _ => decide ('0' ≤ c ∧ c ≤ '9')
          | [] => false) = true then
        e.GetSpellByID (abs32 (e.atoi szName))
      else
        match e.GetCharInfo2 with
        | none => none
        | some profile =>
          if szName.length < 3 ∨ db.s_spellNameMap.isEmpty = true then none
          else
            let lowname := e.MakeLower szName
            let threelow := String.mk (lowname.toList.take 3)
            match db.s_spellNameMap.lookup threelow with
            | none => none
            | some spellLookup =>
              match spellLookup.lookup lowname with
              | none => none
              | some comp =>
                match comp.Duplicates with
                | [] => none
                | first :: rest =>
                  if rest.isEmpty = true then first.2
                  else
                    let _pSpell := GetSpellByName_select e profile first.2 comp.Duplicates
                    none

/-! ## Test data for the describer, the spell index and the name lookup -/

/-- A spell with the single slot {Attrib=600, Base=7, Base2=3, Max=9, Calc=100}: the
code 600 is past the last case of the dispatch. -/
def sceneUnknown_globals : Globals := testGlobals [⟨600, 7, 3, 9, 100⟩] [sceneA]

/-- Spell 50: one effect at table index 0, {Attrib=374, Base2=77}. -/
def sceneTrigger374 : SPELLDEF := { toSPELL := ⟨50, 1, 0, 0, 0, 0, 0⟩, DurationCap := 0 }

/-- The effect table of spell 50. -/
def sceneTrigger374_globals : Globals :=
  testGlobals [⟨374, 100, 77, 0, 0⟩] [sceneTrigger374.toSPELL]

/-- Spell 51: two effects at table index 0, {Attrib=470, Base2=78} and {Attrib=1,
Base2=79}. -/
def sceneTrigger470 : SPELLDEF := { toSPELL := ⟨51, 2, 0, 0, 0, 0, 0⟩, DurationCap := 0 }

/-- The effect table of spell 51. -/
def sceneTrigger470_globals : Globals :=
  testGlobals [⟨470, 0, 78, 0, 0⟩, ⟨1, 5, 79, 0, 0⟩] [sceneTrigger470.toSPELL]

/-- Spell 60, a parent spell of category 5 and subcategory 6. -/
def sceneParent : SPELLDEF :=
  { toSPELL := ⟨60, 1, 0, 0, 0, 0, 0⟩, DurationCap := 0, Category := 5, Subcategory := 6 }

/-- Spell 61, a spell that cannot be scribed, with category 9 and subcategory 10 of its
own. -/
def sceneChild : SPELLDEF :=
  { toSPELL := ⟨61, 1, 1, 0, 0, 0, 0⟩, DurationCap := 0, CannotBeScribed := 1,
    Category := 9, Subcategory := 10 }

/-- A spell index in which spell 61 has the parent 60. -/
def sceneIndex : SpellIndex where
  GetSpellByID := fun id => if id = 60 then some sceneParent else if id = 61 then some sceneChild
    else none
  s_triggeredSpells := fun id => if id = 61 then some 60 else none

/-- Spell 30 at table index 1: the proc {Attrib=85, Base=999}; no spell has the ID 999. -/
def sceneDanglingB : SPELL := ⟨30, 1, 1, 0, 0, 0, 0⟩

/-- A plain spell {Attrib=1, Base=5} against a proc whose target spell does not exist. -/
def sceneDanglingB_globals : Globals :=
  testGlobals [⟨1, 5, 0, 0, 0⟩, ⟨85, 999, 0, 0, 0⟩] [sceneA, sceneDanglingB]

/-- Spell 1 carries {Attrib=1, Base=5}, spell 2 the block directive {Attrib=148, Base=1,
Base2=0, Max=0}, whose target slot number 0 names no slot. -/
def sceneNoSlot_globals : Globals :=
  testGlobals [⟨1, 5, 0, 0, 0⟩, ⟨148, 1, 0, 0, 0⟩] [sceneA, sceneB]

/-- Spell 1 carries {Attrib=1, Base=5}, spell 2 the overwrite directive {Attrib=149,
Base=1, Calc=200}, whose target slot number 0 names no slot. -/
def sceneNoSlot149_globals : Globals :=
  testGlobals [⟨1, 5, 0, 0, 0⟩, ⟨149, 1, 0, 0, 200⟩] [sceneA, sceneB]

/-- Spell 70 named "Minor Healing", level 10 for class 2. -/
def sceneHealing70 : SPELLDEF :=
  { toSPELL := ⟨70, 1, 0, 0, 0, 0, 0⟩, DurationCap := 0,
    ClassLevel := [255, 255, 10, 255, 255, 255, 255, 255, 255, 255, 255, 255, 255, 255, 255,
      255, 255] }

/-- Spell 71 named "Minor Healing", level 20 for class 2. -/
def sceneHealing71 : SPELLDEF :=
  { toSPELL := ⟨71, 1, 1, 0, 0, 0, 0⟩, DurationCap := 0,
    ClassLevel := [255, 255, 20, 255, 255, 255, 255, 255, 255, 255, 255, 255, 255, 255, 255,
      255, 255] }

/-- A loaded name index: two spells under "minor healing", one under "courage". -/
def sceneNames : SpellNameDb where
  gbSpelldbLoaded := true
  s_spellNameMap :=
    [("cou", [("courage", ⟨[(60, some sceneParent)]⟩)]),
     ("min", [("minor healing", ⟨[(70, some sceneHealing70), (71, some sceneHealing71)]⟩)])]

/-- A level 50 character of class 2; names are lowered character by character. -/
def sceneLookup : NameLookup where
  ppSpellMgr := true
  GetSpellByID := fun _ => none
  GetCharInfo2 := some ⟨2, 50⟩
  InitializeMQ2SpellDb := fun db => db
  MakeLower := fun s => String.mk (s.toList.map Char.toLower)
  atoi := fun _ => 0
  Warrior := 1
  Berserker := 16

/-! ## Facts about the 32-bit operations -/

theorem wrap32_of_range {x : Int} (h1 : -2147483648 ≤ x) (h2 : x < 2147483648) :
    wrap32 x = x := by
  unfold wrap32; omega

theorem abs32_of_inRange {x : Int} (h : InRange x) : abs32 x = |x| := by
  unfold InRange at h
  unfold abs32
  split
  · rw [wrap32_of_range (by omega) (by omega), abs_of_neg (by assumption)]
  · rw [wrap32_of_range (by omega) (by omega), abs_of_nonneg (by omega)]

/-! ## CalcValue -/

/-- C1, as stated, fails: `CalcValue` does not always carry the sign of `base`.
The per-tick decay code 107 turns base 5 into -5 after 10 ticks; the pass-through
code 100 caps the negative base -5 to the positive max 10; code 123 with max 0
yields 0 for base 5. -/
theorem CalcValue_sign_counterexample :
    (0 : Int) < 5 ∧ CalcValue 107 5 0 10 1 1 = -5
      ∧ (-5 : Int) < 0 ∧ CalcValue 100 (-5) 10 0 1 2 = 10
      ∧ CalcValue 123 5 0 2 1 1 = 0 := by
  decide

/-- C1, amended: with `max` a 32-bit value other than the least one, `CalcValue` has
the sign of `base` (positive for `base > 0`, negative for `base < 0`) for the codes 0
and 3000, for code 100 when `base > 0` or the cap to `max` does not apply, and for every
other code whenever the unclamped magnitude `abs(base) + change` of the formula is
positive and below `2^31`. -/
theorem CalcValue_sign_of_positive_magnitude (calc_ base max tick minlevel level : Int)
    (hmax : InRange max)
    (h100 : calc_ = 100 → 0 < base ∨ ¬ (max > 0 ∧ (base > max ∨ level > minlevel)))
    (hmag : calc_ ≠ 0 → calc_ ≠ 100 → calc_ ≠ 3000 →
      0 < abs32 base + CalcValue_change calc_ base max tick level
        ∧ abs32 base + CalcValue_change calc_ base max tick level < 2147483648) :
    (0 < base → 0 < CalcValue calc_ base max tick minlevel level)
      ∧ (base < 0 → CalcValue calc_ base max tick minlevel level < 0) := by
  unfold CalcValue
  by_cases h0 : calc_ = 0
  · simp [h0]
  by_cases h1 : calc_ = 100
  · have := h100 h1
    simp only [h1]
    norm_num
    split <;> constructor <;> intro hb <;> omega
  by_cases h3 : calc_ = 3000
  · simp [h3]
  obtain ⟨hm1, hm2⟩ := hmag h0 h1 h3
  simp only [h0, h1, h3, if_false]
  generalize CalcValue_change calc_ base max tick level = c at hm1 hm2
  generalize abs32 base = ab at hm1 hm2
  unfold InRange at hmax
  unfold add32 neg32 abs32 wrap32
  constructor <;> intro hb <;> split_ifs <;> omega

/-- Witness for C1 amended: code 102 (one point per level) at level 3 on base -5 with
max 10 gives a negative value. -/
theorem CalcValue_sign_of_positive_magnitude_witness :
    CalcValue 102 (-5) 10 0 1 3 < 0 :=
  (CalcValue_sign_of_positive_magnitude 102 (-5) 10 0 1 3 (by decide) (by decide)
    (by decide)).2 (by decide)

/-- C2, as stated, fails: the result is not always within `abs(max)`.  The
pass-through code 0 returns base 100 against max 5; so do codes 3000 and 100 (with a
negative max); the decay code 107 takes base 5 to -95 against max 3. -/
theorem CalcValue_clamp_counterexample :
    (5 : Int) ≠ 0 ∧ ¬ (|CalcValue 0 100 5 0 1 1| ≤ |(5 : Int)|)
      ∧ ¬ (|CalcValue 3000 100 5 0 1 1| ≤ |(5 : Int)|)
      ∧ ¬ (|CalcValue 100 100 (-5) 0 1 1| ≤ |(-5 : Int)|)
      ∧ ¬ (|CalcValue 107 5 3 100 1 1| ≤ |(3 : Int)|) := by
  decide

/-- C2, amended: for `max ≠ 0` (a 32-bit value other than the least one) the magnitude
of `CalcValue` is at most `abs(max)` for every code other than the pass-through codes 0
and 3000, provided for code 100 that `max > 0` and `base ≥ -max`, and for the formula
codes that the unclamped magnitude `abs(base) + change` is at least `-abs(max)` and
below `2^31`. -/
theorem CalcValue_clamp_of_bounded_magnitude (calc_ base max tick minlevel level : Int)
    (hmax : InRange max) (hm0 : max ≠ 0) (h0 : calc_ ≠ 0) (h3 : calc_ ≠ 3000)
    (h100 : calc_ = 100 → 0 < max ∧ -max ≤ base)
    (hmag : calc_ ≠ 100 →
      -|max| ≤ abs32 base + CalcValue_change calc_ base max tick level
        ∧ abs32 base + CalcValue_change calc_ base max tick level < 2147483648) :
    |CalcValue calc_ base max tick minlevel level| ≤ |max| := by
  unfold CalcValue
  rw [abs_le]
  by_cases h1 : calc_ = 100
  · obtain ⟨hp, hb⟩ := h100 h1
    rw [abs_of_pos hp]
    simp only [h1]
    norm_num
    split <;> constructor <;> omega
  obtain ⟨hm1, hm2⟩ := hmag h1
  simp only [h0, h1, h3, if_false]
  generalize CalcValue_change calc_ base max tick level = c at hm1 hm2
  generalize abs32 base = ab at hm1 hm2
  unfold InRange at hmax
  rcases lt_or_gt_of_ne hm0 with hneg | hpos
  · rw [abs_of_neg hneg] at hm1 ⊢
    unfold add32 neg32 abs32 wrap32
    constructor <;> split_ifs <;> omega
  · rw [abs_of_pos hpos] at hm1 ⊢
    unfold add32 neg32 abs32 wrap32
    constructor <;> split_ifs <;> omega

/-- Witness for C2 amended: code 105 (four points per level) at level 60 on base -5
is clamped to max 100. -/
theorem CalcValue_clamp_of_bounded_magnitude_witness :
    |CalcValue 105 (-5) 100 0 1 60| ≤ |(100 : Int)| :=
  CalcValue_clamp_of_bounded_magnitude 105 (-5) 100 0 1 60 (by decide) (by decide)
    (by decide) (by decide) (by decide) (by decide)

/-! ## The slot loop of `BuffStackTest` -/

theorem BuffStackTest_eq_body (g : Globals) (fuel : Nat) (aSpell bSpell : PSPELL)
    (ign rec : Bool) :
    ∃ recurse, BuffStackTest g fuel aSpell bSpell ign rec
      = BuffStackTest_body g recurse aSpell bSpell ign rec := by
  cases fuel with
  | zero => exact ⟨_, rfl⟩
  | succ n => exact ⟨_, rfl⟩

theorem BuffStackTest_body_active (g : Globals)
    (recurse : PSPELL → PSPELL → Bool → Bool → StackResult) (a b : SPELL) (ign rec : Bool)
    (hctx : ActivePlay g) (hid : a.ID ≠ b.ID) :
    BuffStackTest_body g recurse (some a) (some b) ign rec
      = BuffStackTest_loop g recurse a b ign rec
          (max (GetSpellNumEffects a) (GetSpellNumEffects b)).toNat 0 := by
  obtain ⟨⟨p, hp, hc⟩, hs, hz⟩ := hctx
  unfold BuffStackTest_body
  simp [hp, hc, hs, hz, hid]

theorem BuffStackTest_trigger_none (g : Globals)
    (recurse : PSPELL → PSPELL → Bool → Bool → StackResult) (a b : SPELL) (ign : Bool) (i : Int)
    (ha : TriggeringEffectSpell g a i = false) (hb : TriggeringEffectSpell g b i = false) :
    BuffStackTest_trigger g recurse a b ign i = none := by
  unfold BuffStackTest_trigger
  simp [ha, hb]

/-- A slot without triggering code on either side either goes on or returns false. -/
theorem BuffStackTest_slot_plain (g : Globals)
    (recurse : PSPELL → PSPELL → Bool → Bool → StackResult) (a b : SPELL) (ign rec : Bool)
    (i : Int)
    (ha : TriggeringEffectSpell g a i = false) (hb : TriggeringEffectSpell g b i = false) :
    BuffStackTest_slot g recurse a b ign rec i
      = if BuffStackTest_direct g a b ign rec i = true ∨ BuffStackTest_block g a b i = true
        then some (StackResult.value false) else none := by
  unfold BuffStackTest_slot
  rw [BuffStackTest_trigger_none g recurse a b ign i ha hb]
  by_cases h1 : BuffStackTest_direct g a b ign rec i = true
  · simp [h1]
  · by_cases h2 : BuffStackTest_block g a b i = true
    · simp [h1, h2]
    · simp [h1, h2]

theorem BuffStackTest_loop_false (g : Globals)
    (recurse : PSPELL → PSPELL → Bool → Bool → StackResult) (a b : SPELL) (ign rec : Bool) :
    ∀ (n : Nat) (i : Int) (k : Nat), k < n →
      (∀ j : Nat, j < k → BuffStackTest_slot g recurse a b ign rec (i + j) = none
        ∨ BuffStackTest_slot g recurse a b ign rec (i + j) = some (StackResult.value false)) →
      BuffStackTest_slot g recurse a b ign rec (i + k) = some (StackResult.value false) →
      BuffStackTest_loop g recurse a b ign rec n i = StackResult.value false := by
  intro n
  induction n with
  | zero => intro i k hk; omega
  | succ n ih =>
    intro i k hk hbefore hat
    unfold BuffStackTest_loop
    cases k with
    | zero =>
      simp at hat
      rw [hat]
    | succ k =>
      have h0 := hbefore 0 (by omega)
      simp at h0
      rcases h0 with h0 | h0
      · rw [h0]
        simp only
        apply ih (i + 1) k (by omega)
        · intro j hj
          have := hbefore (j + 1) (by omega)
          have e : i + 1 + (j : Int) = i + ((j + 1 : Nat) : Int) := by push_cast; ring
          rw [e]; exact this
        · have e : i + 1 + (k : Int) = i + ((k + 1 : Nat) : Int) := by push_cast; ring
          rw [e]; exact hat
      · rw [h0]

theorem BuffStackTest_loop_true (g : Globals)
    (recurse : PSPELL → PSPELL → Bool → Bool → StackResult) (a b : SPELL) (ign rec : Bool) :
    ∀ (n : Nat) (i : Int),
      (∀ j : Nat, j < n → BuffStackTest_slot g recurse a b ign rec (i + j) = none) →
      BuffStackTest_loop g recurse a b ign rec n i = StackResult.value true := by
  intro n
  induction n with
  | zero => intro i _; rfl
  | succ n ih =>
    intro i h
    unfold BuffStackTest_loop
    have h0 := h 0 (by omega)
    simp at h0
    rw [h0]
    simp only
    apply ih
    intro j hj
    have := h (j + 1) (by omega)
    have e : i + 1 + (j : Int) = i + ((j + 1 : Nat) : Int) := by push_cast; ring
    rw [e]; exact this

/-! ## Recursion depth -/

theorem BuffStackTest_trigger_mono (g : Globals)
    {r1 r2 : PSPELL → PSPELL → Bool → Bool → StackResult} (h : RecurseLe r1 r2)
    (a b : SPELL) (ign : Bool) (i : Int) (o : Option StackResult)
    (ho : BuffStackTest_trigger g r1 a b ign i = o) (hne : o ≠ some StackResult.outOfFuel) :
    BuffStackTest_trigger g r2 a b ign i = o := by
  unfold BuffStackTest_trigger at ho ⊢
  dsimp only at ho ⊢
  by_cases ht : TriggeringEffectSpell g a i = true ∨ TriggeringEffectSpell g b i = true
  · simp only [ht, if_true] at ho ⊢
    cases hsA : BuffStackTest_selfTrigger (TriggeringEffectSpell g a i) a
        (g.GetSpellByID (BuffStackTest_resolveID g a i)) with
    | none => simpa [hsA] using ho
    | some va =>
      cases va with
      | true => simpa [hsA] using ho
      | false =>
        simp only [hsA] at ho ⊢
        cases hsB : BuffStackTest_selfTrigger (TriggeringEffectSpell g b i) b
            (g.GetSpellByID (BuffStackTest_resolveID g b i)) with
        | none => simpa [hsB] using ho
        | some vb =>
          cases vb with
          | true => simpa [hsB] using ho
          | false =>
            simp only [hsB] at ho ⊢
            cases hr : r1 (g.GetSpellByID (BuffStackTest_resolveID g a i))
                (g.GetSpellByID (BuffStackTest_resolveID g b i)) ign true with
            | value v =>
              rw [hr] at ho
              rw [h _ _ _ _ _ hr (by simp)]
              exact ho
            | fault =>
              rw [hr] at ho
              rw [h _ _ _ _ _ hr (by simp)]
              exact ho
            | outOfFuel =>
              rw [hr] at ho
              exact absurd ho.symm hne
  · simpa [ht] using ho

theorem BuffStackTest_slot_mono (g : Globals)
    {r1 r2 : PSPELL → PSPELL → Bool → Bool → StackResult} (h : RecurseLe r1 r2)
    (a b : SPELL) (ign rec : Bool) (i : Int) (o : Option StackResult)
    (ho : BuffStackTest_slot g r1 a b ign rec i = o) (hne : o ≠ some StackResult.outOfFuel) :
    BuffStackTest_slot g r2 a b ign rec i = o := by
  unfold BuffStackTest_slot at ho ⊢
  cases ht : BuffStackTest_trigger g r1 a b ign i with
  | none =>
    rw [ht] at ho
    rw [BuffStackTest_trigger_mono g h a b ign i none ht (by simp)]
    exact ho
  | some r =>
    rw [ht] at ho
    simp only at ho
    rw [BuffStackTest_trigger_mono g h a b ign i (some r) ht (by rw [ho]; exact hne)]
    exact ho

theorem BuffStackTest_loop_mono (g : Globals)
    {r1 r2 : PSPELL → PSPELL → Bool → Bool → StackResult} (h : RecurseLe r1 r2)
    (a b : SPELL) (ign rec : Bool) :
    ∀ (n : Nat) (i : Int) (r : StackResult),
      BuffStackTest_loop g r1 a b ign rec n i = r → r ≠ StackResult.outOfFuel →
      BuffStackTest_loop g r2 a b ign rec n i = r := by
  intro n
  induction n with
  | zero => intro i r hr _; exact hr
  | succ n ih =>
    intro i r hr hne
    unfold BuffStackTest_loop at hr ⊢
    cases hs : BuffStackTest_slot g r1 a b ign rec i with
    | none =>
      rw [hs] at hr
      rw [BuffStackTest_slot_mono g h a b ign rec i none hs (by simp)]
      exact ih (i + 1) r hr hne
    | some v =>
      rw [hs] at hr
      simp only at hr
      rw [BuffStackTest_slot_mono g h a b ign rec i (some v) hs (by rw [hr]; simpa using hne)]
      exact hr

theorem BuffStackTest_body_mono (g : Globals)
    {r1 r2 : PSPELL → PSPELL → Bool → Bool → StackResult} (h : RecurseLe r1 r2) :
    RecurseLe (BuffStackTest_body g r1) (BuffStackTest_body g r2) := by
  intro x y p q r hr hne
  unfold BuffStackTest_body at hr ⊢
  split at hr
  · simpa using hr
  · rename_i pSpawn hp
    simp only [hp]
    split_ifs at hr ⊢ with h1 h2 h3
    · exact hr
    · exact hr
    · exact hr
    · revert hr
      split
      · split_ifs
        · exact id
        · intro hr
          exact BuffStackTest_loop_mono g h _ _ p q _ _ r hr hne
      · exact id

theorem BuffStackTest_mono_succ (g : Globals) (n : Nat) :
    RecurseLe (BuffStackTest g n) (BuffStackTest g (n + 1)) := by
  induction n with
  | zero =>
    have h0 : RecurseLe (fun _ _ _ _ => StackResult.outOfFuel) (BuffStackTest g 0) := by
      intro x y p q r hr hne
      exact absurd hr.symm hne
    exact BuffStackTest_body_mono g h0
  | succ n ih => exact BuffStackTest_body_mono g ih

/-- More recursion depth never changes an answer: a boolean or a fault obtained within
depth `n` is obtained within every depth `m ≥ n`. -/
theorem BuffStackTest_mono (g : Globals) (n m : Nat) (hnm : n ≤ m) (x y : PSPELL) (p q : Bool)
    (r : StackResult) (hr : BuffStackTest g n x y p q = r) (hne : r ≠ StackResult.outOfFuel) :
    BuffStackTest g m x y p q = r := by
  induction m with
  | zero =>
    have : n = 0 := by omega
    subst this; exact hr
  | succ m ih =>
    by_cases h : n = m + 1
    · subst h; exact hr
    · exact BuffStackTest_mono_succ g m x y p q r (ih (by omega)) hne

/-! ## Stacking resolver: claims -/

theorem testGlobals_active (table : List SPELLCALCINFO) (spells : List SPELL) :
    ActivePlay (testGlobals table spells) :=
  ⟨⟨⟨true⟩, rfl, rfl⟩, rfl, rfl⟩

/-- C3, as stated, fails: in scenario B (two distinct single-slot spells, both
{Attrib=69, Base=50}, active play) `BuffStackTest` returns true, not false, because
`LargerEffectTest` holds for equal magnitudes. -/
theorem BuffStackTest_same_code_counterexample :
    ActivePlay sceneB_globals ∧ sceneA.ID ≠ sceneB.ID
      ∧ GetSpellNumEffects sceneA = 1 ∧ GetSpellNumEffects sceneB = 1
      ∧ GetSpellAttrib sceneB_globals (some sceneA) 0 = 69
      ∧ GetSpellAttrib sceneB_globals (some sceneB) 0 = 69
      ∧ GetSpellBase sceneB_globals (some sceneA) 0 = 50
      ∧ GetSpellBase sceneB_globals (some sceneB) 0 = 50
      ∧ BuffStackTest sceneB_globals 0 (some sceneA) (some sceneB) false false
          = StackResult.value true
      ∧ BuffStackTest sceneB_globals 0 (some sceneA) (some sceneB) true false
          = StackResult.value true :=
  ⟨testGlobals_active _ _, by decide, by decide, by decide, by decide, by decide, by decide,
    by decide, by decide, by decide⟩

/-- C3, amended: in active play, for two spells with distinct IDs that each have exactly
one effect slot with attribute code 69, `BuffStackTest(A, B, ign, false)` returns, at
every recursion depth, true when `abs(Base A) ≥ abs(Base B)` (so with the same Base on
both) or when both spell types are 1 or 2 and the duration windows differ, and false
otherwise. -/
theorem BuffStackTest_same_code_single_slot (g : Globals) (fuel : Nat) (a b : SPELL)
    (ign : Bool) (hctx : ActivePlay g) (hid : a.ID ≠ b.ID)
    (ha : GetSpellNumEffects a = 1) (hb : GetSpellNumEffects b = 1)
    (haA : GetSpellAttrib g (some a) 0 = 69) (hbA : GetSpellAttrib g (some b) 0 = 69)
    (hra : InRange (GetSpellBase g (some a) 0)) (hrb : InRange (GetSpellBase g (some b) 0)) :
    BuffStackTest g fuel (some a) (some b) ign false
      = StackResult.value (decide (|GetSpellBase g (some a) 0| ≥ |GetSpellBase g (some b) 0|
          ∨ ((a.SpellType = 1 ∨ a.SpellType = 2) ∧ (b.SpellType = 1 ∨ b.SpellType = 2)
              ∧ a.DurationWindow ≠ b.DurationWindow))) := by
  obtain ⟨recurse, hr⟩ := BuffStackTest_eq_body g fuel (some a) (some b) ign false
  rw [hr, BuffStackTest_body_active g recurse a b ign false hctx hid, ha, hb]
  have hta : TriggeringEffectSpell g a 0 = false := by
    unfold TriggeringEffectSpell; simp [ha, haA]
  have htb : TriggeringEffectSpell g b 0 = false := by
    unfold TriggeringEffectSpell; simp [hb, hbA]
  have hblock : BuffStackTest_block g a b 0 = false := by
    unfold BuffStackTest_block; simp [hb, hbA]
  have hlet : LargerEffectTest g a b 0 false
      = decide (|GetSpellBase g (some a) 0| ≥ |GetSpellBase g (some b) 0|) := by
    unfold LargerEffectTest
    simp [ha, hb, haA, hbA, abs32_of_inRange hra, abs32_of_inRange hrb]
  have hset : SpellEffectTest g a b 0 ign false
      = decide (|GetSpellBase g (some a) 0| ≥ |GetSpellBase g (some b) 0|
          ∨ ((a.SpellType = 1 ∨ a.SpellType = 2) ∧ (b.SpellType = 1 ∨ b.SpellType = 2)
              ∧ a.DurationWindow ≠ b.DurationWindow)) := by
    unfold SpellEffectTest
    simp [ha, hb, haA, hbA, hlet, hta, htb]
  have hdirect : BuffStackTest_direct g a b ign false 0
      = !(SpellEffectTest g a b 0 ign false) := by
    unfold BuffStackTest_direct
    simp [ha, hb, haA, hbA]
  show BuffStackTest_loop g recurse a b ign false 1 0 = _
  unfold BuffStackTest_loop
  rw [BuffStackTest_slot_plain g recurse a b ign false 0 hta htb, hblock, hdirect, hset]
  by_cases h : (|GetSpellBase g (some a) 0| ≥ |GetSpellBase g (some b) 0|
          ∨ ((a.SpellType = 1 ∨ a.SpellType = 2) ∧ (b.SpellType = 1 ∨ b.SpellType = 2)
              ∧ a.DurationWindow ≠ b.DurationWindow))
  · simp [h, BuffStackTest_loop]
  · simp [h]

/-- Witness for C3 amended: {Attrib=69, Base=10} against {Attrib=69, Base=50} does not
stack. -/
theorem BuffStackTest_same_code_single_slot_witness :
    BuffStackTest sceneB_weaker_globals 0 (some sceneA) (some sceneB) false false
      = StackResult.value false :=
  (BuffStackTest_same_code_single_slot sceneB_weaker_globals 0 sceneA sceneB false
    (testGlobals_active _ _) (by decide) (by decide) (by decide) (by decide) (by decide)
    (by decide) (by decide)).trans (by decide)

/-- C4: in active play, if spell B has at slot `i` a block directive {Attrib=148,
Base2=s, Base=t, Max ≤ 0} where `s` is the 1-based number of a slot of A, A (a different
ID) has attribute code `t` at that slot, and neither spell has a triggering code at the
slots up to `i`, then `BuffStackTest(A, B, ign, rec)` returns false at every recursion
depth. -/
theorem BuffStackTest_block_unconditional (g : Globals) (fuel : Nat) (a b : SPELL)
    (ign rec : Bool) (i : Nat) (s t : Int)
    (hctx : ActivePlay g) (hid : a.ID ≠ b.ID)
    (hnt : ∀ j : Nat, j ≤ i →
      TriggeringEffectSpell g a j = false ∧ TriggeringEffectSpell g b j = false)
    (hi : (i : Int) < GetSpellNumEffects b)
    (hattr : GetSpellAttrib g (some b) i = 148)
    (hbase2 : GetSpellBase2 g (some b) i = s)
    (hbase : GetSpellBase g (some b) i = t)
    (hmax : GetSpellMax g (some b) i ≤ 0)
    (hs : 1 ≤ s ∧ s ≤ GetSpellNumEffects a)
    (hN : GetSpellNumEffects a < 2147483648)
    (hA : GetSpellAttrib g (some a) (s - 1) = t) :
    BuffStackTest g fuel (some a) (some b) ign rec = StackResult.value false := by
  obtain ⟨recurse, hr⟩ := BuffStackTest_eq_body g fuel (some a) (some b) ign rec
  rw [hr, BuffStackTest_body_active g recurse a b ign rec hctx hid]
  have hplain : ∀ j : Nat, j ≤ i → BuffStackTest_slot g recurse a b ign rec j
      = if BuffStackTest_direct g a b ign rec j = true ∨ BuffStackTest_block g a b j = true
        then some (StackResult.value false) else none :=
    fun j hj => BuffStackTest_slot_plain g recurse a b ign rec j (hnt j hj).1 (hnt j hj).2
  apply BuffStackTest_loop_false g recurse a b ign rec _ 0 i
  · have : (i : Int) < max (GetSpellNumEffects a) (GetSpellNumEffects b) :=
      lt_of_lt_of_le hi (le_max_right _ _)
    omega
  · intro j hj
    rw [zero_add, hplain j (by omega)]
    split
    · exact Or.inr rfl
    · exact Or.inl rfl
  · rw [zero_add, hplain i (le_refl i)]
    have hsub : sub32 s 1 = s - 1 := by
      unfold sub32; exact wrap32_of_range (by omega) (by omega)
    have hblock : BuffStackTest_block g a b (i : Int) = true := by
      unfold BuffStackTest_block
      have hmax' : ¬ (GetSpellMax g (some b) i > 0) := by omega
      have hslot : GetSpellNumEffects a > s - 1 := by omega
      simp [hi, hattr, hbase2, hbase, hsub, hmax', hslot, hA]
    simp [hblock]

/-- Witness for C4: scenario C, B = {148, Base2=1, Base=1, Max=0}, A's first slot
{Attrib=1, Base=5}. -/
theorem BuffStackTest_block_unconditional_witness :
    BuffStackTest sceneC_globals 0 (some sceneA) (some sceneB) true false
      = StackResult.value false :=
  BuffStackTest_block_unconditional sceneC_globals 0 sceneA sceneB true false 0 1 1
    (testGlobals_active _ _) (by decide)
    (fun j hj => by
      have h0 : j = 0 := Nat.le_zero.mp hj
      subst h0
      decide)
    (by decide) (by decide) (by decide) (by decide) (by decide) (by decide) (by decide)
    (by decide)

/-- C5: for two non-null spell definitions with the same ID `BuffStackTest` returns true,
for every process state, flag values and recursion depth; the body does so whatever its
recursive call would answer, so no recursion is involved. -/
theorem BuffStackTest_same_id (g : Globals) (fuel : Nat) (a b : SPELL) (ign rec : Bool)
    (hid : a.ID = b.ID) :
    BuffStackTest g fuel (some a) (some b) ign rec = StackResult.value true
      ∧ ∀ recurse, BuffStackTest_body g recurse (some a) (some b) ign rec
          = StackResult.value true := by
  have key : ∀ recurse, BuffStackTest_body g recurse (some a) (some b) ign rec
      = StackResult.value true := by
    intro recurse
    unfold BuffStackTest_body
    split
    · rfl
    · simp [hid]
  refine ⟨?_, key⟩
  obtain ⟨recurse, hr⟩ := BuffStackTest_eq_body g fuel (some a) (some b) ign rec
  rw [hr, key]

/-- Witness for C5: the proc spell of the trigger chain against itself, at depth 0. -/
theorem BuffStackTest_same_id_witness :
    BuffStackTest sceneProc_globals 0 (some sceneProc) (some sceneProc) false false
      = StackResult.value true :=
  (BuffStackTest_same_id sceneProc_globals 0 sceneProc sceneProc false false rfl).1

/-- C6: when there is no local player, or no character, or the game state is not
in-game, or a zone transition is in progress, `BuffStackTest` returns true for every
pair of references (null ones included), flags and depth; and for a pair with a null
reference it returns false exactly when the context is active play. -/
theorem BuffStackTest_fail_open (g : Globals) (fuel : Nat) (aSpell bSpell : PSPELL)
    (ign rec : Bool) :
    ((g.pLocalPlayer = none ∨ (∃ p, g.pLocalPlayer = some p ∧ p.GetCharacter = false)
        ∨ GetGameState g ≠ g.GAMESTATE_INGAME ∨ g.gZoning = true) →
      BuffStackTest g fuel aSpell bSpell ign rec = StackResult.value true)
    ∧ ((aSpell = none ∨ bSpell = none) →
      (BuffStackTest g fuel aSpell bSpell ign rec = StackResult.value false ↔ ActivePlay g)) := by
  obtain ⟨recurse, hr⟩ := BuffStackTest_eq_body g fuel aSpell bSpell ign rec
  rw [hr]
  constructor
  · intro h
    unfold BuffStackTest_body
    rcases h with h | ⟨p, hp, hc⟩ | h | h
    · simp [h]
    · simp [hp, hc]
    · split
      · rfl
      · simp [h]
    · split
      · rfl
      · simp [h]
  · intro hnull
    constructor
    · intro h
      unfold BuffStackTest_body at h
      unfold ActivePlay
      split at h
      · simp at h
      · rename_i p hp
        split_ifs at h with h1 h2 h3
        · simp at h
        · simp at h
        · simp at h
        · refine ⟨⟨p, hp, ?_⟩, ?_, ?_⟩
          · simpa using h1
          · simpa using h2
          · simpa using h3
    · intro hctx
      obtain ⟨⟨p, hp, hc⟩, hs, hz⟩ := hctx
      unfold BuffStackTest_body
      rcases hnull with h | h
      · simp [hp, hc, hs, hz, h]
      · cases aSpell <;> simp [hp, hc, hs, hz, h]

/-- Witness for C6: during a zone transition the conflicting pair of scenario C gives
true; in active play a null first reference gives false. -/
theorem BuffStackTest_fail_open_witness :
    BuffStackTest sceneC_zoning_globals 0 (some sceneA) (some sceneB) false false
        = StackResult.value true
      ∧ BuffStackTest sceneC_globals 0 none (some sceneB) false false = StackResult.value false :=
  ⟨(BuffStackTest_fail_open sceneC_zoning_globals 0 (some sceneA) (some sceneB) false false).1
      (Or.inr (Or.inr (Or.inr rfl))),
    ((BuffStackTest_fail_open sceneC_globals 0 none (some sceneB) false false).2
      (Or.inl rfl)).2 (testGlobals_active _ _)⟩

/-- C7: stacking is not symmetric.  In scenario C (active play, A = {Attrib=1, Base=5},
B = {Attrib=148, Base2=1, Base=1, Max=0}) `BuffStackTest(A, B)` is false and
`BuffStackTest(B, A)` is true, for every flag value and recursion depth. -/
theorem BuffStackTest_not_symmetric :
    ActivePlay sceneC_globals ∧ sceneA.ID ≠ sceneB.ID
    ∧ (∀ fuel ign rec, BuffStackTest sceneC_globals fuel (some sceneA) (some sceneB) ign rec
        = StackResult.value false)
    ∧ (∀ fuel ign rec, BuffStackTest sceneC_globals fuel (some sceneB) (some sceneA) ign rec
        = StackResult.value true) := by
  refine ⟨testGlobals_active _ _, by decide, ?_, ?_⟩
  · intro fuel ign rec
    cases fuel <;> cases ign <;> cases rec <;> rfl
  · intro fuel ign rec
    cases fuel <;> cases ign <;> cases rec <;> rfl

/-- C8, as stated, fails: the ignore-set of `SpellEffectTest` also holds the codes 339
and 340.  With A = {Attrib=339, Base=1} and B = {Attrib=1, Base=5} the test is true
although neither code is in the claimed set, `LargerEffectTest` is false,
`ignoreTriggering` is unset and the spell types are 0. -/
theorem SpellEffectTest_ignore_set_counterexample :
    SpellEffectTest scene339_globals sceneA sceneB 0 false false = true
    ∧ SlotCode scene339_globals sceneA 0 = 339 ∧ SlotCode scene339_globals sceneB 0 = 1
    ∧ ¬ ((SlotCode scene339_globals sceneA 0 ∈ ([57, 134, 135, 136, 137, 138, 139, 140, 141,
            142, 143, 144, 254, 311, 348, 385, 391, 403, 404, 411, 412, 414, 422, 423, 428]
            : List Int)
          ∨ SlotCode scene339_globals sceneB 0 ∈ ([57, 134, 135, 136, 137, 138, 139, 140, 141,
            142, 143, 144, 254, 311, 348, 385, 391, 403, 404, 411, 412, 414, 422, 423, 428]
            : List Int))
        ∨ LargerEffectTest scene339_globals sceneA sceneB 0 false = true
        ∨ (false = true ∧ (SlotCode scene339_globals sceneA 0 ∈ ([85, 374, 419] : List Int)
            ∨ SlotCode scene339_globals sceneB 0 ∈ ([85, 374, 419] : List Int)))
        ∨ ((sceneA.SpellType = 1 ∨ sceneA.SpellType = 2)
            ∧ (sceneB.SpellType = 1 ∨ sceneB.SpellType = 2)
            ∧ sceneA.DurationWindow ≠ sceneB.DurationWindow)) := by
  decide

/-- C8, amended: `SpellEffectTest(a, b, i, ignoreTriggering, isRecursiveCheck)` is true
if and only if (1) either side's code at slot `i` (254 at or past the effect count) is in
{57, 134..144, 254, 311, 339, 340, 348, 385, 391, 403, 404, 411, 412, 414, 422, 423, 428},
or (2) `LargerEffectTest(a, b, i, isRecursiveCheck)` is true, or (3) `ignoreTriggering`
is set and either side's code is 85, 374 or 419, or (4) both spells have SpellType 1 or 2
and their DurationWindow flags differ. -/
theorem SpellEffectTest_iff (g : Globals) (a b : SPELL) (i : Int) (ign rec : Bool) :
    SpellEffectTest g a b i ign rec = true ↔
      ((SlotCode g a i ∈ ([57, 134, 135, 136, 137, 138, 139, 140, 141, 142, 143, 144, 254, 311,
          339, 340, 348, 385, 391, 403, 404, 411, 412, 414, 422, 423, 428] : List Int)
        ∨ SlotCode g b i ∈ ([57, 134, 135, 136, 137, 138, 139, 140, 141, 142, 143, 144, 254, 311,
          339, 340, 348, 385, 391, 403, 404, 411, 412, 414, 422, 423, 428] : List Int))
      ∨ LargerEffectTest g a b i rec = true
      ∨ (ign = true ∧ (SlotCode g a i ∈ ([85, 374, 419] : List Int)
          ∨ SlotCode g b i ∈ ([85, 374, 419] : List Int)))
      ∨ ((a.SpellType = 1 ∨ a.SpellType = 2) ∧ (b.SpellType = 1 ∨ b.SpellType = 2)
          ∧ a.DurationWindow ≠ b.DurationWindow)) := by
  unfold SpellEffectTest TriggeringEffectSpell SlotCode
  simp only [decide_eq_true_eq, List.mem_cons, List.mem_singleton, List.not_mem_nil, or_false]
  generalize (if GetSpellNumEffects a > i then GetSpellAttrib g (some a) i else 254) = x
  generalize (if GetSpellNumEffects b > i then GetSpellAttrib g (some b) i else 254) = y
  generalize (LargerEffectTest g a b i rec = true) = P
  simp only [ne_eq]
  apply Iff.of_eq
  ac_rfl

/-- C9: for Base values whose magnitude is a 32-bit value, `LargerEffectTest(a, b, i,
isRecursiveCheck)` is true exactly when both sides read the same attribute code at slot
`i` (254 at or past the effect count) and either `abs(Base(a,i)) ≥ abs(Base(b,i))` or the
check is recursive and the spells share a SpellGroup; it is false whenever the two codes
differ. -/
theorem LargerEffectTest_iff (g : Globals) (a b : SPELL) (i : Int) (rec : Bool)
    (hra : InRange (GetSpellBase g (some a) i)) (hrb : InRange (GetSpellBase g (some b) i)) :
    (LargerEffectTest g a b i rec = true ↔
      SlotCode g a i = SlotCode g b i
        ∧ (|GetSpellBase g (some a) i| ≥ |GetSpellBase g (some b) i|
          ∨ (rec = true ∧ a.SpellGroup = b.SpellGroup)))
    ∧ (SlotCode g a i ≠ SlotCode g b i → LargerEffectTest g a b i rec = false) := by
  unfold LargerEffectTest SlotCode
  rw [abs32_of_inRange hra, abs32_of_inRange hrb]
  generalize (if GetSpellNumEffects a > i then GetSpellAttrib g (some a) i else 254) = x
  generalize (if GetSpellNumEffects b > i then GetSpellAttrib g (some b) i else 254) = y
  by_cases hxy : x = y
  · simp [hxy]
  · simp [hxy]

/-- Witness for C9: code 69 on both sides with Base 10 against Base 50 in a recursive
check of spells in different groups is not a larger effect; with different codes (85
against 69) the test is false. -/
theorem LargerEffectTest_iff_witness :
    ¬ (LargerEffectTest sceneProc_globals sceneProcTarget sceneOther 0 true = true)
      ∧ LargerEffectTest sceneProc_globals sceneProc sceneOther 0 true = false :=
  ⟨fun h => absurd ((LargerEffectTest_iff sceneProc_globals sceneProcTarget sceneOther 0 true
      (by decide) (by decide)).1.1 h).2 (by decide),
    (LargerEffectTest_iff sceneProc_globals sceneProc sceneOther 0 true
      (by decide) (by decide)).2 (by decide)⟩

theorem BuffStackTest_trigger_resolved (g : Globals)
    (recurse : PSPELL → PSPELL → Bool → Bool → StackResult) (a b rA rB : SPELL) (ign : Bool)
    (i : Int)
    (htrig : TriggeringEffectSpell g a i = true ∨ TriggeringEffectSpell g b i = true)
    (hA : g.GetSpellByID (BuffStackTest_resolveID g a i) = some rA)
    (hB : g.GetSpellByID (BuffStackTest_resolveID g b i) = some rB) :
    BuffStackTest_trigger g recurse a b ign i
      = if (TriggeringEffectSpell g a i = true ∧ a.ID = rA.ID)
            ∨ (TriggeringEffectSpell g b i = true ∧ b.ID = rB.ID) then none
        else match recurse (some rA) (some rB) ign true with
          | StackResult.value true => none
          | r => some r := by
  unfold BuffStackTest_trigger BuffStackTest_selfTrigger
  simp only [htrig, if_true, hA, hB]
  cases hta : TriggeringEffectSpell g a i <;> cases htb : TriggeringEffectSpell g b i <;>
    by_cases h1 : a.ID = rA.ID <;> by_cases h2 : b.ID = rB.ID <;> simp [h1, h2] <;>
    (split <;> simp_all)

/-- C10: in active play, let `i` be the first slot at which A or B has a triggering code
(85, 374, 419), and let the by-ID lookups of the two sides yield the spells `rA`, `rB`.
(1) The looked-up ID of a side is its Base2 for code 374, its Base for codes 85 and 419,
and the spell's own ID for a side that is not triggering.  (2) If neither triggering side
resolves to its own ID and `BuffStackTest(rA, rB, ign, true)` is false within depth
`fuel`, then `BuffStackTest(A, B, ign, rec)` is false within every larger depth.  (3) If a
triggering side resolves to its own ID, the outcome of slot `i` does not depend on the
recursive call. -/
theorem BuffStackTest_trigger_chain (g : Globals) (fuel : Nat) (a b rA rB : SPELL)
    (ign rec : Bool) (i : Nat)
    (hctx : ActivePlay g) (hid : a.ID ≠ b.ID)
    (hi : (i : Int) < max (GetSpellNumEffects a) (GetSpellNumEffects b))
    (hfirst : ∀ j : Nat, j < i →
      TriggeringEffectSpell g a j = false ∧ TriggeringEffectSpell g b j = false)
    (htrig : TriggeringEffectSpell g a i = true ∨ TriggeringEffectSpell g b i = true)
    (hA : g.GetSpellByID (BuffStackTest_resolveID g a i) = some rA)
    (hB : g.GetSpellByID (BuffStackTest_resolveID g b i) = some rB) :
    ((SlotCode g a i = 374 → BuffStackTest_resolveID g a i = GetSpellBase2 g (some a) i)
      ∧ (SlotCode g a i = 85 ∨ SlotCode g a i = 419 →
          BuffStackTest_resolveID g a i = GetSpellBase g (some a) i)
      ∧ (TriggeringEffectSpell g a i = false → BuffStackTest_resolveID g a i = a.ID)
      ∧ (SlotCode g b i = 374 → BuffStackTest_resolveID g b i = GetSpellBase2 g (some b) i)
      ∧ (SlotCode g b i = 85 ∨ SlotCode g b i = 419 →
          BuffStackTest_resolveID g b i = GetSpellBase g (some b) i)
      ∧ (TriggeringEffectSpell g b i = false → BuffStackTest_resolveID g b i = b.ID))
    ∧ (¬ (TriggeringEffectSpell g a i = true ∧ a.ID = rA.ID) →
        ¬ (TriggeringEffectSpell g b i = true ∧ b.ID = rB.ID) →
        BuffStackTest g fuel (some rA) (some rB) ign true = StackResult.value false →
        ∀ m, fuel < m → BuffStackTest g m (some a) (some b) ign rec = StackResult.value false)
    ∧ ((TriggeringEffectSpell g a i = true ∧ a.ID = rA.ID)
          ∨ (TriggeringEffectSpell g b i = true ∧ b.ID = rB.ID) →
        ∀ recurse recurse', BuffStackTest_slot g recurse a b ign rec i
          = BuffStackTest_slot g recurse' a b ign rec i) := by
  have hres : ∀ s : SPELL,
      (SlotCode g s i = 374 → BuffStackTest_resolveID g s i = GetSpellBase2 g (some s) i)
      ∧ (SlotCode g s i = 85 ∨ SlotCode g s i = 419 →
          BuffStackTest_resolveID g s i = GetSpellBase g (some s) i)
      ∧ (TriggeringEffectSpell g s i = false → BuffStackTest_resolveID g s i = s.ID) := by
    intro s
    unfold BuffStackTest_resolveID TriggeringEffectSpell SlotCode
    by_cases hn : GetSpellNumEffects s > (i : Int)
    · simp only [hn, if_true]
      refine ⟨?_, ?_, ?_⟩
      · intro h; simp [h]
      · intro h; rcases h with h | h <;> simp [h]
      · intro h; simp only [h]; simp
    · simp [hn]
  refine ⟨⟨(hres a).1, (hres a).2.1, (hres a).2.2, (hres b).1, (hres b).2.1, (hres b).2.2⟩,
    ?_, ?_⟩
  · intro hna hnb hrec m hm
    apply BuffStackTest_mono g (fuel + 1) m (by omega) _ _ _ _ _ _ (by simp)
    show BuffStackTest_body g (BuffStackTest g fuel) (some a) (some b) ign rec = _
    rw [BuffStackTest_body_active g _ a b ign rec hctx hid]
    apply BuffStackTest_loop_false g _ a b ign rec _ 0 i
    · omega
    · intro j hj
      rw [zero_add, BuffStackTest_slot_plain g _ a b ign rec j (hfirst j hj).1 (hfirst j hj).2]
      split
      · exact Or.inr rfl
      · exact Or.inl rfl
    · rw [zero_add]
      unfold BuffStackTest_slot
      rw [BuffStackTest_trigger_resolved g _ a b rA rB ign i htrig hA hB, hrec]
      simp [hna, hnb]
  · intro hself recurse recurse'
    unfold BuffStackTest_slot
    rw [BuffStackTest_trigger_resolved g recurse a b rA rB ign i htrig hA hB,
      BuffStackTest_trigger_resolved g recurse' a b rA rB ign i htrig hA hB]
    simp [hself]

/-- Witness for C10: spell 10 procs spell 11 {69, Base=10}, which conflicts with spell 20
{69, Base=50}; so spell 10 does not stack with spell 20. -/
theorem BuffStackTest_trigger_chain_witness :
    BuffStackTest sceneProc_globals 1 (some sceneProc) (some sceneOther) false false
      = StackResult.value false :=
  (BuffStackTest_trigger_chain sceneProc_globals 0 sceneProc sceneOther sceneProcTarget
    sceneOther false false 0 (testGlobals_active _ _) (by decide) (by decide)
    (fun j hj => absurd hj (Nat.not_lt_zero j)) (by decide) (by decide) (by decide)).2.1
    (by decide) (by decide) (by decide) 1 (by decide)

/-! ## Value calculator: claims on durations, level brackets and pass-through codes -/

theorem CalcMaxSpellLevel_loop_spec (calc_ base max tick minlevel level : Int) :
    ∀ (n : Nat) (m : Int), m + n = level + 1 →
      (CalcMaxSpellLevel_loop calc_ base max tick minlevel level n m = level
          ∧ ∀ l, m ≤ l → l ≤ level →
              ¬ (abs32 (CalcValue calc_ base max tick minlevel l) ≥ abs32 max))
      ∨ (m ≤ CalcMaxSpellLevel_loop calc_ base max tick minlevel level n m
          ∧ CalcMaxSpellLevel_loop calc_ base max tick minlevel level n m ≤ level
          ∧ abs32 (CalcValue calc_ base max tick minlevel
              (CalcMaxSpellLevel_loop calc_ base max tick minlevel level n m)) ≥ abs32 max
          ∧ ∀ l, m ≤ l → l < CalcMaxSpellLevel_loop calc_ base max tick minlevel level n m →
              ¬ (abs32 (CalcValue calc_ base max tick minlevel l) ≥ abs32 max)) := by
  intro n
  induction n with
  | zero =>
    intro m hm
    left
    refine ⟨rfl, ?_⟩
    intro l h1 h2
    omega
  | succ n ih =>
    intro m hm
    unfold CalcMaxSpellLevel_loop
    by_cases hP : abs32 (CalcValue calc_ base max tick minlevel m) ≥ abs32 max
    · right
      rw [if_pos hP]
      refine ⟨le_refl m, by omega, hP, ?_⟩
      intro l h1 h2
      omega
    · rw [if_neg hP]
      rcases ih (m + 1) (by push_cast at hm; omega) with ⟨h1, h2⟩ | ⟨h1, h2, h3, h4⟩
      · left
        refine ⟨h1, ?_⟩
        intro l hl1 hl2
        by_cases hlm : l = m
        · subst hlm; exact hP
        · exact h2 l (by omega) hl2
      · right
        refine ⟨by omega, h2, h3, ?_⟩
        intro l hl1 hl2
        by_cases hlm : l = m
        · subst hlm; exact hP
        · exact h4 l (by omega) hl2

/-- C15: `CalcMaxSpellLevel` returns the maximum player level for `max = 0`.  For
`max ≠ 0` and `1 ≤ level` (all values 32-bit, `max` and the values of `CalcValue` on the
levels `1 .. level` other than the least one, `level` below the greatest one) the result
`L` satisfies `1 ≤ L ≤ level`; if some level `l` in `[1, level]` has
`abs(CalcValue(.., l)) ≥ abs(max)` then `L` is the smallest such level, otherwise
`L = level`. -/
theorem CalcMaxSpellLevel_spec (MAX_PC_LEVEL calc_ base max tick minlevel level : Int) :
    (max = 0 → CalcMaxSpellLevel MAX_PC_LEVEL calc_ base max tick minlevel level = MAX_PC_LEVEL)
    ∧ (max ≠ 0 → InRange max → 1 ≤ level → level < 2147483647 →
        (∀ l, 1 ≤ l → l ≤ level → InRange (CalcValue calc_ base max tick minlevel l)) →
        1 ≤ CalcMaxSpellLevel MAX_PC_LEVEL calc_ base max tick minlevel level
        ∧ CalcMaxSpellLevel MAX_PC_LEVEL calc_ base max tick minlevel level ≤ level
        ∧ ((∃ l, 1 ≤ l ∧ l ≤ level ∧ |CalcValue calc_ base max tick minlevel l| ≥ |max|) →
            |CalcValue calc_ base max tick minlevel
                (CalcMaxSpellLevel MAX_PC_LEVEL calc_ base max tick minlevel level)| ≥ |max|
            ∧ ∀ l, 1 ≤ l →
                l < CalcMaxSpellLevel MAX_PC_LEVEL calc_ base max tick minlevel level →
                |CalcValue calc_ base max tick minlevel l| < |max|)
        ∧ ((¬ ∃ l, 1 ≤ l ∧ l ≤ level ∧ |CalcValue calc_ base max tick minlevel l| ≥ |max|) →
            CalcMaxSpellLevel MAX_PC_LEVEL calc_ base max tick minlevel level = level)) := by
  constructor
  · intro h0
    subst h0
    unfold CalcMaxSpellLevel
    have : ¬ (abs32 0 > 0) := by decide
    simp only [this, if_false]
  · intro hm0 hmax hlevel _ hcv
    have habs : abs32 max = |max| := abs32_of_inRange hmax
    have hpos : abs32 max > 0 := by rw [habs]; exact abs_pos.mpr hm0
    have hcv' : ∀ l, 1 ≤ l → l ≤ level →
        abs32 (CalcValue calc_ base max tick minlevel l)
          = |CalcValue calc_ base max tick minlevel l| :=
      fun l h1 h2 => abs32_of_inRange (hcv l h1 h2)
    unfold CalcMaxSpellLevel
    simp only [hpos, if_true]
    have hspec := CalcMaxSpellLevel_loop_spec calc_ base max tick minlevel level level.toNat 1
      (by omega)
    generalize CalcMaxSpellLevel_loop calc_ base max tick minlevel level level.toNat 1 = L
      at hspec
    rcases hspec with ⟨h1, h2⟩ | ⟨h1, h2, h3, h4⟩
    · subst h1
      refine ⟨hlevel, le_refl _, ?_, fun _ => rfl⟩
      rintro ⟨l, hl1, hl2, hl3⟩
      exact absurd (by rw [hcv' l hl1 hl2, habs]; exact hl3) (h2 l hl1 hl2)
    · refine ⟨h1, h2, ?_, ?_⟩
      · intro _
        refine ⟨by rw [← hcv' L h1 h2, ← habs]; exact h3, ?_⟩
        intro l hl1 hl2
        have := h4 l hl1 hl2
        rw [hcv' l hl1 (by omega), habs] at this
        exact lt_of_not_ge this
      · intro hno
        exact absurd ⟨L, h1, h2, by rw [← hcv' L h1 h2, ← habs]; exact h3⟩ hno

/-- Witness for C15: with one point per level (code 102) on base 5 and max 8, the cap is
first reached at level 3 of the levels 1 to 10. -/
theorem CalcMaxSpellLevel_spec_witness :
    1 ≤ CalcMaxSpellLevel 110 102 5 8 0 1 10 ∧ CalcMaxSpellLevel 110 102 5 8 0 1 10 ≤ 10
      ∧ CalcMaxSpellLevel 110 102 5 8 0 1 10 = 3 :=
  have h := (CalcMaxSpellLevel_spec 110 102 5 8 0 1 10).2 (by decide) (by decide) (by decide)
    (by decide) (by
      intro l h1 h2
      interval_cases l <;> decide)
  ⟨h.1, h.2.1, by decide⟩

/-- C16: the pass-through codes of `CalcValue`.  Code 0 returns `base`; code 100 returns
`max` when `max > 0` and (`base > max` or `level > minlevel`), and `base` otherwise. -/
theorem CalcValue_pass_through (base max tick minlevel level : Int) :
    CalcValue 0 base max tick minlevel level = base
    ∧ CalcValue 100 base max tick minlevel level
        = if max > 0 ∧ (base > max ∨ level > minlevel) then max else base := by
  constructor
  · unfold CalcValue; simp
  · unfold CalcValue; simp

/-- C17: for a code outside the table {0..15, 50, 3600} `CalcDuration` returns `max`, and
for every code the result does not exceed `max` when `max > 0`. -/
theorem CalcDuration_fallback (calc_ max level : Int) :
    ((¬ (0 ≤ calc_ ∧ calc_ ≤ 15) ∧ calc_ ≠ 50 ∧ calc_ ≠ 3600) →
        CalcDuration calc_ max level = max)
    ∧ (max > 0 → CalcDuration calc_ max level ≤ max) := by
  constructor
  · rintro ⟨h1, h2, h3⟩
    unfold CalcDuration
    have e0 : calc_ ≠ 0 := by omega
    have e1 : ¬ (calc_ = 1 ∨ calc_ = 12) := by omega
    have e2 : calc_ ≠ 2 := by omega
    have e3 : calc_ ≠ 3 := by omega
    have e4 : calc_ ≠ 4 := by omega
    have e5 : calc_ ≠ 5 := by omega
    have e6 : calc_ ≠ 6 := by omega
    have e7 : calc_ ≠ 7 := by omega
    have e8 : calc_ ≠ 8 := by omega
    have e9 : calc_ ≠ 9 := by omega
    have e10 : calc_ ≠ 10 := by omega
    have e11 : calc_ ≠ 11 := by omega
    have e13 : calc_ ≠ 13 := by omega
    have e14 : calc_ ≠ 14 := by omega
    have e15 : calc_ ≠ 15 := by omega
    rw [if_neg e0, if_neg e1, if_neg e2, if_neg e3, if_neg e4, if_neg e5, if_neg e6, if_neg e7,
      if_neg e8, if_neg e9, if_neg e10, if_neg e11, if_neg e13, if_neg e14, if_neg e15,
      if_neg h2, if_neg h3]
    dsimp only
    split
    · rename_i h; omega
    · rfl
  · intro hmax
    have key : ∀ v : Int, (if max > 0 ∧ v > max then max else v) ≤ max := by
      intro v
      split
      · exact le_refl max
      · rename_i h
        have : ¬ (v > max) := fun hv => h ⟨hmax, hv⟩
        omega
    unfold CalcDuration
    exact key _

/-- Witness for C17: the unknown code 16 yields `max`; the table code 3 at level 60
(1800 ticks) is cut to `max = 100`. -/
theorem CalcDuration_fallback_witness :
    CalcDuration 16 77 60 = 77 ∧ CalcDuration 3 100 60 ≤ 100 :=
  ⟨(CalcDuration_fallback 16 77 60).1 (by decide), (CalcDuration_fallback 3 100 60).2 (by decide)⟩

/-! ## Stacking resolver: direct comparison, directives and the degenerate effect count -/

/-- Two single-slot spells that trigger each other: when the call on the swapped pair
runs out of depth, so does the call on the pair with one more level of depth. -/
theorem BuffStackTest_mutual_trigger_step (g : Globals) (hctx : ActivePlay g) (n : Nat)
    (x y : SPELL) (rec : Bool) (hxy : x.ID ≠ y.ID)
    (hx : GetSpellNumEffects x = 1) (hy : GetSpellNumEffects y = 1)
    (htx : TriggeringEffectSpell g x 0 = true)
    (hrx : g.GetSpellByID (BuffStackTest_resolveID g x 0) = some y)
    (hry : g.GetSpellByID (BuffStackTest_resolveID g y 0) = some x)
    (hrec : BuffStackTest g n (some y) (some x) false true = StackResult.outOfFuel) :
    BuffStackTest g (n + 1) (some x) (some y) false rec = StackResult.outOfFuel := by
  show BuffStackTest_body g (BuffStackTest g n) (some x) (some y) false rec = _
  rw [BuffStackTest_body_active g _ x y false rec hctx hxy, hx, hy]
  show BuffStackTest_loop _ _ x y false rec 1 0 = _
  unfold BuffStackTest_loop BuffStackTest_slot
  rw [BuffStackTest_trigger_resolved _ _ x y y x false 0 (Or.inl htx) hrx hry, hrec]
  have h1 : ¬ ((TriggeringEffectSpell g x 0 = true ∧ x.ID = y.ID)
      ∨ (TriggeringEffectSpell g y 0 = true ∧ y.ID = x.ID)) := by
    rintro (⟨_, h⟩ | ⟨_, h⟩)
    · exact hxy h
    · exact hxy h.symm
  rw [if_neg h1]

theorem BuffStackTest_cycle_outOfFuel (fuel : Nat) :
    ∀ rec, BuffStackTest sceneCycle_globals fuel (some sceneCycleA) (some sceneCycleB) false rec
        = StackResult.outOfFuel
      ∧ BuffStackTest sceneCycle_globals fuel (some sceneCycleB) (some sceneCycleA) false rec
        = StackResult.outOfFuel := by
  induction fuel with
  | zero => intro rec; cases rec <;> exact ⟨by decide, by decide⟩
  | succ n ih =>
    intro rec
    exact ⟨BuffStackTest_mutual_trigger_step sceneCycle_globals (testGlobals_active _ _) n
        sceneCycleA sceneCycleB rec (by decide) (by decide) (by decide) (by decide)
        (by decide) (by decide) (ih true).2,
      BuffStackTest_mutual_trigger_step sceneCycle_globals (testGlobals_active _ _) n
        sceneCycleB sceneCycleA rec (by decide) (by decide) (by decide) (by decide)
        (by decide) (by decide) (ih true).1⟩

/-- C11, as stated, fails for the triggering codes, which are none of 0, 10, 79, 148,
149: the trigger-chain pre-check runs before the direct comparison.  Two distinct
single-slot procs (code 85, Base 999 against Base 1000, comparison not suppressed) whose
target spells do not exist make `BuffStackTest` dereference a null reference, and two procs
that trigger each other (Base 40 against Base 41) never return, at any recursion depth. -/
theorem BuffStackTest_direct_exceptions_counterexample :
    (ActivePlay sceneDangling_globals ∧ sceneDangling.ID ≠ sceneDangling2.ID
      ∧ GetSpellNumEffects sceneDangling = 1 ∧ GetSpellNumEffects sceneDangling2 = 1
      ∧ GetSpellAttrib sceneDangling_globals (some sceneDangling) 0 = 85
      ∧ GetSpellAttrib sceneDangling_globals (some sceneDangling2) 0 = 85
      ∧ SpellEffectTest sceneDangling_globals sceneDangling sceneDangling2 0 false false = false
      ∧ ∀ fuel, BuffStackTest sceneDangling_globals fuel (some sceneDangling)
          (some sceneDangling2) false false = StackResult.fault)
    ∧ (ActivePlay sceneCycle_globals ∧ sceneCycleA.ID ≠ sceneCycleB.ID
      ∧ GetSpellNumEffects sceneCycleA = 1 ∧ GetSpellNumEffects sceneCycleB = 1
      ∧ GetSpellAttrib sceneCycle_globals (some sceneCycleA) 0 = 85
      ∧ GetSpellAttrib sceneCycle_globals (some sceneCycleB) 0 = 85
      ∧ SpellEffectTest sceneCycle_globals sceneCycleA sceneCycleB 0 false false = false
      ∧ ∀ fuel, BuffStackTest sceneCycle_globals fuel (some sceneCycleA)
          (some sceneCycleB) false false = StackResult.outOfFuel) := by
  refine ⟨⟨testGlobals_active _ _, by decide, by decide, by decide, by decide, by decide,
    by decide, ?_⟩, ⟨testGlobals_active _ _, by decide, by decide, by decide, by decide,
    by decide, by decide, fun fuel => (BuffStackTest_cycle_outOfFuel fuel false).1⟩⟩
  intro fuel
  cases fuel <;> rfl

theorem exceptions_regroup (c10 c79 c0 d a6 a0 b6 b0 ap bp an bn : Prop) :
    ((c10 ∧ (b6 ∨ b0)) ∨ (c10 ∧ (a6 ∨ a0)) ∨ (c79 ∧ bp) ∨ (c79 ∧ ap) ∨ (c0 ∧ bn) ∨ (c0 ∧ an)
        ∨ d ∨ d)
      ↔ ((c10 ∧ (a6 ∨ a0 ∨ b6 ∨ b0)) ∨ (c79 ∧ (ap ∨ bp)) ∨ (c0 ∧ (an ∨ bn))) ∨ d := by
  tauto

/-- C11, amended: in active play, for two distinct single-slot spells with the same
attribute code at slot 0, not a triggering code (85, 374, 419), whose comparison is not
suppressed by `SpellEffectTest` (so `abs(Base A) < abs(Base B)`), `BuffStackTest(A, B)`
is true whenever an exception holds on either side (code 10 with Base -6 or 0; code 79
with Base > 0 and TargetType 6; code 0 with Base < 0), and false whenever the code is not
148 or 149 and no exception holds (in particular for every code that is none of 0, 10, 79,
148, 149).  This holds for both flag values and at every recursion depth. -/
theorem BuffStackTest_direct_exceptions (g : Globals) (fuel : Nat) (a b : SPELL)
    (ign rec : Bool) (hctx : ActivePlay g) (hid : a.ID ≠ b.ID)
    (ha : GetSpellNumEffects a = 1) (hb : GetSpellNumEffects b = 1)
    (hcode : GetSpellAttrib g (some a) 0 = GetSpellAttrib g (some b) 0)
    (hnt : TriggeringEffectSpell g a 0 = false)
    (hset : SpellEffectTest g a b 0 ign rec = false) :
    abs32 (GetSpellBase g (some a) 0) < abs32 (GetSpellBase g (some b) 0)
    ∧ (((GetSpellAttrib g (some a) 0 = 10
            ∧ (GetSpellBase g (some a) 0 = -6 ∨ GetSpellBase g (some a) 0 = 0
                ∨ GetSpellBase g (some b) 0 = -6 ∨ GetSpellBase g (some b) 0 = 0))
          ∨ (GetSpellAttrib g (some a) 0 = 79
            ∧ ((GetSpellBase g (some a) 0 > 0 ∧ a.TargetType = 6)
                ∨ (GetSpellBase g (some b) 0 > 0 ∧ b.TargetType = 6)))
          ∨ (GetSpellAttrib g (some a) 0 = 0
            ∧ (GetSpellBase g (some a) 0 < 0 ∨ GetSpellBase g (some b) 0 < 0))) →
        BuffStackTest g fuel (some a) (some b) ign rec = StackResult.value true)
    ∧ (GetSpellAttrib g (some a) 0 ≠ 148 → GetSpellAttrib g (some a) 0 ≠ 149 →
        ¬ ((GetSpellAttrib g (some a) 0 = 10
            ∧ (GetSpellBase g (some a) 0 = -6 ∨ GetSpellBase g (some a) 0 = 0
                ∨ GetSpellBase g (some b) 0 = -6 ∨ GetSpellBase g (some b) 0 = 0))
          ∨ (GetSpellAttrib g (some a) 0 = 79
            ∧ ((GetSpellBase g (some a) 0 > 0 ∧ a.TargetType = 6)
                ∨ (GetSpellBase g (some b) 0 > 0 ∧ b.TargetType = 6)))
          ∨ (GetSpellAttrib g (some a) 0 = 0
            ∧ (GetSpellBase g (some a) 0 < 0 ∨ GetSpellBase g (some b) 0 < 0))) →
        BuffStackTest g fuel (some a) (some b) ign rec = StackResult.value false) := by
  have htb : TriggeringEffectSpell g b 0 = false := by
    unfold TriggeringEffectSpell at hnt ⊢
    simp only [ha, hb] at hnt ⊢
    rw [← hcode]; exact hnt
  have hlt : abs32 (GetSpellBase g (some a) 0) < abs32 (GetSpellBase g (some b) 0) := by
    by_contra hge
    have hlet : LargerEffectTest g a b 0 rec = true := by
      unfold LargerEffectTest
      simp only [ha, hb]
      simp [hcode]
      left
      omega
    have : SpellEffectTest g a b 0 ign rec = true := by
      unfold SpellEffectTest
      simp [hlet]
    rw [this] at hset
    exact Bool.noConfusion hset
  obtain ⟨recurse, hr⟩ := BuffStackTest_eq_body g fuel (some a) (some b) ign rec
  rw [hr, BuffStackTest_body_active g recurse a b ign rec hctx hid, ha, hb]
  have hloop : BuffStackTest_loop g recurse a b ign rec (max (1 : Int) 1).toNat 0
      = if BuffStackTest_direct g a b ign rec 0 = true ∨ BuffStackTest_block g a b 0 = true
        then StackResult.value false else StackResult.value true := by
    show BuffStackTest_loop g recurse a b ign rec 1 0 = _
    unfold BuffStackTest_loop
    rw [BuffStackTest_slot_plain g recurse a b ign rec 0 hnt htb]
    by_cases h : BuffStackTest_direct g a b ign rec 0 = true ∨ BuffStackTest_block g a b 0 = true
    · rw [if_pos h, if_pos h]
    · rw [if_neg h, if_neg h]
      rfl
  rw [hloop]
  generalize hc : GetSpellAttrib g (some a) 0 = c at hcode ⊢
  have hdirect : BuffStackTest_direct g a b ign rec 0
      = decide (¬ ((c = 10 ∧ (GetSpellBase g (some b) 0 = -6 ∨ GetSpellBase g (some b) 0 = 0))
        ∨ (c = 10 ∧ (GetSpellBase g (some a) 0 = -6 ∨ GetSpellBase g (some a) 0 = 0))
        ∨ (c = 79 ∧ GetSpellBase g (some b) 0 > 0 ∧ b.TargetType = 6)
        ∨ (c = 79 ∧ GetSpellBase g (some a) 0 > 0 ∧ a.TargetType = 6)
        ∨ (c = 0 ∧ GetSpellBase g (some b) 0 < 0)
        ∨ (c = 0 ∧ GetSpellBase g (some a) 0 < 0)
        ∨ (c = 148 ∨ c = 149)
        ∨ (c = 148 ∨ c = 149))) := by
    unfold BuffStackTest_direct
    simp only [ha, hb, hc, ← hcode, hset]
    simp
  have hblock : c ≠ 148 → c ≠ 149 → BuffStackTest_block g a b 0 = false := by
    intro h1 h2
    unfold BuffStackTest_block
    simp [hb, ← hcode, h1, h2]
  have hregroup := exceptions_regroup (c = 10) (c = 79) (c = 0) (c = 148 ∨ c = 149)
    (GetSpellBase g (some a) 0 = -6) (GetSpellBase g (some a) 0 = 0)
    (GetSpellBase g (some b) 0 = -6) (GetSpellBase g (some b) 0 = 0)
    (GetSpellBase g (some a) 0 > 0 ∧ a.TargetType = 6)
    (GetSpellBase g (some b) 0 > 0 ∧ b.TargetType = 6)
    (GetSpellBase g (some a) 0 < 0) (GetSpellBase g (some b) 0 < 0)
  refine ⟨hlt, ?_, ?_⟩
  · intro hexc
    have h148 : c ≠ 148 := by
      rcases hexc with ⟨h, _⟩ | ⟨h, _⟩ | ⟨h, _⟩ <;> (rw [h]; decide)
    have h149 : c ≠ 149 := by
      rcases hexc with ⟨h, _⟩ | ⟨h, _⟩ | ⟨h, _⟩ <;> (rw [h]; decide)
    rw [hblock h148 h149, hdirect, decide_eq_false (not_not_intro (hregroup.2 (Or.inl hexc)))]
    rfl
  · intro h148 h149 hexc
    have hno : ¬ (((c = 10 ∧ (GetSpellBase g (some a) 0 = -6 ∨ GetSpellBase g (some a) 0 = 0
                ∨ GetSpellBase g (some b) 0 = -6 ∨ GetSpellBase g (some b) 0 = 0))
          ∨ (c = 79 ∧ ((GetSpellBase g (some a) 0 > 0 ∧ a.TargetType = 6)
                ∨ (GetSpellBase g (some b) 0 > 0 ∧ b.TargetType = 6)))
          ∨ (c = 0 ∧ (GetSpellBase g (some a) 0 < 0 ∨ GetSpellBase g (some b) 0 < 0)))
          ∨ (c = 148 ∨ c = 149)) := by
      rintro (h | h | h)
      · exact hexc h
      · exact h148 h
      · exact h149 h
    have hd := mt hregroup.1 hno
    rw [hdirect, decide_eq_true hd]
    rfl

/-- Witness for C11 amended: a heal {Attrib=0, Base=5} and a damage-over-time
{Attrib=0, Base=-10} on the same slot stack. -/
theorem BuffStackTest_direct_exceptions_witness :
    BuffStackTest sceneHeal_globals 0 (some sceneA) (some sceneB) false false
        = StackResult.value true
      ∧ BuffStackTest sceneB_weaker_globals 0 (some sceneA) (some sceneB) false false
        = StackResult.value false :=
  ⟨(BuffStackTest_direct_exceptions sceneHeal_globals 0 sceneA sceneB false false
      (testGlobals_active _ _) (by decide) (by decide) (by decide) (by decide) (by decide)
      (by decide)).2.1 (by decide),
    (BuffStackTest_direct_exceptions sceneB_weaker_globals 0 sceneA sceneB false false
      (testGlobals_active _ _) (by decide) (by decide) (by decide) (by decide) (by decide)
      (by decide)).2.2 (by decide) (by decide) (by decide)⟩

theorem ite_decide_not_false (c p : Prop) [Decidable c] [Decidable p] (hp : p) :
    (if c then decide (¬ p) else false) = false := by
  by_cases hc : c
  · rw [if_pos hc]
    exact decide_eq_false (not_not_intro hp)
  · rw [if_neg hc]

/-- C12, as stated, fails: the threshold is compared with A's signed Base, not with its
magnitude.  With A = {Attrib=1, Base=-100} and the directive B = {Attrib=148, Base=1,
Base2=1, Max=50}, the magnitude 100 is above the threshold 50, yet `BuffStackTest(A, B)`
is false. -/
theorem BuffStackTest_block_threshold_counterexample :
    ActivePlay sceneThreshold_globals ∧ sceneA.ID ≠ sceneB.ID
      ∧ GetSpellAttrib sceneThreshold_globals (some sceneB) 0 = 148
      ∧ GetSpellBase2 sceneThreshold_globals (some sceneB) 0 = 1
      ∧ GetSpellBase sceneThreshold_globals (some sceneB) 0 = 1
      ∧ GetSpellMax sceneThreshold_globals (some sceneB) 0 = 50
      ∧ GetSpellAttrib sceneThreshold_globals (some sceneA) 0 = 1
      ∧ GetSpellBase sceneThreshold_globals (some sceneA) 0 = -100
      ∧ |GetSpellBase sceneThreshold_globals (some sceneA) 0| ≥ 50
      ∧ ∀ fuel ign rec, BuffStackTest sceneThreshold_globals fuel (some sceneA) (some sceneB)
          ign rec = StackResult.value false := by
  refine ⟨testGlobals_active _ _, by decide, by decide, by decide, by decide, by decide,
    by decide, by decide, by decide, ?_⟩
  intro fuel ign rec
  cases fuel <;> cases ign <;> cases rec <;> rfl

/-- C12, amended: in active play, let B carry at slot `i` one directive (code 148 with
target slot Base2-1, or code 149 with target slot Calc-200-1; target code = Base;
threshold = Max > 0), let A have the target slot with the target code, and let no slot
have a triggering code and no other slot produce a conflict.  Then `BuffStackTest(A, B)`
is false exactly when A's signed Base at the target slot is below the threshold, and true
when that Base is at or above it. -/
theorem BuffStackTest_block_threshold (g : Globals) (fuel : Nat) (a b : SPELL)
    (ign rec : Bool) (i : Nat) (slot : Int)
    (hctx : ActivePlay g) (hid : a.ID ≠ b.ID)
    (hnt : ∀ j : Nat, (j : Int) < max (GetSpellNumEffects a) (GetSpellNumEffects b) →
      TriggeringEffectSpell g a j = false ∧ TriggeringEffectSpell g b j = false)
    (hother : ∀ j : Nat, (j : Int) < max (GetSpellNumEffects a) (GetSpellNumEffects b) →
      j ≠ i → BuffStackTest_direct g a b ign rec j = false
        ∧ BuffStackTest_block g a b j = false)
    (hi : (i : Int) < GetSpellNumEffects b)
    (hdir : (GetSpellAttrib g (some b) i = 148 ∧ GetSpellBase2 g (some b) i = slot + 1)
      ∨ (GetSpellAttrib g (some b) i = 149 ∧ GetSpellCalc g (some b) i = slot + 201))
    (hslot : 0 ≤ slot ∧ slot < GetSpellNumEffects a)
    (hN : GetSpellNumEffects a < 2147483648)
    (hmax : 0 < GetSpellMax g (some b) i ∧ GetSpellMax g (some b) i < 2147483648)
    (htarget : GetSpellAttrib g (some a) slot = GetSpellBase g (some b) i) :
    BuffStackTest g fuel (some a) (some b) ign rec
      = StackResult.value (decide (GetSpellMax g (some b) i ≤ GetSpellBase g (some a) slot)) := by
  obtain ⟨recurse, hr⟩ := BuffStackTest_eq_body g fuel (some a) (some b) ign rec
  rw [hr, BuffStackTest_body_active g recurse a b ign rec hctx hid]
  have hplain : ∀ j : Nat, (j : Int) < max (GetSpellNumEffects a) (GetSpellNumEffects b) →
      BuffStackTest_slot g recurse a b ign rec j
      = if BuffStackTest_direct g a b ign rec j = true ∨ BuffStackTest_block g a b j = true
        then some (StackResult.value false) else none :=
    fun j hj => BuffStackTest_slot_plain g recurse a b ign rec j (hnt j hj).1 (hnt j hj).2
  have hilt : (i : Int) < max (GetSpellNumEffects a) (GetSpellNumEffects b) :=
    lt_of_lt_of_le hi (le_max_right _ _)
  have hcode : GetSpellAttrib g (some b) i = 148 ∨ GetSpellAttrib g (some b) i = 149 := by
    rcases hdir with h | h
    · exact Or.inl h.1
    · exact Or.inr h.1
  have hdirect : BuffStackTest_direct g a b ign rec i = false := by
    unfold BuffStackTest_direct
    simp only [hi, if_true]
    apply ite_decide_not_false
    exact Or.inr (Or.inr (Or.inr (Or.inr (Or.inr (Or.inr (Or.inl hcode))))))
  have habs : abs32 (GetSpellMax g (some b) i) = GetSpellMax g (some b) i := by
    rw [abs32_of_inRange ⟨by omega, hmax.2⟩, abs_of_pos hmax.1]
  have htmp : (if GetSpellAttrib g (some b) i = 148 then sub32 (GetSpellBase2 g (some b) i) 1
      else sub32 (sub32 (GetSpellCalc g (some b) i) 200) 1) = slot := by
    rcases hdir with ⟨h1, h2⟩ | ⟨h1, h2⟩
    · rw [if_pos h1, h2]
      unfold sub32
      rw [wrap32_of_range (by omega) (by omega)]
      omega
    · have : ¬ (GetSpellAttrib g (some b) i = 148) := by omega
      have e1 : sub32 (slot + 201) 200 = slot + 1 := by
        unfold sub32
        rw [wrap32_of_range (by omega) (by omega)]
        omega
      have e2 : sub32 (slot + 1) 1 = slot := by
        unfold sub32
        rw [wrap32_of_range (by omega) (by omega)]
        omega
      rw [if_neg this, h2, e1, e2]
  have hblock : BuffStackTest_block g a b i
      = decide (GetSpellBase g (some a) slot < GetSpellMax g (some b) i) := by
    unfold BuffStackTest_block
    simp only [hi, if_true, hcode, htmp, hslot.2, gt_iff_lt, hmax.1, habs, htarget, true_and]
  by_cases hlt : GetSpellBase g (some a) slot < GetSpellMax g (some b) i
  · have hd : decide (GetSpellMax g (some b) i ≤ GetSpellBase g (some a) slot) = false :=
      decide_eq_false (by omega)
    rw [hd]
    apply BuffStackTest_loop_false g recurse a b ign rec _ 0 i
    · omega
    · intro j hj
      rw [zero_add, hplain j (by omega)]
      split
      · exact Or.inr rfl
      · exact Or.inl rfl
    · rw [zero_add, hplain i hilt, hblock, decide_eq_true hlt]
      simp
  · have hd : decide (GetSpellMax g (some b) i ≤ GetSpellBase g (some a) slot) = true :=
      decide_eq_true (by omega)
    rw [hd]
    apply BuffStackTest_loop_true g recurse a b ign rec _ 0
    intro j hj
    have hj' : (j : Int) < max (GetSpellNumEffects a) (GetSpellNumEffects b) := by omega
    rw [zero_add, hplain j hj']
    by_cases hji : j = i
    · subst hji
      rw [hdirect, hblock, decide_eq_false hlt]
      simp
    · rw [(hother j hj' hji).1, (hother j hj' hji).2]
      simp

/-- Witness for C12 amended: Base 60 against the threshold 50 stacks. -/
theorem BuffStackTest_block_threshold_witness :
    BuffStackTest sceneThreshold_above_globals 0 (some sceneA) (some sceneB) false false
      = StackResult.value true :=
  (BuffStackTest_block_threshold sceneThreshold_above_globals 0 sceneA sceneB false false 0 0
    (testGlobals_active _ _) (by decide)
    (fun j hj => by
      have h0 : j = 0 := by
        have : (j : Int) < 1 := hj
        omega
      subst h0
      decide)
    (fun j hj hne => by
      have h0 : j = 0 := by
        have : (j : Int) < 1 := hj
        omega
      exact absurd h0 hne)
    (by decide) (Or.inl (by decide)) (by decide) (by decide) (by decide) (by decide)).trans
    (by decide)

/-- C13, evaluated at the failing input: spell 5 has no effects and spell 2 (a different
ID, no triggering slot) carries the directive {Attrib=148, Base=0, Base2=0, Max=0}.  The
target slot index -1 passes the test `GetSpellNumEffects(aSpell) > tmpSlot`, the accessor
reads the absent slot as code 0, and `BuffStackTest` returns false. -/
theorem BuffStackTest_no_effects_blocked :
    ActivePlay sceneEmpty_globals ∧ sceneEmpty.ID ≠ sceneB.ID
      ∧ GetSpellNumEffects sceneEmpty = 0
      ∧ TriggeringEffectSpell sceneEmpty_globals sceneB 0 = false
      ∧ (∀ i : Nat, SlotCode sceneEmpty_globals sceneEmpty i = 254)
      ∧ GetSpellAttrib sceneEmpty_globals (some sceneEmpty) (-1) = 0
      ∧ ∀ fuel ign rec, BuffStackTest sceneEmpty_globals fuel (some sceneEmpty) (some sceneB)
          ign rec = StackResult.value false := by
  refine ⟨testGlobals_active _ _, by decide, by decide, by decide, ?_, by decide, ?_⟩
  · intro i
    unfold SlotCode
    have h : ¬ (GetSpellNumEffects sceneEmpty > (i : Int)) := by
      have : GetSpellNumEffects sceneEmpty = 0 := rfl
      omega
    rw [if_neg h]
  · intro fuel ign rec
    cases fuel <;> cases ign <;> cases rec <;> rfl

/-! ## Effect accessor layer: claims -/

/-- C14, as stated, fails for a negative index: the accessors clamp it to 0 and read slot
0.  For spell 1 of scenario C (one slot {Attrib=1, Base=5}) the index -1 is outside
`[0, 1)`, yet `GetSpellAttrib` returns 1 and `GetSpellBase` returns 5. -/
theorem accessors_negative_index_counterexample :
    GetSpellNumEffects sceneA = 1 ∧ ¬ (0 ≤ (-1 : Int) ∧ (-1 : Int) < GetSpellNumEffects sceneA)
      ∧ GetSpellAttrib sceneC_globals (some sceneA) (-1) = 1
      ∧ GetSpellBase sceneC_globals (some sceneA) (-1) = 5 := by
  decide

/-- C14, amended: for every spell and every index `i`, each of `GetSpellAttrib`,
`GetSpellBase`, `GetSpellBase2`, `GetSpellMax` and `GetSpellCalc` returns 0 when the effect
count is 0 or `i` is at or past the count; a negative `i` is clamped to 0 and reads as
index 0 does; and for `i` inside `[0, EffectCount)` each returns the corresponding field
of the slot the spell manager holds at table index `CalcIndex + i`. -/
theorem accessors_spec (g : Globals) (s : SPELL) (i : Int) :
    ((GetSpellNumEffects s = 0 ∨ (0 ≤ i ∧ GetSpellNumEffects s ≤ i)) →
        GetSpellAttrib g (some s) i = 0 ∧ GetSpellBase g (some s) i = 0
        ∧ GetSpellBase2 g (some s) i = 0 ∧ GetSpellMax g (some s) i = 0
        ∧ GetSpellCalc g (some s) i = 0)
    ∧ (i < 0 →
        GetSpellAttrib g (some s) i = GetSpellAttrib g (some s) 0
        ∧ GetSpellBase g (some s) i = GetSpellBase g (some s) 0
        ∧ GetSpellBase2 g (some s) i = GetSpellBase2 g (some s) 0
        ∧ GetSpellMax g (some s) i = GetSpellMax g (some s) 0
        ∧ GetSpellCalc g (some s) i = GetSpellCalc g (some s) 0)
    ∧ (∀ mgr info, g.pSpellMgr = some mgr → 0 ≤ i → i < GetSpellNumEffects s →
        -2147483648 ≤ s.CalcIndex + i → s.CalcIndex + i < 2147483648 →
        mgr.GetSpellAffect (s.CalcIndex + i) = some info →
        GetSpellAttrib g (some s) i = info.Attrib ∧ GetSpellBase g (some s) i = info.Base
        ∧ GetSpellBase2 g (some s) i = info.Base2 ∧ GetSpellMax g (some s) i = info.Max
        ∧ GetSpellCalc g (some s) i = info.Calc) := by
  refine ⟨?_, ?_, ?_⟩
  · intro h
    have hcase : GetSpellNumEffects s = 0
        ∨ ¬ (GetSpellNumEffects s > (if i < 0 then 0 else i)) := by
      rcases h with h | ⟨h1, h2⟩
      · exact Or.inl h
      · right
        have : ¬ (i < 0) := by omega
        rw [if_neg this]
        omega
    unfold GetSpellAttrib GetSpellBase GetSpellBase2 GetSpellMax GetSpellCalc
    dsimp only
    generalize (if i < 0 then 0 else i) = idx at hcase ⊢
    rcases hcase with h0 | hge
    · cases g.pSpellMgr <;> simp [h0]
    · cases g.pSpellMgr <;> simp [hge]
  · intro hneg
    have h0 : ¬ ((0 : Int) < 0) := by decide
    unfold GetSpellAttrib GetSpellBase GetSpellBase2 GetSpellMax GetSpellCalc
    simp only [hneg, if_true, h0, if_false]
    exact ⟨trivial, trivial, trivial, trivial, trivial⟩
  · intro mgr info hmgr h0 hlt hr1 hr2 hinfo
    have hn : ¬ (i < 0) := by omega
    have hne : ¬ (GetSpellNumEffects s = 0) := by omega
    have hgt : GetSpellNumEffects s > i := hlt
    have hadd : add32 s.CalcIndex i = s.CalcIndex + i := by
      unfold add32; exact wrap32_of_range hr1 hr2
    unfold GetSpellAttrib GetSpellBase GetSpellBase2 GetSpellMax GetSpellCalc
    simp only [hn, if_false, hmgr, hne, hgt, if_true, hadd, hinfo]
    exact ⟨trivial, trivial, trivial, trivial, trivial⟩

/-- Witness for C14 amended: in scenario C the index 1 is past the single slot of spell
1, and index 0 of spell 2 reads the directive's fields. -/
theorem accessors_spec_witness :
    GetSpellAttrib sceneC_globals (some sceneA) 1 = 0
      ∧ GetSpellBase sceneC_globals (some sceneA) (-3) = GetSpellBase sceneC_globals (some sceneA) 0
      ∧ GetSpellAttrib sceneC_globals (some sceneB) 0 = 148 :=
  ⟨((accessors_spec sceneC_globals sceneA 1).1 (Or.inr (by decide))).1,
    ((accessors_spec sceneC_globals sceneA (-3)).2.1 (by decide)).2.1,
    ((accessors_spec sceneC_globals sceneB 0).2.2 (tableMgr [⟨1, 5, 0, 0, 0⟩, ⟨148, 1, 1, 0, 0⟩])
      ⟨148, 1, 1, 0, 0⟩ rfl (by decide) (by decide) (by decide) (by decide) (by decide)).1⟩

/-! ## Effect describer: claims -/

theorem String_length_Slot_append (x : String) : ("Slot " ++ x).length > 0 := by
  rw [String.length_append]
  have : "Slot ".length = 5 := by decide
  omega

/-- Whenever `ParseSpellEffect` gets past its early exits, the text it has built is not
empty: it starts with the slot number. -/
theorem ParseSpellEffect_szBuff_nonempty (d : Describer) (g : Globals) (pSpell : SPELLDEF)
    (i level : Int) (t : String)
    (h : ParseSpellEffect_szBuff d g pSpell i level = some t) : t.length > 0 := by
  unfold ParseSpellEffect_szBuff at h
  dsimp only at h
  split_ifs at h
  injection h with h
  rw [← h]
  exact String_length_Slot_append _

/-- C20: with `SPA_NOSPELL = 254` and `SPA_CHA = 10`, `ParseSpellEffect` leaves the
caller's buffer unchanged for a slot whose attribute code is 254, and for a slot whose
code is 10 with `Base ≤ 1` or `Base > 255`; for code 10 with `2 ≤ Base ≤ 255` it appends a
non-empty text (whenever the buffer has room for it). -/
theorem ParseSpellEffect_early_exits (d : Describer) (g : Globals) (pSpell : SPELLDEF)
    (i level : Int) (hno : d.SPA_NOSPELL = 254) (hcha : d.SPA_CHA = 10) :
    (GetSpellAttrib g (some pSpell.toSPELL) i = 254 →
      ∀ szBuffer BufferSize,
        ParseSpellEffect d g pSpell i szBuffer BufferSize level = some szBuffer)
    ∧ (GetSpellAttrib g (some pSpell.toSPELL) i = 10 →
      (GetSpellBase g (some pSpell.toSPELL) i ≤ 1 ∨ GetSpellBase g (some pSpell.toSPELL) i > 255) →
      ∀ szBuffer BufferSize,
        ParseSpellEffect d g pSpell i szBuffer BufferSize level = some szBuffer)
    ∧ (GetSpellAttrib g (some pSpell.toSPELL) i = 10 →
      2 ≤ GetSpellBase g (some pSpell.toSPELL) i → GetSpellBase g (some pSpell.toSPELL) i ≤ 255 →
      ∃ szBuff : String, szBuff.length > 0 ∧ ∀ szBuffer BufferSize,
        szBuffer.length + szBuff.length + 1 ≤ BufferSize →
        ParseSpellEffect d g pSpell i szBuffer BufferSize level = some (szBuffer ++ szBuff)) := by
  refine ⟨?_, ?_, ?_⟩
  · intro hattr szBuffer BufferSize
    have hs : ParseSpellEffect_szBuff d g pSpell i level = none := by
      unfold ParseSpellEffect_szBuff
      dsimp only
      rw [if_pos (by rw [hattr, hno])]
    unfold ParseSpellEffect
    rw [hs]
  · intro hattr hbase szBuffer BufferSize
    have hs : ParseSpellEffect_szBuff d g pSpell i level = none := by
      unfold ParseSpellEffect_szBuff
      dsimp only
      rw [if_neg (by rw [hattr, hno]; decide), if_pos ⟨by rw [hattr, hcha], hbase⟩]
    unfold ParseSpellEffect
    rw [hs]
  · intro hattr hb1 hb2
    have hs : ∃ t, ParseSpellEffect_szBuff d g pSpell i level = some t := by
      unfold ParseSpellEffect_szBuff
      dsimp only
      rw [if_neg (by rw [hattr, hno]; decide),
        if_neg (by rintro ⟨_, h | h⟩ <;> omega)]
      exact ⟨_, rfl⟩
    obtain ⟨t, ht⟩ := hs
    refine ⟨t, ParseSpellEffect_szBuff_nonempty d g pSpell i level t ht, ?_⟩
    intro szBuffer BufferSize hfit
    unfold ParseSpellEffect
    rw [ht]
    show strcat_s szBuffer BufferSize t = _
    unfold strcat_s
    rw [if_pos hfit]

/-- Witness for C20: the charisma slot {Attrib=10, Base=20, Max=20, Calc=100} is
described as "Slot 1: Increase CHA by 20". -/
theorem ParseSpellEffect_early_exits_witness :
    ParseSpellEffect testDescriber sceneCHA_globals sceneAC 0 "" 2048 1
        = some "Slot 1: Increase CHA by 20"
      ∧ ∃ szBuff : String, szBuff.length > 0 ∧ ∀ szBuffer BufferSize,
        szBuffer.length + szBuff.length + 1 ≤ BufferSize →
        ParseSpellEffect testDescriber sceneCHA_globals sceneAC 0 szBuffer BufferSize 1
          = some (szBuffer ++ szBuff) :=
  ⟨by decide, (ParseSpellEffect_early_exits testDescriber sceneCHA_globals sceneAC 0 1 rfl
    rfl).2.2 (by decide) (by decide) (by decide)⟩

/-- C19, as stated, fails: the armor-class codes are displayed through the conversion
`(LONG)(abs(finish) / (10.0f / 3.0f))`.  In scenario A (single slot {Attrib=1, Base=10,
Max=10, Calc=100}, level 1) the text is "Slot 1: Increase AC by 3", which does not
contain "by 10". -/
theorem ParseSpellEffect_AC_counterexample :
    GetSpellNumEffects sceneAC.toSPELL = 1
      ∧ GetSpellAttrib sceneAC_globals (some sceneAC.toSPELL) 0 = 1
      ∧ GetSpellBase sceneAC_globals (some sceneAC.toSPELL) 0 = 10
      ∧ GetSpellMax sceneAC_globals (some sceneAC.toSPELL) 0 = 10
      ∧ GetSpellCalc sceneAC_globals (some sceneAC.toSPELL) 0 = 100
      ∧ ParseSpellEffect testDescriber sceneAC_globals sceneAC 0 "" 2048 1
          = some "Slot 1: Increase AC by 3"
      ∧ ¬ containsText "Slot 1: Increase AC by 3" "by 10" := by
  decide

/-- The text built for an armor-class slot {Attrib=1, Base=v, Max=v, Calc=100}. -/
theorem ParseSpellEffect_AC_szBuff (d : Describer) (g : Globals) (pSpell : SPELLDEF)
    (level v : Int)
    (hattr : GetSpellAttrib g (some pSpell.toSPELL) 0 = 1)
    (hbase : GetSpellBase g (some pSpell.toSPELL) 0 = v)
    (hmax : GetSpellMax g (some pSpell.toSPELL) 0 = v)
    (hcalc : GetSpellCalc g (some pSpell.toSPELL) 0 = 100)
    (hv : 0 < v ∧ v < 2147483648)
    (hAC : d.SPA_AC = 1) (hrandom : d.CALC_RANDOM ≠ 100)
    (hother : ∀ c ∈ [d.SPA_NOSPELL, d.SPA_CHA, d.SPA_HASTE, d.SPA_PLAYERSIZE,
      d.SPA_BARDOVERHASTE, d.SPA_SUMMONCORPSE, d.SPA_SPELLDAMAGE, d.SPA_HEALING,
      d.SPA_SPELLMANACOST, d.SPA_REAGENTCHANCE, d.SPA_INCSPELLDMG, d.SPA_STACKING_BLOCK,
      d.SPA_SPELLDAMAGETAKEN, d.SPA_MOVEMENTRATE, d.SPA_DOUBLEATTACK, d.SPA_STUNRESIST,
      d.SPA_PROCMOD, d.SPA_DIVINEREZ, d.SPA_METABOLISM, d.SPA_TRIPLEBACKSTAB, d.SPA_DOTCRIT,
      d.SPA_HEALCRIT, d.SPA_MENDCRIT, d.SPA_FLURRY, d.SPA_PETFLURRY, d.SPA_SPELLCRITCHANCE,
      d.SPA_SHIELDBLOCKCHANCE, d.SPA_DAMAGECRITMOD], c ≠ 1) :
    ParseSpellEffect_szBuff d g pSpell 0 level
      = some ("Slot 1: Increase " ++ GetSpellEffectName d 1 ++ " by "
          ++ fmt_d (ACModValue v)) := by
  simp only [List.mem_cons, List.mem_singleton, List.not_mem_nil, or_false, forall_eq_or_imp,
    forall_eq] at hother
  obtain ⟨h1, h2, h3, h4, h5, h6, h7, h8, h9, h10, h11, h12, h13, h14, h15, h16, h17, h18, h19,
    h20, h21, h22, h23, h24, h25, h26, h27, h28⟩ := hother
  have habs : abs32 v = v := by
    rw [abs32_of_inRange ⟨by omega, hv.2⟩, abs_of_pos hv.1]
  have hvalue : ∀ m : Int, CalcValue 100 v v 1 m m = v := by
    intro m
    unfold CalcValue
    simp
  have hfinish : ∀ t m l : Int, CalcValue 100 v v t m l = v := by
    intro t m l
    unfold CalcValue
    simp
  have hdisp : ParseSpellEffect_dispatch d pSpell 0 level 1 v
      (GetSpellBase2 g (some pSpell.toSPELL) 0) v 100
      = "Increase " ++ GetSpellEffectName d 1 ++ " by " ++ fmt_d (ACModValue v) := by
    unfold ParseSpellEffect_dispatch ParseSpellEffect_adjust
    simp only [Ne.symm h3, Ne.symm h4, Ne.symm h5, Ne.symm h6, Ne.symm h7, Ne.symm h8,
      Ne.symm h9, Ne.symm h10, Ne.symm h11, Ne.symm h12, Ne.symm h13, Ne.symm h14,
      Ne.symm h15, Ne.symm h16, Ne.symm h17, Ne.symm h18, Ne.symm h19, Ne.symm h20,
      Ne.symm h21, Ne.symm h22, Ne.symm h23, Ne.symm h24, Ne.symm h25, Ne.symm h26,
      Ne.symm h27, Ne.symm h28, or_self, if_false, hvalue, hfinish, hAC, true_or,
      decide_True, decide_False]
    unfold CalcExtendedRange FormatRange
    have hr : ¬ ((100 : Int) = d.CALC_RANDOM) := fun h => hrandom h.symm
    have hlt : ¬ (abs32 v < abs32 v) := lt_irrefl _
    have hneg : ¬ (v < 0) := by omega
    simp only [hr, hlt, hneg, if_false, if_true, habs]
    simp [String.append_assoc]
  unfold ParseSpellEffect_szBuff
  dsimp only
  rw [hattr, hbase, hmax, hcalc, if_neg (Ne.symm h1),
    if_neg (fun h => h2 h.1.symm), hdisp]
  have h01 : fmt_d (add32 0 1) = "1" := by decide
  have e : "Slot 1: Increase " = "Slot " ++ ("1" ++ (": " ++ "Increase ")) := by decide
  rw [h01, e]
  simp only [String.append_assoc]

/-- C19, amended: for a slot 0 that is {Attrib=1, Base=v, Max=v, Calc=100} with
`0 < v < 2^31`, where 1 is the armor-class code `SPA_AC` and none of the other named
codes, `ParseSpellEffect` appends to the caller's buffer, at every level, exactly the text
"Slot 1: Increase <name> by <q>" where `<name>` is the effect name of code 1 and
`q = (LONG)(v / (10.0f / 3.0f))` (3 for `v = 10`). -/
theorem ParseSpellEffect_AC (d : Describer) (g : Globals) (pSpell : SPELLDEF) (level v : Int)
    (hattr : GetSpellAttrib g (some pSpell.toSPELL) 0 = 1)
    (hbase : GetSpellBase g (some pSpell.toSPELL) 0 = v)
    (hmax : GetSpellMax g (some pSpell.toSPELL) 0 = v)
    (hcalc : GetSpellCalc g (some pSpell.toSPELL) 0 = 100)
    (hv : 0 < v ∧ v < 2147483648)
    (hAC : d.SPA_AC = 1) (hrandom : d.CALC_RANDOM ≠ 100)
    (hother : ∀ c ∈ [d.SPA_NOSPELL, d.SPA_CHA, d.SPA_HASTE, d.SPA_PLAYERSIZE,
      d.SPA_BARDOVERHASTE, d.SPA_SUMMONCORPSE, d.SPA_SPELLDAMAGE, d.SPA_HEALING,
      d.SPA_SPELLMANACOST, d.SPA_REAGENTCHANCE, d.SPA_INCSPELLDMG, d.SPA_STACKING_BLOCK,
      d.SPA_SPELLDAMAGETAKEN, d.SPA_MOVEMENTRATE, d.SPA_DOUBLEATTACK, d.SPA_STUNRESIST,
      d.SPA_PROCMOD, d.SPA_DIVINEREZ, d.SPA_METABOLISM, d.SPA_TRIPLEBACKSTAB, d.SPA_DOTCRIT,
      d.SPA_HEALCRIT, d.SPA_MENDCRIT, d.SPA_FLURRY, d.SPA_PETFLURRY, d.SPA_SPELLCRITCHANCE,
      d.SPA_SHIELDBLOCKCHANCE, d.SPA_DAMAGECRITMOD], c ≠ 1) :
    ∀ szBuffer BufferSize, ParseSpellEffect d g pSpell 0 szBuffer BufferSize level
      = strcat_s szBuffer BufferSize
          ("Slot 1: Increase " ++ GetSpellEffectName d 1 ++ " by " ++ fmt_d (ACModValue v)) := by
  have key : ParseSpellEffect_szBuff d g pSpell 0 level
      = some ("Slot 1: Increase " ++ GetSpellEffectName d 1 ++ " by "
          ++ fmt_d (ACModValue v)) := by
    exact ParseSpellEffect_AC_szBuff d g pSpell level v hattr hbase hmax hcalc hv hAC hrandom
      hother
  intro szBuffer BufferSize
  unfold ParseSpellEffect
  rw [key]

/-- Witness for C19 amended: scenario A with the test describer; the displayed value of
10 is 3. -/
theorem ParseSpellEffect_AC_witness :
    ParseSpellEffect testDescriber sceneAC_globals sceneAC 0 "" 64 1
      = some "Slot 1: Increase AC by 3" :=
  (ParseSpellEffect_AC testDescriber sceneAC_globals sceneAC 1 10 (by decide) (by decide)
    (by decide) (by decide) (by decide) (by decide) (by decide) (by decide) "" 64).trans
    (by decide)

/-- C18, evaluated at the failing input: a spell whose single slot {Attrib=4, Base=10,
Max=10, Calc=100} is described by the 26 characters "Slot 1: Increase STR by 10", and
`BufferSize = 28`.  The test `count + len < BufferSize` passes (0 + 26 < 28), the
description is appended, and the following `strcat_s` of "<br>" needs 31 characters: it
does not fit.  With `BufferSize = 31` both fit. -/
theorem ShowSpellSlotInfo_separator_overflow :
    GetSpellNumEffects sceneAC.toSPELL = 1
      ∧ ParseSpellEffect testDescriber sceneSTR_globals sceneAC 0 "" testDescriber.MAX_STRING
          testDescriber.defaultLevel = some "Slot 1: Increase STR by 10"
      ∧ "Slot 1: Increase STR by 10".length = 26
      ∧ strcat_s "" 28 "Slot 1: Increase STR by 10" = some "Slot 1: Increase STR by 10"
      ∧ strcat_s "Slot 1: Increase STR by 10" 28 "<br>" = none
      ∧ ShowSpellSlotInfo testDescriber sceneSTR_globals sceneAC "" 28 = none
      ∧ ShowSpellSlotInfo testDescriber sceneSTR_globals sceneAC "" 31
          = some "Slot 1: Increase STR by 10<br>" := by
  decide

/-! ## Effect describer: fallback, reinterpretation and absent slots -/

/-- The adjustments leave `base` and `max` alone for a code that is none of the adjusted
ones. -/
theorem ParseSpellEffect_adjust_other (d : Describer) (spa base base2 max : Int)
    (h1 : spa ≠ d.SPA_HASTE) (h2 : spa ≠ d.SPA_PLAYERSIZE) (h3 : spa ≠ d.SPA_BARDOVERHASTE)
    (h4 : spa ≠ d.SPA_SUMMONCORPSE) (h5 : spa ≠ d.SPA_SPELLDAMAGE) (h6 : spa ≠ d.SPA_HEALING)
    (h7 : spa ≠ d.SPA_SPELLMANACOST) (h8 : spa ≠ d.SPA_REAGENTCHANCE)
    (h9 : spa ≠ d.SPA_INCSPELLDMG) :
    ParseSpellEffect_adjust d spa base base2 max = (base, max) := by
  unfold ParseSpellEffect_adjust
  simp only [h1, h2, h3, h4, h5, h6, h7, h8, h9, or_self, if_false]

/-- The text of the dispatch for a code outside the cases 0 to 510 that is none of the
adjusted codes and not the stacking-block code. -/
theorem ParseSpellEffect_dispatch_default (d : Describer) (pSpell : SPELLDEF)
    (i level spa base base2 max calc_ : Int) (hspa : spa < 0 ∨ 510 < spa)
    (hadj : ParseSpellEffect_adjust d spa base base2 max = (base, max))
    (hblock : spa ≠ d.SPA_STACKING_BLOCK) :
    ParseSpellEffect_dispatch d pSpell i level spa base base2 max calc_
      = GetSpellEffectName d spa ++ " (base=" ++ fmt_d base ++ ", base2=" ++ fmt_d base2
        ++ ", max=" ++ fmt_d max ++ ", calc=" ++ fmt_d calc_ ++ ", value="
        ++ fmt_d (CalcValue calc_ base max 1 (CalcMinSpellLevel d pSpell.toSPELL)
            (CalcMinSpellLevel d pSpell.toSPELL)) ++ ")" := by
  unfold ParseSpellEffect_dispatch
  have h1 : ¬ (1 ≤ spa ∧ spa ≤ 11) := by omega
  have h2 : spa < 0 ∨ spa > 510 := by omega
  simp only [hadj, if_neg h1, if_pos h2, if_neg hblock]

/-- C21: for an in-range slot whose attribute code is outside the cases 0 to 510 of the
dispatch, `ParseSpellEffect` appends exactly
"Slot <i+1>: <effect name> (base=B, base2=B2, max=M, calc=C, value=V)" with the fields of
the slot and `V = CalcValue(C, B, M, 1, minSpellLevel, minSpellLevel)`; the named codes of
the early exits and of the adjustments are cases of the dispatch. -/
theorem ParseSpellEffect_fallback (d : Describer) (g : Globals) (pSpell : SPELLDEF)
    (i : Int) (szBuffer : String) (BufferSize : Nat) (level : Int)
    (hi : 0 ≤ i ∧ i < GetSpellNumEffects pSpell.toSPELL)
    (hn : GetSpellNumEffects pSpell.toSPELL ≤ 2147483647)
    (hspa : GetSpellAttrib g (some pSpell.toSPELL) i < 0
      ∨ 510 < GetSpellAttrib g (some pSpell.toSPELL) i)
    (hnamed : ∀ c ∈ [d.SPA_NOSPELL, d.SPA_CHA, d.SPA_HASTE, d.SPA_PLAYERSIZE,
      d.SPA_BARDOVERHASTE, d.SPA_SUMMONCORPSE, d.SPA_SPELLDAMAGE, d.SPA_HEALING,
      d.SPA_SPELLMANACOST, d.SPA_REAGENTCHANCE, d.SPA_INCSPELLDMG, d.SPA_STACKING_BLOCK],
      0 ≤ c ∧ c ≤ 510) :
    ParseSpellEffect d g pSpell i szBuffer BufferSize level
      = strcat_s szBuffer BufferSize
          ("Slot " ++ fmt_d (i + 1) ++ ": "
            ++ GetSpellEffectName d (GetSpellAttrib g (some pSpell.toSPELL) i)
            ++ " (base=" ++ fmt_d (GetSpellBase g (some pSpell.toSPELL) i)
            ++ ", base2=" ++ fmt_d (GetSpellBase2 g (some pSpell.toSPELL) i)
            ++ ", max=" ++ fmt_d (GetSpellMax g (some pSpell.toSPELL) i)
            ++ ", calc=" ++ fmt_d (GetSpellCalc g (some pSpell.toSPELL) i)
            ++ ", value=" ++ fmt_d (CalcValue (GetSpellCalc g (some pSpell.toSPELL) i)
                (GetSpellBase g (some pSpell.toSPELL) i)
                (GetSpellMax g (some pSpell.toSPELL) i) 1
                (CalcMinSpellLevel d pSpell.toSPELL) (CalcMinSpellLevel d pSpell.toSPELL))
            ++ ")") := by
  have hne : ∀ c, (0 ≤ c ∧ c ≤ 510) → GetSpellAttrib g (some pSpell.toSPELL) i ≠ c := by
    intro c hc h
    omega
  have k1 := hne _ (hnamed d.SPA_NOSPELL (by simp))
  have k2 := hne _ (hnamed d.SPA_CHA (by simp))
  have k3 := hne _ (hnamed d.SPA_HASTE (by simp))
  have k4 := hne _ (hnamed d.SPA_PLAYERSIZE (by simp))
  have k5 := hne _ (hnamed d.SPA_BARDOVERHASTE (by simp))
  have k6 := hne _ (hnamed d.SPA_SUMMONCORPSE (by simp))
  have k7 := hne _ (hnamed d.SPA_SPELLDAMAGE (by simp))
  have k8 := hne _ (hnamed d.SPA_HEALING (by simp))
  have k9 := hne _ (hnamed d.SPA_SPELLMANACOST (by simp))
  have k10 := hne _ (hnamed d.SPA_REAGENTCHANCE (by simp))
  have k11 := hne _ (hnamed d.SPA_INCSPELLDMG (by simp))
  have k12 := hne _ (hnamed d.SPA_STACKING_BLOCK (by simp))
  have hslot : add32 i 1 = i + 1 := by
    unfold add32
    exact wrap32_of_range (by omega) (by omega)
  have hsz : ParseSpellEffect_szBuff d g pSpell i level
      = some ("Slot " ++ (fmt_d (i + 1) ++ ": "
        ++ ParseSpellEffect_dispatch d pSpell i level
            (GetSpellAttrib g (some pSpell.toSPELL) i) (GetSpellBase g (some pSpell.toSPELL) i)
            (GetSpellBase2 g (some pSpell.toSPELL) i) (GetSpellMax g (some pSpell.toSPELL) i)
            (GetSpellCalc g (some pSpell.toSPELL) i))) := by
    unfold ParseSpellEffect_szBuff
    simp only [if_neg k1, k2, false_and, if_false, hslot]
  unfold ParseSpellEffect
  rw [hsz]
  show strcat_s szBuffer BufferSize _ = _
  rw [ParseSpellEffect_dispatch_default d pSpell i level _ _ _ _ _ hspa
    (ParseSpellEffect_adjust_other d _ _ _ _ k3 k4 k5 k6 k7 k8 k9 k10 k11) k12]
  simp only [String.append_assoc]

/-- Witness for C21: a slot {Attrib=600, Base=7, Base2=3, Max=9, Calc=100}. -/
theorem ParseSpellEffect_fallback_witness :
    ParseSpellEffect testDescriber sceneUnknown_globals sceneAC 0 "" 2048 100
      = some "Slot 1: Unknown SPA[600] (base=7, base2=3, max=9, calc=100, value=7)" :=
  (ParseSpellEffect_fallback testDescriber sceneUnknown_globals sceneAC 0 "" 2048 100
    (by decide) (by decide) (by decide) (by decide)).trans (by decide)

/-- C22, counterexample: for a summon-corpse slot with Base 60 and Max 5 the effective
base is 0, not the raw Max 5; the effective max is the raw Base 60. -/
theorem ParseSpellEffect_summon_corpse_counterexample :
    testDescriber.SPA_SUMMONCORPSE = 91
      ∧ ParseSpellEffect_adjust testDescriber 91 60 0 5 = (0, 60)
      ∧ (ParseSpellEffect_adjust testDescriber 91 60 0 5).1 ≠ 5 := by
  decide

/-- C22, amended: for a slot with the summon-corpse attribute code (a case label of its
own, distinct from the three haste and size codes), the pre-dispatch adjustment moves the
raw Base into the effective max and sets the effective base to 0, for every raw Base,
Base2 and Max. -/
theorem ParseSpellEffect_summon_corpse (d : Describer) (base base2 max : Int)
    (hcase : d.SPA_SUMMONCORPSE ≠ d.SPA_HASTE ∧ d.SPA_SUMMONCORPSE ≠ d.SPA_PLAYERSIZE
      ∧ d.SPA_SUMMONCORPSE ≠ d.SPA_BARDOVERHASTE) :
    (ParseSpellEffect_adjust d d.SPA_SUMMONCORPSE base base2 max).1 = 0
      ∧ (ParseSpellEffect_adjust d d.SPA_SUMMONCORPSE base base2 max).2 = base := by
  unfold ParseSpellEffect_adjust
  simp only [hcase.1, hcase.2.1, hcase.2.2, or_self, if_false, if_true, and_self]

/-- Witness for C22 amended: code 91 with Base 60 and Max 5. -/
theorem ParseSpellEffect_summon_corpse_witness :
    (ParseSpellEffect_adjust testDescriber testDescriber.SPA_SUMMONCORPSE 60 0 5).1 = 0
      ∧ (ParseSpellEffect_adjust testDescriber testDescriber.SPA_SUMMONCORPSE 60 0 5).2 = 60 :=
  ParseSpellEffect_summon_corpse testDescriber 60 0 5 (by decide)

/-- C23, evaluated at the failing input: spell 1 has one effect, and slot index 1 is past
it.  `GetSpellAttrib` reads the attribute code 0 there, not 254, so `ParseSpellEffect`
takes no early exit: it appends the slot number and the text of dispatch case 0, whatever
that text is, and the caller's buffer does not stay empty. -/
theorem ParseSpellEffect_absent_slot_rendered (text : String) :
    GetSpellNumEffects sceneAC.toSPELL = 1
      ∧ GetSpellAttrib sceneAC_globals (some sceneAC.toSPELL) 1 = 0
      ∧ ParseSpellEffect { testDescriber with otherCases := fun _ _ _ => text }
          sceneAC_globals sceneAC 1 "" 2048 100 = strcat_s "" 2048 ("Slot 2: " ++ text)
      ∧ ParseSpellEffect { testDescriber with otherCases := fun _ _ _ => text }
          sceneAC_globals sceneAC 1 "" 2048 100 ≠ some "" := by
  have h3 : ParseSpellEffect { testDescriber with otherCases := fun _ _ _ => text }
      sceneAC_globals sceneAC 1 "" 2048 100 = strcat_s "" 2048 ("Slot 2: " ++ text) := rfl
  refine ⟨by decide, by decide, h3, ?_⟩
  rw [h3]
  unfold strcat_s
  split
  · intro h
    injection h with h
    have hl := congrArg String.length h
    rw [String.length_append, String.length_append] at hl
    have h8 : "Slot 2: ".length = 8 := by decide
    have h0 : "".length = 0 := by decide
    omega
  · intro h
    exact Option.noConfusion h

/-! ## Spell index: claims -/

/-- The loop of `PopulateTriggeredmap` leaves the entry of `k` alone when none of the
slots it visits carries a recursive-effect code with `Base2 = k` and `k ≠ 0`. -/
theorem PopulateTriggeredmap_loop_miss (g : Globals) (pSpell : SPELLDEF) (k : Int) :
    ∀ (n : Nat) (i : Int) (m : Int → Option Int),
      (∀ j : Int, i ≤ j → j < i + n →
        ¬ (IsRecursiveEffect2 (GetSpellAttrib g (some pSpell.toSPELL) j) = true
          ∧ GetSpellBase2 g (some pSpell.toSPELL) j = k ∧ k ≠ 0)) →
      PopulateTriggeredmap_loop g pSpell n i m k = m k := by
  intro n
  induction n with
  | zero => intro i m _; rfl
  | succ n ih =>
    intro i m h
    unfold PopulateTriggeredmap_loop
    dsimp only
    rw [ih (i + 1) _ (fun j h1 h2 => h j (by omega) (by push_cast; omega))]
    have hi := h i (le_refl i) (by push_cast; omega)
    by_cases hrec : IsRecursiveEffect2 (GetSpellAttrib g (some pSpell.toSPELL) i) = true
    · rw [if_pos hrec]
      by_cases hz : GetSpellBase2 g (some pSpell.toSPELL) i ≠ 0
      · rw [if_pos hz]
        have hk : ¬ (k = GetSpellBase2 g (some pSpell.toSPELL) i) := by
          intro hk
          exact hi ⟨hrec, hk.symm, by rw [hk]; exact hz⟩
        show (if k = GetSpellBase2 g (some pSpell.toSPELL) i then some pSpell.ID else m k) = m k
        rw [if_neg hk]
      · rw [if_neg hz]
    · rw [if_neg hrec]

/-- The loop of `PopulateTriggeredmap` sets the entry of `k` to the spell's ID when one
of the slots it visits carries a recursive-effect code with `Base2 = k` and `k ≠ 0`. -/
theorem PopulateTriggeredmap_loop_hit (g : Globals) (pSpell : SPELLDEF) (k : Int) :
    ∀ (n : Nat) (i : Int) (m : Int → Option Int),
      (∃ j : Int, i ≤ j ∧ j < i + n
        ∧ IsRecursiveEffect2 (GetSpellAttrib g (some pSpell.toSPELL) j) = true
        ∧ GetSpellBase2 g (some pSpell.toSPELL) j = k ∧ k ≠ 0) →
      PopulateTriggeredmap_loop g pSpell n i m k = some pSpell.ID := by
  intro n
  induction n with
  | zero =>
    intro i m h
    obtain ⟨j, h1, h2, _⟩ := h
    exfalso
    simp at h2
    omega
  | succ n ih =>
    intro i m h
    unfold PopulateTriggeredmap_loop
    dsimp only
    by_cases hlater : ∃ j : Int, i + 1 ≤ j ∧ j < i + 1 + n
        ∧ IsRecursiveEffect2 (GetSpellAttrib g (some pSpell.toSPELL) j) = true
        ∧ GetSpellBase2 g (some pSpell.toSPELL) j = k ∧ k ≠ 0
    · exact ih (i + 1) _ hlater
    · have hmiss : ∀ j : Int, i + 1 ≤ j → j < i + 1 + n →
          ¬ (IsRecursiveEffect2 (GetSpellAttrib g (some pSpell.toSPELL) j) = true
            ∧ GetSpellBase2 g (some pSpell.toSPELL) j = k ∧ k ≠ 0) :=
        fun j h1 h2 h3 => hlater ⟨j, h1, h2, h3⟩
      rw [PopulateTriggeredmap_loop_miss g pSpell k n (i + 1) _ hmiss]
      obtain ⟨j, h1, h2, hrec, hb, hk⟩ := h
      have hji : j = i := by
        by_contra hne
        exact hlater ⟨j, by omega, by push_cast at h2; omega, hrec, hb, hk⟩
      subst hji
      rw [if_pos hrec]
      have hz : GetSpellBase2 g (some pSpell.toSPELL) j ≠ 0 := by rw [hb]; exact hk
      rw [if_pos hz]
      show (if k = GetSpellBase2 g (some pSpell.toSPELL) j then some pSpell.ID else m k) = _
      rw [if_pos hb.symm]

/-- C24, counterexample: code 374 is a recursive-effect code, and a slot {Attrib=374,
Base2=77} of spell 50 records the entry 77 -> 50. -/
theorem IsRecursiveEffect2_counterexample :
    IsRecursiveEffect2 374 = true
      ∧ GetSpellAttrib sceneTrigger374_globals (some sceneTrigger374.toSPELL) 0 = 374
      ∧ PopulateTriggeredmap sceneTrigger374_globals sceneTrigger374 (fun _ => none) 77
          = some 50 := by
  decide

/-- C24, amended: `IsRecursiveEffect2(spa)` is true exactly for the five codes 340, 374,
469, 470 and 475.  For a spell whose `CannotBeScribed` is not 1, `PopulateTriggeredmap`
sets the entry of `k` to the spell's ID when one of the spell's slots carries one of
those codes with `Base2 = k`, `k ≠ 0`, and leaves the entry of `k` as it was otherwise;
for a spell whose `CannotBeScribed` is 1 it leaves the whole index as it was. -/
theorem IsRecursiveEffect2_spec (g : Globals) (pSpell : SPELLDEF)
    (s_triggeredSpells : Int → Option Int) (k : Int) :
    (∀ spa : Int, IsRecursiveEffect2 spa = true
        ↔ spa = 340 ∨ spa = 374 ∨ spa = 469 ∨ spa = 470 ∨ spa = 475)
      ∧ (pSpell.CannotBeScribed ≠ 1 →
          (∃ i : Int, 0 ≤ i ∧ i < GetSpellNumEffects pSpell.toSPELL
            ∧ IsRecursiveEffect2 (GetSpellAttrib g (some pSpell.toSPELL) i) = true
            ∧ GetSpellBase2 g (some pSpell.toSPELL) i = k ∧ k ≠ 0) →
          PopulateTriggeredmap g pSpell s_triggeredSpells k = some pSpell.ID)
      ∧ (pSpell.CannotBeScribed ≠ 1 →
          (¬ ∃ i : Int, 0 ≤ i ∧ i < GetSpellNumEffects pSpell.toSPELL
            ∧ IsRecursiveEffect2 (GetSpellAttrib g (some pSpell.toSPELL) i) = true
            ∧ GetSpellBase2 g (some pSpell.toSPELL) i = k ∧ k ≠ 0) →
          PopulateTriggeredmap g pSpell s_triggeredSpells k = s_triggeredSpells k)
      ∧ (pSpell.CannotBeScribed = 1 →
          PopulateTriggeredmap g pSpell s_triggeredSpells = s_triggeredSpells) := by
  refine ⟨?_, ?_, ?_, ?_⟩
  · intro spa
    unfold IsRecursiveEffect2
    rw [decide_eq_true_iff]
    omega
  · intro hc h
    unfold PopulateTriggeredmap
    rw [if_neg hc]
    apply PopulateTriggeredmap_loop_hit
    obtain ⟨i, h1, h2, h3⟩ := h
    exact ⟨i, by omega, by omega, h3⟩
  · intro hc h
    unfold PopulateTriggeredmap
    rw [if_neg hc]
    apply PopulateTriggeredmap_loop_miss
    intro j h1 h2 h3
    exact h ⟨j, by omega, by omega, h3⟩
  · intro hc
    unfold PopulateTriggeredmap
    rw [if_pos hc]

/-- Witness for C24 amended: spell 51 with the slots {Attrib=470, Base2=78} and
{Attrib=1, Base2=79} records 78 -> 51 and nothing for 79. -/
theorem IsRecursiveEffect2_spec_witness :
    PopulateTriggeredmap sceneTrigger470_globals sceneTrigger470 (fun _ => none) 78 = some 51
      ∧ PopulateTriggeredmap sceneTrigger470_globals sceneTrigger470 (fun _ => none) 79
          = none
      ∧ IsRecursiveEffect2 470 = true ∧ IsRecursiveEffect2 1 = false :=
  ⟨(IsRecursiveEffect2_spec sceneTrigger470_globals sceneTrigger470 (fun _ => none) 78).2.1
      (by decide) ⟨0, by decide, by decide, by decide, by decide, by decide⟩,
    by decide, by decide, by decide⟩

/-- C25: `GetSpellCategory` and `GetSpellSubcategory` return 0 for a null spell; the
spell's own Category and Subcategory when `CannotBeScribed` is not set; and when it is
set, the Category and Subcategory of the spell that the by-ID lookup gives for the parent
ID recorded under the spell's ID in the triggered-spell index, and 0 when the index has
no entry for that ID (or the recorded parent ID has no spell definition). -/
theorem GetSpellCategory_spec (x : SpellIndex) (s : SPELLDEF) :
    (GetSpellCategory x none = 0 ∧ GetSpellSubcategory x none = 0)
      ∧ (s.CannotBeScribed = 0 →
          GetSpellCategory x (some s) = s.Category
            ∧ GetSpellSubcategory x (some s) = s.Subcategory)
      ∧ (s.CannotBeScribed ≠ 0 → ∀ (parent : Int) (p : SPELLDEF),
          x.s_triggeredSpells s.ID = some parent → x.GetSpellByID parent = some p →
          GetSpellCategory x (some s) = p.Category
            ∧ GetSpellSubcategory x (some s) = p.Subcategory)
      ∧ (s.CannotBeScribed ≠ 0 → x.s_triggeredSpells s.ID = none →
          GetSpellCategory x (some s) = 0 ∧ GetSpellSubcategory x (some s) = 0)
      ∧ (s.CannotBeScribed ≠ 0 → ∀ parent : Int,
          x.s_triggeredSpells s.ID = some parent → x.GetSpellByID parent = none →
          GetSpellCategory x (some s) = 0 ∧ GetSpellSubcategory x (some s) = 0) := by
  refine ⟨⟨rfl, rfl⟩, ?_, ?_, ?_, ?_⟩
  · intro h
    unfold GetSpellCategory GetSpellSubcategory
    simp [h]
  · intro h parent p h1 h2
    unfold GetSpellCategory GetSpellSubcategory GetSpellParent
    simp [h, h1, h2]
  · intro h h1
    unfold GetSpellCategory GetSpellSubcategory GetSpellParent
    simp [h, h1]
  · intro h parent h1 h2
    unfold GetSpellCategory GetSpellSubcategory GetSpellParent
    simp [h, h1, h2]

/-- Witness for C25: spell 61 cannot be scribed and has the parent 60 in the index; the
category functions give the parent's 5 and 6, not the spell's own 9 and 10. -/
theorem GetSpellCategory_spec_witness :
    GetSpellCategory sceneIndex (some sceneChild) = 5
      ∧ GetSpellSubcategory sceneIndex (some sceneChild) = 6 :=
  (GetSpellCategory_spec sceneIndex sceneChild).2.2.1 (by decide) 60 sceneParent
    (by decide) (by decide)

/-- C30, evaluated at the failing input: the name index holds the spells 70 and 71 under
"minor healing", the database is loaded, and the character is a level 50 member of class
2, for which spell 71 has the highest class level (20) not above 50.  The two loops select
spell 71, and the function returns null; with the single spell 60 under "courage" it
returns that spell. -/
theorem GetSpellByName_duplicates_null :
    sceneNames.gbSpelldbLoaded = true
      ∧ sceneLookup.GetCharInfo2 = some ⟨2, 50⟩
      ∧ GetSpellByName_select sceneLookup ⟨2, 50⟩ (some sceneHealing70)
          [(70, some sceneHealing70), (71, some sceneHealing71)] = some sceneHealing71
      ∧ GetSpellByName sceneLookup sceneNames (some "Minor Healing") = none
      ∧ GetSpellByName sceneLookup sceneNames (some "Courage") = some sceneParent := by
  decide

/-! ## Stacking resolver: unresolvable targets, dominating effects and absent target slots -/

/-- C26, evaluated at the failing input: spell 1 carries {Attrib=1, Base=5}, spell 30 the
proc {Attrib=85, Base=999}, and the by-ID lookup has no spell 999.  In active play the
test `bSpell->ID == pRetSpellB->ID` of line 7230 dereferences the null lookup result, in
either order of the pair, for both flags and at every recursion depth. -/
theorem BuffStackTest_dangling_trigger_fault (fuel : Nat) (ign rec : Bool) :
    ActivePlay sceneDanglingB_globals
      ∧ GetSpellAttrib sceneDanglingB_globals (some sceneDanglingB) 0 = 85
      ∧ GetSpellBase sceneDanglingB_globals (some sceneDanglingB) 0 = 999
      ∧ sceneDanglingB_globals.GetSpellByID 999 = none
      ∧ BuffStackTest sceneDanglingB_globals fuel (some sceneA) (some sceneDanglingB) ign rec
          = StackResult.fault
      ∧ BuffStackTest sceneDanglingB_globals fuel (some sceneDanglingB) (some sceneA) ign rec
          = StackResult.fault := by
  refine ⟨testGlobals_active _ _, by decide, by decide, by decide, ?_, ?_⟩
  · cases fuel <;> cases ign <;> cases rec <;> rfl
  · cases fuel <;> cases ign <;> cases rec <;> rfl

/-- C28, evaluated at the failing input: spell 1 carries {Attrib=1, Base=5} and spell 2 a
directive with target code 1 whose decoded target slot index is -1 (code 148 with
Base2 = 0, or code 149 with Calc = 200).  The index -1 passes the test
`GetSpellNumEffects(aSpell) > tmpSlot`, `GetSpellAttrib(aSpell, -1)` reads slot 0 of
spell 1, whose code 1 equals the target code, and `BuffStackTest` returns false. -/
theorem BuffStackTest_negative_target_slot (fuel : Nat) (ign rec : Bool) :
    ActivePlay sceneNoSlot_globals
      ∧ TriggeringEffectSpell sceneNoSlot_globals sceneA 0 = false
      ∧ sub32 (GetSpellBase2 sceneNoSlot_globals (some sceneB) 0) 1 = -1
      ∧ sub32 (sub32 (GetSpellCalc sceneNoSlot149_globals (some sceneB) 0) 200) 1 = -1
      ∧ GetSpellAttrib sceneNoSlot_globals (some sceneA) (-1) = 1
      ∧ BuffStackTest_direct sceneNoSlot_globals sceneA sceneB ign rec 0 = false
      ∧ BuffStackTest sceneNoSlot_globals fuel (some sceneA) (some sceneB) ign rec
          = StackResult.value false
      ∧ BuffStackTest sceneNoSlot149_globals fuel (some sceneA) (some sceneB) ign rec
          = StackResult.value false := by
  refine ⟨testGlobals_active _ _, by decide, by decide, by decide, by decide, ?_, ?_, ?_⟩
  · cases ign <;> cases rec <;> rfl
  · cases fuel <;> cases ign <;> cases rec <;> rfl
  · cases fuel <;> cases ign <;> cases rec <;> rfl

/-- C27: in active play, for two spells with distinct IDs that each have exactly one
effect slot, with the same attribute code at slot 0, where the code is none of the codes
that `SpellEffectTest` ignores, not a triggering code, not 148 or 149, no exception of the
direct comparison holds on either side, and the spells are not exempted by their duration
windows, `BuffStackTest(A, B, false, false)` returns, at every recursion depth, true when
`abs(Base(A,0)) ≥ abs(Base(B,0))` and false otherwise. -/
theorem BuffStackTest_dominating_effect (g : Globals) (fuel : Nat) (a b : SPELL)
    (hctx : ActivePlay g) (hid : a.ID ≠ b.ID)
    (ha : GetSpellNumEffects a = 1) (hb : GetSpellNumEffects b = 1)
    (hcode : GetSpellAttrib g (some a) 0 = GetSpellAttrib g (some b) 0)
    (hign : ∀ k ∈ [(57 : Int), 134, 135, 136, 137, 138, 139, 140, 141, 142, 143, 144, 254,
      311, 339, 340, 348, 385, 391, 403, 404, 411, 412, 414, 422, 423, 428],
      GetSpellAttrib g (some a) 0 ≠ k)
    (hnt : ∀ k ∈ [(85 : Int), 374, 419], GetSpellAttrib g (some a) 0 ≠ k)
    (hnd : ∀ k ∈ [(148 : Int), 149], GetSpellAttrib g (some a) 0 ≠ k)
    (hexc : ¬ ((GetSpellAttrib g (some a) 0 = 10
            ∧ (GetSpellBase g (some a) 0 = -6 ∨ GetSpellBase g (some a) 0 = 0
                ∨ GetSpellBase g (some b) 0 = -6 ∨ GetSpellBase g (some b) 0 = 0))
          ∨ (GetSpellAttrib g (some a) 0 = 79
            ∧ ((GetSpellBase g (some a) 0 > 0 ∧ a.TargetType = 6)
                ∨ (GetSpellBase g (some b) 0 > 0 ∧ b.TargetType = 6)))
          ∨ (GetSpellAttrib g (some a) 0 = 0
            ∧ (GetSpellBase g (some a) 0 < 0 ∨ GetSpellBase g (some b) 0 < 0))))
    (hdur : ¬ ((a.SpellType = 1 ∨ a.SpellType = 2) ∧ (b.SpellType = 1 ∨ b.SpellType = 2)
      ∧ a.DurationWindow ≠ b.DurationWindow))
    (hra : InRange (GetSpellBase g (some a) 0)) (hrb : InRange (GetSpellBase g (some b) 0)) :
    BuffStackTest g fuel (some a) (some b) false false
      = StackResult.value (decide (|GetSpellBase g (some a) 0| ≥ |GetSpellBase g (some b) 0|))
      ∧ (BuffStackTest g fuel (some a) (some b) false false = StackResult.value true
          ↔ |GetSpellBase g (some a) 0| ≥ |GetSpellBase g (some b) 0|) := by
  have hmain : BuffStackTest g fuel (some a) (some b) false false
      = StackResult.value
          (decide (|GetSpellBase g (some a) 0| ≥ |GetSpellBase g (some b) 0|)) := by
    obtain ⟨recurse, hr⟩ := BuffStackTest_eq_body g fuel (some a) (some b) false false
    rw [hr, BuffStackTest_body_active g recurse a b false false hctx hid, ha, hb]
    generalize hc : GetSpellAttrib g (some a) 0 = c at hcode hign hnt hnd hexc
    have hcb : GetSpellAttrib g (some b) 0 = c := hcode.symm
    have t1 := hnt 85 (by simp)
    have t2 := hnt 374 (by simp)
    have t3 := hnt 419 (by simp)
    have d1 := hnd 148 (by simp)
    have d2 := hnd 149 (by simp)
    have hta : TriggeringEffectSpell g a 0 = false := by
      unfold TriggeringEffectSpell; simp [ha, hc, t1, t2, t3]
    have htb : TriggeringEffectSpell g b 0 = false := by
      unfold TriggeringEffectSpell; simp [hb, hcb, t1, t2, t3]
    have hblock : BuffStackTest_block g a b 0 = false := by
      unfold BuffStackTest_block; simp [hb, hcb, d1, d2]
    have hlet : LargerEffectTest g a b 0 false
        = decide (|GetSpellBase g (some a) 0| ≥ |GetSpellBase g (some b) 0|) := by
      unfold LargerEffectTest
      simp [ha, hb, hc, hcb, abs32_of_inRange hra, abs32_of_inRange hrb]
    have hset : SpellEffectTest g a b 0 false false
        = decide (|GetSpellBase g (some a) 0| ≥ |GetSpellBase g (some b) 0|) := by
      unfold SpellEffectTest
      have hd : ((a.SpellType = 1 ∨ a.SpellType = 2) ∧ (b.SpellType = 1 ∨ b.SpellType = 2)
          ∧ ¬ (a.DurationWindow = b.DurationWindow)) ↔ False := iff_false_intro hdur
      have hone : (1 : Int) > 0 := by decide
      simp only [ha, hb, hc, hcb, hlet, hta, htb, hone, if_true, hd,
        hign 57 (by simp), hign 134 (by simp), hign 135 (by simp),
        hign 136 (by simp), hign 137 (by simp), hign 138 (by simp), hign 139 (by simp),
        hign 140 (by simp), hign 141 (by simp), hign 142 (by simp), hign 143 (by simp),
        hign 144 (by simp), hign 254 (by simp), hign 311 (by simp), hign 339 (by simp),
        hign 340 (by simp), hign 348 (by simp), hign 385 (by simp), hign 391 (by simp),
        hign 403 (by simp), hign 404 (by simp), hign 411 (by simp), hign 412 (by simp),
        hign 414 (by simp), hign 422 (by simp), hign 423 (by simp), hign 428 (by simp),
        or_self, false_or, or_false, decide_eq_true_eq, Bool.false_eq_true, false_and,
        and_false]
    have hdirect : BuffStackTest_direct g a b false false 0
        = !(SpellEffectTest g a b 0 false false) := by
      unfold BuffStackTest_direct
      simp only [ha, hb, hc, hcb, d1, d2]
      have e10 : ¬ (c = 10 ∧ (GetSpellBase g (some b) 0 = -6 ∨ GetSpellBase g (some b) 0 = 0)) :=
        fun h => hexc (Or.inl ⟨h.1, by tauto⟩)
      have e10a : ¬ (c = 10 ∧ (GetSpellBase g (some a) 0 = -6 ∨ GetSpellBase g (some a) 0 = 0)) :=
        fun h => hexc (Or.inl ⟨h.1, by tauto⟩)
      have e79 : ¬ (c = 79 ∧ GetSpellBase g (some b) 0 > 0 ∧ b.TargetType = 6) :=
        fun h => hexc (Or.inr (Or.inl ⟨h.1, Or.inr h.2⟩))
      have e79a : ¬ (c = 79 ∧ GetSpellBase g (some a) 0 > 0 ∧ a.TargetType = 6) :=
        fun h => hexc (Or.inr (Or.inl ⟨h.1, Or.inl h.2⟩))
      have e0 : ¬ (c = 0 ∧ GetSpellBase g (some b) 0 < 0) :=
        fun h => hexc (Or.inr (Or.inr ⟨h.1, Or.inr h.2⟩))
      have e0a : ¬ (c = 0 ∧ GetSpellBase g (some a) 0 < 0) :=
        fun h => hexc (Or.inr (Or.inr ⟨h.1, Or.inl h.2⟩))
      simp [e10, e10a, e79, e79a, e0, e0a, d1, d2]
    show BuffStackTest_loop g recurse a b false false 1 0 = _
    unfold BuffStackTest_loop
    rw [BuffStackTest_slot_plain g recurse a b false false 0 hta htb, hblock, hdirect, hset]
    by_cases h : |GetSpellBase g (some a) 0| ≥ |GetSpellBase g (some b) 0|
    · simp [h, BuffStackTest_loop]
    · simp [h]
  refine ⟨hmain, ?_⟩
  rw [hmain]
  by_cases h : |GetSpellBase g (some a) 0| ≥ |GetSpellBase g (some b) 0|
  · simp [h]
  · simp [h]

/-- Witness for C27: {Attrib=69, Base=10} against {Attrib=69, Base=50} does not stack,
and the same spells in the other order do. -/
theorem BuffStackTest_dominating_effect_witness :
    BuffStackTest sceneB_weaker_globals 0 (some sceneA) (some sceneB) false false
        = StackResult.value false
      ∧ BuffStackTest sceneB_weaker_globals 0 (some sceneB) (some sceneA) false false
        = StackResult.value true :=
  ⟨(BuffStackTest_dominating_effect sceneB_weaker_globals 0 sceneA sceneB
      (testGlobals_active _ _) (by decide) (by decide) (by decide) (by decide) (by decide)
      (by decide) (by decide) (by decide) (by decide) (by decide) (by decide)).1.trans
      (by decide),
    by decide⟩

/-! ## Termination of the trigger-chain recursion -/

/-- When the trigger-chain part of an iteration ends with `outOfFuel`, a side is
triggering, both looked-up spells exist, no triggering side resolves to its own ID, and
the recursive call on the looked-up spells has come to `outOfFuel`. -/
theorem BuffStackTest_trigger_outOfFuel (g : Globals)
    (recurse : PSPELL → PSPELL → Bool → Bool → StackResult) (a b : SPELL) (ign : Bool)
    (i : Int)
    (h : BuffStackTest_trigger g recurse a b ign i = some StackResult.outOfFuel) :
    (TriggeringEffectSpell g a i = true ∨ TriggeringEffectSpell g b i = true)
      ∧ BuffStackTest_selfTrigger (TriggeringEffectSpell g a i) a
          (g.GetSpellByID (BuffStackTest_resolveID g a i)) = some false
      ∧ BuffStackTest_selfTrigger (TriggeringEffectSpell g b i) b
          (g.GetSpellByID (BuffStackTest_resolveID g b i)) = some false
      ∧ recurse (g.GetSpellByID (BuffStackTest_resolveID g a i))
          (g.GetSpellByID (BuffStackTest_resolveID g b i)) ign true
          = StackResult.outOfFuel := by
  unfold BuffStackTest_trigger at h
  dsimp only at h
  by_cases ht : TriggeringEffectSpell g a i = true ∨ TriggeringEffectSpell g b i = true
  · rw [if_pos ht] at h
    cases hsa : BuffStackTest_selfTrigger (TriggeringEffectSpell g a i) a
        (g.GetSpellByID (BuffStackTest_resolveID g a i)) with
    | none => rw [hsa] at h; simp at h
    | some va =>
      rw [hsa] at h
      cases va with
      | true => simp at h
      | false =>
        cases hsb : BuffStackTest_selfTrigger (TriggeringEffectSpell g b i) b
            (g.GetSpellByID (BuffStackTest_resolveID g b i)) with
        | none => rw [hsb] at h; simp at h
        | some vb =>
          rw [hsb] at h
          cases vb with
          | true => simp at h
          | false =>
            refine ⟨ht, rfl, rfl, ?_⟩
            dsimp only at h
            cases hrec : recurse (g.GetSpellByID (BuffStackTest_resolveID g a i))
                (g.GetSpellByID (BuffStackTest_resolveID g b i)) ign true with
            | value v => rw [hrec] at h; cases v <;> simp at h
            | fault => rw [hrec] at h; simp at h
            | outOfFuel => rfl
  · rw [if_neg ht] at h
    exact Option.noConfusion h

/-- The slot loop does not end with `outOfFuel` unless the trigger-chain part of one of
its iterations does. -/
theorem BuffStackTest_loop_ne_outOfFuel (g : Globals)
    (recurse : PSPELL → PSPELL → Bool → Bool → StackResult) (a b : SPELL) (ign rec : Bool)
    (h : ∀ i : Int, 0 ≤ i →
      BuffStackTest_trigger g recurse a b ign i ≠ some StackResult.outOfFuel) :
    ∀ (n : Nat) (i : Int), 0 ≤ i →
      BuffStackTest_loop g recurse a b ign rec n i ≠ StackResult.outOfFuel := by
  intro n
  induction n with
  | zero =>
    intro i _ hc
    unfold BuffStackTest_loop at hc
    exact StackResult.noConfusion hc
  | succ n ih =>
    intro i hi hc
    unfold BuffStackTest_loop BuffStackTest_slot at hc
    cases htr : BuffStackTest_trigger g recurse a b ign i with
    | some r =>
      rw [htr] at hc
      dsimp only at hc
      rw [hc] at htr
      exact h i hi htr
    | none =>
      rw [htr] at hc
      dsimp only at hc
      by_cases hd : BuffStackTest_direct g a b ign rec i = true
      · rw [if_pos hd] at hc
        exact StackResult.noConfusion hc
      · rw [if_neg hd] at hc
        by_cases hb : BuffStackTest_block g a b i = true
        · rw [if_pos hb] at hc
          exact StackResult.noConfusion hc
        · rw [if_neg hb] at hc
          exact ih (i + 1) (by omega) hc

/-- The body of `BuffStackTest` does not end with `outOfFuel` unless the trigger-chain
part of an iteration does. -/
theorem BuffStackTest_body_ne_outOfFuel (g : Globals)
    (recurse : PSPELL → PSPELL → Bool → Bool → StackResult) (a b : SPELL) (ign rec : Bool)
    (h : ∀ i : Int, 0 ≤ i →
      BuffStackTest_trigger g recurse a b ign i ≠ some StackResult.outOfFuel) :
    BuffStackTest_body g recurse (some a) (some b) ign rec ≠ StackResult.outOfFuel := by
  intro hc
  unfold BuffStackTest_body at hc
  cases hp : g.pLocalPlayer with
  | none => rw [hp] at hc; exact StackResult.noConfusion hc
  | some pSpawn =>
    rw [hp] at hc
    dsimp only at hc
    split_ifs at hc
    exact BuffStackTest_loop_ne_outOfFuel g recurse a b ign rec h _ 0 (le_refl 0) hc

/-- A slot with a triggering code is a slot of the spell. -/
theorem TriggeringEffectSpell_slot (g : Globals) (s : SPELL) (i : Int)
    (h : TriggeringEffectSpell g s i = true) : i < GetSpellNumEffects s := by
  unfold TriggeringEffectSpell at h
  by_contra hn
  have hn2 : ¬ (GetSpellNumEffects s > i) := hn
  rw [if_neg hn2] at h
  exact absurd h (by decide)

/-- The spell a side of the pair is replaced by in the recursive call: a spell of the
database whose depth is not larger, and smaller when the side is triggering. -/
theorem BuffStackTest_resolve_depth (g : Globals) (depth : Int → Nat)
    (hdb : ∀ id s, g.GetSpellByID id = some s → s.ID = id)
    (hdepth : ∀ id s, g.GetSpellByID id = some s → ∀ i : Int, 0 ≤ i →
      i < GetSpellNumEffects s → TriggeringEffectSpell g s i = true →
      ∀ t, g.GetSpellByID (BuffStackTest_resolveID g s i) = some t → t.ID ≠ s.ID →
      depth t.ID < depth s.ID)
    (a : SPELL) (ha : g.GetSpellByID a.ID = some a) (i : Int) (hi : 0 ≤ i)
    (hs : BuffStackTest_selfTrigger (TriggeringEffectSpell g a i) a
      (g.GetSpellByID (BuffStackTest_resolveID g a i)) = some false) :
    ∃ r, g.GetSpellByID (BuffStackTest_resolveID g a i) = some r
      ∧ g.GetSpellByID r.ID = some r ∧ depth r.ID ≤ depth a.ID
      ∧ (TriggeringEffectSpell g a i = true → depth r.ID < depth a.ID) := by
  cases ht : TriggeringEffectSpell g a i with
  | false =>
    have hres : BuffStackTest_resolveID g a i = a.ID := by
      unfold BuffStackTest_resolveID
      dsimp only
      rw [ht]
      rfl
    rw [hres]
    exact ⟨a, ha, ha, le_refl _, fun h => Bool.noConfusion h⟩
  | true =>
    rw [ht] at hs
    unfold BuffStackTest_selfTrigger at hs
    rw [if_pos rfl] at hs
    cases hl : g.GetSpellByID (BuffStackTest_resolveID g a i) with
    | none => rw [hl] at hs; exact Option.noConfusion hs
    | some r =>
      rw [hl] at hs
      dsimp only at hs
      have hne : ¬ (a.ID = r.ID) := by
        intro he
        rw [decide_eq_true he] at hs
        exact absurd hs (by decide)
      have hlt := hdepth a.ID a ha i hi (TriggeringEffectSpell_slot g a i ht) ht r hl
        (fun he => hne he.symm)
      have hr : g.GetSpellByID r.ID = some r := by
        rw [hdb _ r hl]; exact hl
      exact ⟨r, rfl, hr, le_of_lt hlt, fun _ => hlt⟩

/-- With a depth function that decreases along every trigger edge to another spell,
`BuffStackTest` on two spells of the database does not run out of recursion depth within
the sum of their depths. -/
theorem BuffStackTest_within_depth (g : Globals) (depth : Int → Nat)
    (hdb : ∀ id s, g.GetSpellByID id = some s → s.ID = id)
    (hdepth : ∀ id s, g.GetSpellByID id = some s → ∀ i : Int, 0 ≤ i →
      i < GetSpellNumEffects s → TriggeringEffectSpell g s i = true →
      ∀ t, g.GetSpellByID (BuffStackTest_resolveID g s i) = some t → t.ID ≠ s.ID →
      depth t.ID < depth s.ID) :
    ∀ (n : Nat) (a b : SPELL), g.GetSpellByID a.ID = some a → g.GetSpellByID b.ID = some b →
      depth a.ID + depth b.ID ≤ n → ∀ ign rec : Bool,
      BuffStackTest g n (some a) (some b) ign rec ≠ StackResult.outOfFuel := by
  intro n
  induction n with
  | zero =>
    intro a b ha hb hsum ign rec
    show BuffStackTest_body g _ (some a) (some b) ign rec ≠ _
    apply BuffStackTest_body_ne_outOfFuel
    intro i hi htr
    obtain ⟨ht, hsa, hsb, _⟩ := BuffStackTest_trigger_outOfFuel g _ a b ign i htr
    obtain ⟨rA, _, _, hA1, hA2⟩ := BuffStackTest_resolve_depth g depth hdb hdepth a ha i hi hsa
    obtain ⟨rB, _, _, hB1, hB2⟩ := BuffStackTest_resolve_depth g depth hdb hdepth b hb i hi hsb
    rcases ht with ht | ht
    · have := hA2 ht; omega
    · have := hB2 ht; omega
  | succ n ih =>
    intro a b ha hb hsum ign rec
    show BuffStackTest_body g (BuffStackTest g n) (some a) (some b) ign rec ≠ _
    apply BuffStackTest_body_ne_outOfFuel
    intro i hi htr
    obtain ⟨ht, hsa, hsb, hrec⟩ := BuffStackTest_trigger_outOfFuel g _ a b ign i htr
    obtain ⟨rA, hlA, hrA, hA1, hA2⟩ :=
      BuffStackTest_resolve_depth g depth hdb hdepth a ha i hi hsa
    obtain ⟨rB, hlB, hrB, hB1, hB2⟩ :=
      BuffStackTest_resolve_depth g depth hdb hdepth b hb i hi hsb
    rw [hlA, hlB] at hrec
    have hlt : depth rA.ID + depth rB.ID ≤ n := by
      rcases ht with ht | ht
      · have := hA2 ht; omega
      · have := hB2 ht; omega
    exact ih rA rB hrA hrB hlt ign true hrec

/-- The by-ID lookup of the test data returns a spell with the ID asked for. -/
theorem testGlobals_lookup_id (table : List SPELLCALCINFO) (spells : List SPELL) (id : Int)
    (s : SPELL) (h : (testGlobals table spells).GetSpellByID id = some s) : s.ID = id := by
  have h2 : spells.find? (fun s => decide (s.ID = id)) = some s := h
  have h3 := List.find?_some h2
  exact of_decide_eq_true h3

/-- C29: let the by-ID lookup be a database (it returns a spell with the ID asked for),
and let `depth` be a function on spell IDs that decreases along every trigger edge (codes
85 and 419 through Base, 374 through Base2) from a spell of the database to another
spell; such a function exists exactly when the relation, ignoring slots that point at
their own spell, has no cycle.  Then for every pair A, B of the database and both flags,
`BuffStackTest(A, B, ign, rec)` comes to a result (a boolean, or a fault) within
recursion depth `depth A + depth B`, and to the same result within every larger depth. -/
theorem BuffStackTest_terminates (g : Globals) (depth : Int → Nat)
    (hdb : ∀ id s, g.GetSpellByID id = some s → s.ID = id)
    (hdepth : ∀ id s, g.GetSpellByID id = some s → ∀ i : Int, 0 ≤ i →
      i < GetSpellNumEffects s → TriggeringEffectSpell g s i = true →
      ∀ t, g.GetSpellByID (BuffStackTest_resolveID g s i) = some t → t.ID ≠ s.ID →
      depth t.ID < depth s.ID)
    (a b : SPELL) (ha : g.GetSpellByID a.ID = some a) (hb : g.GetSpellByID b.ID = some b)
    (ign rec : Bool) :
    ∃ r, r ≠ StackResult.outOfFuel
      ∧ ∀ fuel, depth a.ID + depth b.ID ≤ fuel →
          BuffStackTest g fuel (some a) (some b) ign rec = r :=
  ⟨BuffStackTest g (depth a.ID + depth b.ID) (some a) (some b) ign rec,
    BuffStackTest_within_depth g depth hdb hdepth _ a b ha hb (le_refl _) ign rec,
    fun fuel hf => BuffStackTest_mono g _ fuel hf (some a) (some b) ign rec _ rfl
      (BuffStackTest_within_depth g depth hdb hdepth _ a b ha hb (le_refl _) ign rec)⟩

/-- Witness for C29: spell 10 procs spell 11, which triggers nothing; with depth 1 for
spell 10 and 0 for the others, `BuffStackTest` on the spells 10 and 20 has a result within
depth 1. -/
theorem BuffStackTest_terminates_witness :
    ∃ r, r ≠ StackResult.outOfFuel
      ∧ ∀ fuel, 1 ≤ fuel →
          BuffStackTest sceneProc_globals fuel (some sceneProc) (some sceneOther) false false
            = r :=
  BuffStackTest_terminates sceneProc_globals (fun id => if id = 10 then 1 else 0)
    (testGlobals_lookup_id _ _)
    (by
      intro id s hs i h0 h1 ht t hl hne
      have hs2 : [sceneProc, sceneProcTarget, sceneOther].find? (fun s => decide (s.ID = id))
          = some s := hs
      have hmem : s ∈ [sceneProc, sceneProcTarget, sceneOther] :=
        List.mem_of_find?_eq_some hs2
      simp only [List.mem_cons, List.mem_singleton, List.not_mem_nil, or_false] at hmem
      rcases hmem with rfl | rfl | rfl
      · have hi : i = 0 := by
          have : GetSpellNumEffects sceneProc = 1 := by decide
          omega
        subst hi
        have hl2 : sceneProc_globals.GetSpellByID
            (BuffStackTest_resolveID sceneProc_globals sceneProc 0) = some sceneProcTarget := by
          decide
        rw [hl2] at hl
        injection hl with hl
        subst hl
        decide
      · have hi : i = 0 := by
          have : GetSpellNumEffects sceneProcTarget = 1 := by decide
          omega
        subst hi
        exact absurd ht (by decide)
      · have hi : i = 0 := by
          have : GetSpellNumEffects sceneOther = 1 := by decide
          omega
        subst hi
        exact absurd ht (by decide))
    sceneProc sceneOther (by decide) (by decide) false false

end MQ2
